import Mathlib

/-!
# Slugma storefront: cart and session holders

A shallow embedding of the client-held state of the storefront
(`src/context/CartContext.jsx`, `src/context/AuthContext.jsx`,
`src/components/ProtectedRoute.jsx`, `src/pages/CartPage.jsx`,
`src/pages/CheckoutPage.jsx`, `src/pages/LoginPage.jsx`,
`src/pages/OrderDetailPage.jsx`, `src/pages/ProductDetailPage.jsx`,
`src/pages/ProductPage.jsx`) together with theorems about it.

Modelling conventions.

* A React state updater `setX(prev => f(prev))` is the pure function `f`.
* JavaScript numbers are exact: quantities are integers (`Int`), prices are
  rationals (`Rat`).  Rounding of IEEE doubles is outside the model.
* Identifiers (`_id`) are strings and `===` on them is string equality.
* Records are Lean structures; the object spread `{...o, k: v}` is a structure
  update that keeps every other field.
* An `async` handler is one atomic step from the state before it to the state
  after it; the backend it awaits is a function parameter, and the requests a
  handler sends are part of its result.
* A form without `noValidate` dispatches its submit event only when every
  control satisfies the constraints written on it (`required`, `type`, `min`,
  `pattern`); the browser's reading of a number input is a function parameter.
-/

set_option autoImplicit false

/-! ## JavaScript helpers -/

/-- The array method `findIndex`: the index of the first element satisfying
`pred`, or `-1` when there is none. -/
def findIndex {α : Type} (pred : α → Bool) (xs : List α) : Int :=
  if xs.findIdx pred < xs.length then (xs.findIdx pred : Int) else -1

/-- A JavaScript value as far as the client looks at it: `α` is the record type
expected for objects and for the elements of arrays. -/
inductive JsValue (α : Type) where
  | undefined
  | null
  | bool (b : Bool)
  | number (n : Int)
  | string (s : String)
  | array (items : List α)
  | object (o : α)
  deriving DecidableEq, Repr

/-- JavaScript truthiness (`!!v`, `v ? a : b`, `v && w`, `v || w`). -/
def JsValue.truthy {α : Type} : JsValue α → Bool
  | .undefined => false
  | .null => false
  | .bool b => b
  | .number n => n != 0
  | .string s => s != ""
  | .array _ => true
  | .object _ => true

/-- Truthiness of a property that is either absent (`undefined`) or a string. -/
def truthyString : Option String → Bool
  | none => false
  | some s => s != ""

/-- The expression `value || fallback` for a property that is absent or a string. -/
def orElse (value : Option String) (fallback : String) : String :=
  match value with
  | some s => if s != "" then s else fallback
  | none => fallback

/-- A thrown JavaScript `Error`; only its `message` is read by the client. -/
structure JsError where
  message : String
  deriving DecidableEq, Repr

/-- The `TypeError` raised by reading a property of `null` or `undefined`.
The wording is the engine's; nothing below depends on it. -/
def nullPropertyError (prop : String) : JsError :=
  { message := "Cannot read properties of null (reading " ++ prop ++ ")" }

/-- Browser storage (`localStorage`): the stored key/value pairs. -/
abbrev Storage := List (String × String)

/-- The call `storage.getItem(key)`: the stored string, or `none` for `null`. -/
def Storage.getItem (storage : Storage) (key : String) : Option String :=
  storage.lookup key

/-! ## Data model -/

/-- The properties of a product record that the client reads. -/
structure ProductFields where
  _id : String
  name : String
  price : Rat
  image : String
  stock : Int
  size : List String
  colors : List String
  selectedSize : Option String
  selectedColor : Option String
  deriving DecidableEq, Repr

/-- The object handed to `addToCart`.  Besides the product properties it may
carry a `quantity` property of its own (`ProductDetailPage.handleAddToCart`
and the plus button of `CartPage` pass one); `none` is `undefined`. -/
structure Product extends ProductFields where
  quantity : Option Int
  deriving DecidableEq, Repr

/-- One entry of `cartItems`: the product properties and a quantity. -/
structure CartItem extends ProductFields where
  quantity : Int
  deriving DecidableEq, Repr

namespace CartContext

/-- The updater of `addToCart` (CartContext.jsx, lines 40-57). -/
def addToCart (prevItems : List CartItem) (product : Product) : List CartItem :=
  let existingItemIndex := findIndex (fun item => item._id == product._id) prevItems
  if existingItemIndex > -1 then
    let updatedItems := prevItems
    match updatedItems[existingItemIndex.toNat]? with
    | some existing =>
        updatedItems.set existingItemIndex.toNat
          { existing with quantity := existing.quantity + 1 }
    | none => updatedItems
  else
    prevItems ++ [{ toProductFields := product.toProductFields, quantity := 1 }]

/-- The updater of `removeFromCart` (CartContext.jsx, lines 64-81).  The value
modelled is the array the updater returns.  (In the source the decrement is
done in place on the entry object, which the previous array shares.) -/
def removeFromCart (prevItems : List CartItem) (productId : String) : List CartItem :=
  let existingItemIndex := findIndex (fun item => item._id == productId) prevItems
  if existingItemIndex > -1 then
    let updatedItems := prevItems
    match updatedItems[existingItemIndex.toNat]? with
    | some existing =>
        if existing.quantity > 1 then
          updatedItems.set existingItemIndex.toNat
            { existing with quantity := existing.quantity - 1 }
        else
          updatedItems.eraseIdx existingItemIndex.toNat
    | none => updatedItems
  else
    prevItems

/-- The updater of `removeProductCompletely` (CartContext.jsx, lines 88-90). -/
def removeProductCompletely (prevItems : List CartItem) (productId : String) :
    List CartItem :=
  prevItems.filter (fun item => item._id != productId)

/-- The new state set by `clearCart` (CartContext.jsx, lines 104-106). -/
def clearCart (_prevItems : List CartItem) : List CartItem :=
  []

/-- The function `getCartTotalQuantity` (CartContext.jsx, lines 97-99). -/
def getCartTotalQuantity (cartItems : List CartItem) : Int :=
  cartItems.foldl (fun total item => total + item.quantity) 0

end CartContext

/-- The session user record (`data.user` of the login response). -/
structure User where
  _id : Option String
  username : String
  mobileNumber : String
  deriving DecidableEq, Repr

/-- An order record as far as `OrderDetailPage` decides on it. -/
structure Order where
  _id : String
  deliveryOption : String
  orderStatus : String
  deriving DecidableEq, Repr

namespace CartContext

/-- The initialiser of the `cartItems` state in `CartProvider`
(CartContext.jsx, lines 16-24).  `JSON.parse` is a platform function and is a
parameter: it either throws or returns a value. -/
def initialCartItems (jsonParse : String → Except JsError (JsValue CartItem))
    (localStorage : Storage) : JsValue CartItem :=
  match localStorage.getItem "cartItems" with
  | some storedCartItems =>
      if storedCartItems != "" then
        match jsonParse storedCartItems with
        | .ok value => value
        | .error _ => .array []
      else .array []
  | none => .array []

end CartContext

namespace CartPage

/-- The `selectedItems` state of `CartPage`: an object used as a map from
product `_id` to a boolean. -/
abbrev SelectedItems := List (String × Bool)

/-- The truthiness of `selectedItems[id]`; a missing key is `undefined`.  Only the
keys put into the object are looked up: identifiers are generated by the backend
and never name a property inherited from `Object.prototype`. -/
def isSelected (selectedItems : SelectedItems) (id : String) : Bool :=
  match selectedItems.lookup id with
  | some b => b
  | none => false

/-- The derived value `itemsToCheckout` (CartPage.jsx, line 25). -/
def itemsToCheckout (cartItems : List CartItem) (selectedItems : SelectedItems) :
    List CartItem :=
  cartItems.filter (fun item => isSelected selectedItems item._id)

/-- The derived value `totalPriceOfSelected` (CartPage.jsx, line 27). -/
def totalPriceOfSelected (cartItems : List CartItem) (selectedItems : SelectedItems) : Rat :=
  (itemsToCheckout cartItems selectedItems).foldl
    (fun total item => total + item.price * item.quantity) 0

end CartPage

namespace OrderDetailPage

/-- The five-stage delivery progression (OrderDetailPage.jsx, lines 15-21). -/
def deliveryOptions : List String :=
  [ "Option 1 - 5 days to delivery",
    "Option 2 - 3 days to delivery",
    "Option 3 - 2 days to delivery",
    "Option 4 - 1 day to delivery",
    "Option 5 - Arriving Today" ]

/-- The truthiness of `canCancelOrder` (OrderDetailPage.jsx, lines 61-66);
`none` is the `order` state before an order has been loaded (`null`). -/
def canCancelOrder (order : Option Order) : Bool :=
  match order with
  | none => false
  | some order =>
      ["Option 1 - 5 days to delivery", "Option 2 - 3 days to delivery"].contains
          order.deliveryOption &&
        order.orderStatus != "Cancelled" &&
        order.orderStatus != "Delivered" &&
        order.orderStatus != "Delivered & Confirmed" &&
        order.orderStatus != "Shipped"

end OrderDetailPage

namespace AuthContext

/-- The state held by `AuthProvider`: the session, which is the stored user,
and the one-shot auth message (`null` is `none`). -/
structure AuthState where
  user : JsValue User
  authMessage : Option String
  deriving DecidableEq, Repr

/-- The initialiser of the `user` state in `AuthProvider`
(AuthContext.jsx, lines 14-22), with `JSON.parse` as a parameter. -/
def initialUser (jsonParse : String → Except JsError (JsValue User))
    (localStorage : Storage) : JsValue User :=
  match localStorage.getItem "loggedInUser" with
  | some storedUser =>
      if storedUser != "" then
        match jsonParse storedUser with
        | .ok value => value
        | .error _ => .null
      else .null
  | none => .null

/-- The context value `isAuthenticated: !!user` (AuthContext.jsx, line 187). -/
def isAuthenticated (s : AuthState) : Bool :=
  s.user.truthy

/-- The JSON object in the body of a login response; an absent `message` is
`none`, an absent `user` is `undefined`. -/
structure LoginBody where
  message : Option String
  user : JsValue User
  deriving DecidableEq, Repr

/-- What `await fetch(...)` followed by `response.json()` can give: the request
itself rejects (network error), or a response arrives with its `ok` flag and a
body that either fails to parse or parses to a value. -/
inductive FetchResult where
  | rejected (error : JsError)
  | response (ok : Bool) (json : Except JsError (JsValue LoginBody))

/-- The object returned by `login`. -/
structure LoginResult where
  success : Bool
  message : Option String
  deriving DecidableEq, Repr

/-- The `catch` branch of `login`: `{ success: false, message: error.message }`. -/
def loginCaught (error : JsError) : LoginResult :=
  { success := false, message := some error.message }

/-- The function `login` (AuthContext.jsx, lines 110-133) as one atomic step: the state after
the call and the returned object.  The backend is the parameter `fetchLogin`,
applied to the credentials that are posted. -/
def login (fetchLogin : String → String → FetchResult) (s : AuthState)
    (username password : String) : AuthState × LoginResult :=
  let s1 : AuthState := { s with authMessage := none }
  match fetchLogin username password with
  | .rejected error => (s1, loginCaught error)
  | .response ok json =>
      if !ok then
        match json with
        | .error error => (s1, loginCaught error)
        | .ok .undefined => (s1, loginCaught (nullPropertyError "message"))
        | .ok .null => (s1, loginCaught (nullPropertyError "message"))
        | .ok (.object errorData) =>
            (s1, loginCaught { message := orElse errorData.message "Login failed" })
        | .ok _ => (s1, loginCaught { message := "Login failed" })
      else
        match json with
        | .error error => (s1, loginCaught error)
        | .ok .undefined => (s1, loginCaught (nullPropertyError "user"))
        | .ok .null => (s1, loginCaught (nullPropertyError "user"))
        | .ok (.object data) =>
            ({ s1 with user := data.user }, { success := true, message := data.message })
        | .ok _ => ({ s1 with user := .undefined }, { success := true, message := none })

end AuthContext

namespace ProtectedRoute

/-- The `_id` read by `user._id`; a value that is not an object has none. -/
def userId : JsValue User → Option String
  | .object u => u._id
  | _ => none

/-- Whether `ProtectedRoute` renders its children rather than `null`
(ProtectedRoute.jsx, line 39): `isAuthenticated && user && user._id`. -/
def rendersChildren (s : AuthContext.AuthState) : Bool :=
  AuthContext.isAuthenticated s && s.user.truthy && truthyString (userId s.user)

end ProtectedRoute

/-! ## More JavaScript helpers -/

/-- The characters that `parseInt` skips at the start of its argument: the
white space and line terminator code points of ECMAScript. -/
def isStrWhiteSpace (c : Char) : Bool :=
  let n := c.toNat
  n == 0x09 || n == 0x0A || n == 0x0B || n == 0x0C || n == 0x0D || n == 0x20 ||
  n == 0xA0 || n == 0x1680 || (0x2000 ≤ n && n ≤ 0x200A) || n == 0x2028 ||
  n == 0x2029 || n == 0x202F || n == 0x205F || n == 0x3000 || n == 0xFEFF

/-- The value of a character as a digit in the given radix, if it is one. -/
def radixDigit (radix : Nat) (c : Char) : Option Nat :=
  let n := c.toNat
  let v : Option Nat :=
    if 48 ≤ n && n ≤ 57 then some (n - 48)
    else if 97 ≤ n && n ≤ 122 then some (n - 87)
    else if 65 ≤ n && n ≤ 90 then some (n - 55)
    else none
  match v with
  | some d => if d < radix then some d else none
  | none => none

/-- The values of the longest prefix of `cs` made of digits in `radix`. -/
def leadingDigits (radix : Nat) : List Char → List Nat
  | [] => []
  | c :: cs =>
      match radixDigit radix c with
      | some d => d :: leadingDigits radix cs
      | none => []

/-- The global function `parseInt(text)` with no radix argument; `none` is
`NaN`.  Leading white space is skipped, then an optional sign and an optional
`0x` prefix are read, then the longest run of digits; `NaN` results when that
run is empty. -/
def parseInt (text : String) : Option Int :=
  let trimmed := text.toList.dropWhile isStrWhiteSpace
  let signed : Int × List Char :=
    match trimmed with
    | '-' :: rest => (-1, rest)
    | '+' :: rest => (1, rest)
    | _ => (1, trimmed)
  let based : Nat × List Char :=
    match signed.2 with
    | '0' :: 'x' :: rest => (16, rest)
    | '0' :: 'X' :: rest => (16, rest)
    | _ => (10, signed.2)
  let digits := leadingDigits based.1 based.2
  if digits.isEmpty then none
  else some (signed.1 * (digits.foldl (fun acc d => acc * based.1 + d) 0 : Nat))

/-- The comparison `parseInt(text) < bound`; it is false when `parseInt` gives
`NaN`. -/
def parseIntLessThan (text : String) (bound : Int) : Bool :=
  match parseInt text with
  | some n => n < bound
  | none => false

/-- The test of a string against the regular expression `^\d{n}$`: exactly `n`
characters, each one of the decimal digits `0` to `9`. -/
def testDigits (n : Nat) (text : String) : Bool :=
  text.toList.length == n && text.toList.all Char.isDigit

/-- Reading `user._id`: a `TypeError` on `null` and `undefined`, the property
of a record, and `undefined` on any other value. -/
def readUserId : JsValue User → Except JsError (Option String)
  | .undefined => .error (nullPropertyError "_id")
  | .null => .error (nullPropertyError "_id")
  | .object u => .ok u._id
  | _ => .ok none

namespace AuthContext

/-- The constant `API_BASE_URL` of AuthContext.jsx (line 39). -/
def API_BASE_URL : String := "http://localhost:3001"

/-- The fixed message passed to `logout` by the liveness checks
(AuthContext.jsx, lines 84 and 94). -/
def loggedOutMessage : String := "You are logged out, try again to login."

/-- The function `logout` (AuthContext.jsx, lines 159-165); `none` is a call
without argument, for which the parameter defaults to `null`. -/
def logout (s : AuthState) (message : Option String) : AuthState :=
  let s1 : AuthState := { s with user := .null }
  if truthyString message then { s1 with authMessage := message } else s1

/-- The function `clearAuthMessage` (AuthContext.jsx, lines 167-169). -/
def clearAuthMessage (s : AuthState) : AuthState :=
  { s with authMessage := none }

/-- What `await fetch(url)` gives in `checkUserExists`: the request rejects, or
a response arrives with its `ok` flag. -/
inductive UserFetchResult where
  | rejected (error : JsError)
  | response (ok : Bool)
  deriving DecidableEq, Repr

/-- The function `checkUserExists` (AuthContext.jsx, lines 171-180): the
returned boolean and the list of URLs that were requested.  The backend is the
parameter `fetchUser`. -/
def checkUserExists (fetchUser : String → UserFetchResult) (userId : Option String) :
    Bool × List String :=
  match userId with
  | none => (false, [])
  | some id =>
      if id == "" then (false, [])
      else
        let url := API_BASE_URL ++ "/api/users/" ++ id
        match fetchUser url with
        | .response ok => (ok, [url])
        | .rejected _ => (false, [url])

/-- Whether the effect of AuthContext.jsx, lines 68-107 sets up the interval
and runs the immediate check: the condition `user && user._id`. -/
def checksScheduled (user : JsValue User) : Bool :=
  user.truthy && truthyString (ProtectedRoute.userId user)

/-- One interval-triggered check (AuthContext.jsx, lines 78-86) for the `user`
of the render that set the interval up, run in state `s`. -/
def intervalCheck (fetchUser : String → UserFetchResult) (user : JsValue User)
    (s : AuthState) : AuthState :=
  let accountExists := (checkUserExists fetchUser (ProtectedRoute.userId user)).1
  if !accountExists then logout s (some loggedOutMessage) else s

/-- The immediate check (AuthContext.jsx, lines 89-97). -/
def initialCheck (fetchUser : String → UserFetchResult) (user : JsValue User)
    (s : AuthState) : AuthState :=
  let accountExists := (checkUserExists fetchUser (ProtectedRoute.userId user)).1
  if !accountExists then logout s (some loggedOutMessage) else s

/-- The function `signup` (AuthContext.jsx, lines 135-157) as one atomic step.
The backend is the parameter `fetchSignup`, applied to the four posted
fields; of the response body only `message` is read. -/
def signup (fetchSignup : String → String → String → String → FetchResult)
    (s : AuthState) (username password age mobileNumber : String) :
    AuthState × LoginResult :=
  let s1 : AuthState := { s with authMessage := none }
  match fetchSignup username password age mobileNumber with
  | .rejected error => (s1, loginCaught error)
  | .response ok json =>
      if !ok then
        match json with
        | .error error => (s1, loginCaught error)
        | .ok .undefined => (s1, loginCaught (nullPropertyError "message"))
        | .ok .null => (s1, loginCaught (nullPropertyError "message"))
        | .ok (.object errorData) =>
            (s1, loginCaught { message := orElse errorData.message "Signup failed" })
        | .ok _ => (s1, loginCaught { message := "Signup failed" })
      else
        match json with
        | .error error => (s1, loginCaught error)
        | .ok .undefined => (s1, loginCaught (nullPropertyError "message"))
        | .ok .null => (s1, loginCaught (nullPropertyError "message"))
        | .ok (.object data) => (s1, { success := true, message := data.message })
        | .ok _ => (s1, { success := true, message := none })

end AuthContext

namespace LoginPage

/-- The state of `LoginPage` (LoginPage.jsx, lines 7-14).  The `message` is
`none` when it has been set to `undefined`. -/
structure PageState where
  isLoginView : Bool
  username : String
  password : String
  confirmPassword : String
  age : String
  mobileNumber : String
  message : Option String
  loading : Bool
  deriving DecidableEq, Repr

/-- The result of submitting the login form: the provider state, the page
state, and the path passed to `navigate`, if any. -/
structure LoginOutcome where
  auth : AuthContext.AuthState
  page : PageState
  navigatedTo : Option String
  deriving DecidableEq, Repr

/-- The handler `handleLoginSubmit` (LoginPage.jsx, lines 43-55). -/
def handleLoginSubmit (fetchLogin : String → String → AuthContext.FetchResult)
    (auth : AuthContext.AuthState) (page : PageState) : LoginOutcome :=
  let result := AuthContext.login fetchLogin auth page.username page.password
  if result.2.success then
    { auth := result.1,
      page := { page with message := result.2.message, loading := false },
      navigatedTo := some "/" }
  else
    { auth := result.1,
      page := { page with message := result.2.message, loading := false },
      navigatedTo := none }

/-- One call of `signup`: the four arguments. -/
structure SignupCall where
  username : String
  password : String
  age : String
  mobileNumber : String
  deriving DecidableEq, Repr

/-- The result of submitting the signup form: the provider state, the page
state, and the calls of `signup` that were made. -/
structure SignupOutcome where
  auth : AuthContext.AuthState
  page : PageState
  signupCalls : List SignupCall
  deriving DecidableEq, Repr

/-- The handler `handleSignupSubmit` (LoginPage.jsx, lines 57-91). -/
def handleSignupSubmit
    (fetchSignup : String → String → String → String → AuthContext.FetchResult)
    (auth : AuthContext.AuthState) (page : PageState) : SignupOutcome :=
  if page.password != page.confirmPassword then
    { auth := auth,
      page := { page with message := some "Passwords do not match!", loading := false },
      signupCalls := [] }
  else if parseIntLessThan page.age 16 then
    { auth := auth,
      page := { page with
        message := some "You must be at least 16 years old to sign up.", loading := false },
      signupCalls := [] }
  else if !testDigits 10 page.mobileNumber then
    { auth := auth,
      page := { page with message := some "Mobile number must be 10 digits.",
                          loading := false },
      signupCalls := [] }
  else
    let result :=
      AuthContext.signup fetchSignup auth page.username page.password page.age
        page.mobileNumber
    let call : SignupCall :=
      { username := page.username, password := page.password, age := page.age,
        mobileNumber := page.mobileNumber }
    if result.2.success then
      { auth := result.1,
        page :=
          { isLoginView := true, username := "", password := "", confirmPassword := "",
            age := "", mobileNumber := "",
            message := some (result.2.message.getD "undefined" ++ " Please log in."),
            loading := false },
        signupCalls := [call] }
    else
      { auth := result.1,
        page := { page with message := result.2.message, loading := false },
        signupCalls := [call] }

end LoginPage

namespace CartPage

/-- The click handler of the trash button of an entry (CartPage.jsx, line 144):
`removeFromCart(item._id, item.quantity)`.  The updater `removeFromCart` has the
single parameter `productId`, so the second argument is not read. -/
def trashClick (cartItems : List CartItem) (item : CartItem) : List CartItem :=
  CartContext.removeFromCart cartItems item._id

/-- The handler `handleProceedToCheckout` (CartPage.jsx, lines 36-45): the
`selectedCartItems` of the navigation state passed to `/checkout`, or `none`
when the alert is shown and no navigation happens. -/
def handleProceedToCheckout (cartItems : List CartItem) (selectedItems : SelectedItems) :
    Option (List CartItem) :=
  if (itemsToCheckout cartItems selectedItems).length == 0 then none
  else some (itemsToCheckout cartItems selectedItems)

end CartPage

namespace CheckoutPage

/-- The `shippingAddress` state (CheckoutPage.jsx, lines 28-34). -/
structure ShippingAddress where
  personName : String
  mobileNumber : String
  address : String
  pincode : String
  state : String
  deriving DecidableEq, Repr

/-- One element of `orderProducts` (CheckoutPage.jsx, lines 78-86). -/
structure OrderProduct where
  productId : String
  name : String
  quantity : Int
  price : Rat
  image : String
  selectedSize : Option String
  selectedColor : Option String
  deriving DecidableEq, Repr

/-- The payload `orderData` (CheckoutPage.jsx, lines 88-95). -/
structure OrderData where
  userId : Option String
  products : List OrderProduct
  shippingAddress : ShippingAddress
  paymentMethod : String
  totalPrice : Rat
  orderStatus : String
  deriving DecidableEq, Repr

/-- The JSON object in the body of the response to the order request, of which
only `message` is read. -/
structure MessageBody where
  message : Option String
  deriving DecidableEq, Repr

/-- What `await fetch(...)` followed by `response.json()` can give for the order
request. -/
inductive OrderFetchResult where
  | rejected (error : JsError)
  | response (ok : Bool) (json : Except JsError (JsValue MessageBody))

/-- The value `itemsToProcess` (CheckoutPage.jsx, line 26):
`location.state?.selectedCartItems || cartItems`.  An array is truthy even when
empty; `none` is a navigation state without `selectedCartItems`. -/
def itemsToProcess (selectedCartItems : Option (List CartItem))
    (cartItems : List CartItem) : List CartItem :=
  match selectedCartItems with
  | some items => items
  | none => cartItems

/-- The derived value `totalItemsToProcess` (CheckoutPage.jsx, line 39). -/
def totalItemsToProcess (itemsToProcess : List CartItem) : Int :=
  itemsToProcess.foldl (fun total item => total + item.quantity) 0

/-- The derived value `totalPriceOfSelected` (CheckoutPage.jsx, line 40). -/
def totalPriceOfSelected (itemsToProcess : List CartItem) : Rat :=
  itemsToProcess.foldl (fun total item => total + item.price * item.quantity) 0

/-- The mapping that builds `orderProducts` (CheckoutPage.jsx, lines 78-86). -/
def orderProducts (itemsToProcess : List CartItem) : List OrderProduct :=
  itemsToProcess.map (fun item =>
    { productId := item._id, name := item.name, quantity := item.quantity,
      price := item.price, image := item.image, selectedSize := item.selectedSize,
      selectedColor := item.selectedColor })

/-- The loop that clears the ordered items from the cart (CheckoutPage.jsx,
line 114): one `removeProductCompletely` update per processed item, applied in
turn to the cart state. -/
def clearOrderedItems (cartItems : List CartItem) (itemsToProcess : List CartItem) :
    List CartItem :=
  itemsToProcess.foldl
    (fun prevItems item => CartContext.removeProductCompletely prevItems item._id) cartItems

/-- The result of `handleSubmit`: the order requests that were sent, the
message shown, the cart afterwards, and the path navigated to (after the
two-second delay), if any. -/
structure SubmitOutcome where
  requests : List OrderData
  message : String
  cartItems : List CartItem
  navigatedTo : Option String
  deriving DecidableEq, Repr

/-- The `catch` branch of `handleSubmit` (CheckoutPage.jsx, lines 120-122). -/
def submitCaught (requests : List OrderData) (cartItems : List CartItem) (err : JsError) :
    SubmitOutcome :=
  { requests := requests, message := "❌ Error: " ++ err.message, cartItems := cartItems,
    navigatedTo := none }

/-- The handler `handleSubmit` (CheckoutPage.jsx, lines 54-126) as one atomic
step.  The backend is the parameter `postOrder`, applied to the payload. -/
def handleSubmit (postOrder : OrderData → OrderFetchResult) (user : JsValue User)
    (cartItems : List CartItem) (selectedCartItems : Option (List CartItem))
    (shippingAddress : ShippingAddress) (paymentMethod : String) : SubmitOutcome :=
  let items := itemsToProcess selectedCartItems cartItems
  if items.length == 0 then
    { requests := [],
      message := "❌ Your cart is empty. Please add items before checking out.",
      cartItems := cartItems, navigatedTo := none }
  else if shippingAddress.personName == "" || shippingAddress.mobileNumber == "" ||
      shippingAddress.address == "" || shippingAddress.pincode == "" ||
      shippingAddress.state == "" then
    { requests := [], message := "❌ Please fill in all shipping address details.",
      cartItems := cartItems, navigatedTo := none }
  else if !testDigits 6 shippingAddress.pincode then
    { requests := [], message := "❌ Pincode must be a 6-digit number.",
      cartItems := cartItems, navigatedTo := none }
  else
    match readUserId user with
    | .error err => submitCaught [] cartItems err
    | .ok userId =>
        let orderData : OrderData :=
          { userId := userId, products := orderProducts items,
            shippingAddress := shippingAddress, paymentMethod := paymentMethod,
            totalPrice := totalPriceOfSelected items, orderStatus := "Pending" }
        match postOrder orderData with
        | .rejected err => submitCaught [orderData] cartItems err
        | .response _ (.error err) => submitCaught [orderData] cartItems err
        | .response true (.ok _) =>
            { requests := [orderData], message := "✅ Order placed successfully!",
              cartItems := clearOrderedItems cartItems items,
              navigatedTo := some "/my-orders" }
        | .response false (.ok .undefined) =>
            submitCaught [orderData] cartItems (nullPropertyError "message")
        | .response false (.ok .null) =>
            submitCaught [orderData] cartItems (nullPropertyError "message")
        | .response false (.ok (.object result)) =>
            submitCaught [orderData] cartItems
              { message := orElse result.message "Failed to place order." }
        | .response false (.ok _) =>
            submitCaught [orderData] cartItems { message := "Failed to place order." }

end CheckoutPage

namespace OrderDetailPage

/-- The constant `API_BASE_URL` of OrderDetailPage.jsx (line 13). -/
def API_BASE_URL : String := "http://localhost:3001"

/-- The array method `indexOf` on strings: the first position of `x`, or `-1`. -/
def indexOf (xs : List String) (x : String) : Int :=
  findIndex (fun y => y == x) xs

/-- The function `getDeliveryStepColor` (OrderDetailPage.jsx, lines 23-35). -/
def getDeliveryStepColor (index : Int) (currentOption : String) (orderStatus : String) :
    String :=
  let currentIndex := indexOf deliveryOptions currentOption
  if orderStatus == "Cancelled" then "bg-red-500 text-white"
  else if orderStatus == "Delivered & Confirmed" then "bg-green-500 text-white"
  else if index < currentIndex then "bg-green-500 text-white"
  else if index == currentIndex then "bg-blue-500 text-white"
  else "bg-gray-300 text-gray-600"

/-- The truthiness of `showConfirmReceivedButton` (OrderDetailPage.jsx,
lines 68-71). -/
def showConfirmReceivedButton (order : Option Order) : Bool :=
  match order with
  | none => false
  | some order =>
      order.deliveryOption == "Option 5 - Arriving Today" &&
        order.orderStatus != "Delivered & Confirmed" &&
        order.orderStatus != "Cancelled"

/-- The truthiness of `showDownloadReceiptButton` (OrderDetailPage.jsx,
line 73). -/
def showDownloadReceiptButton (order : Option Order) : Bool :=
  match order with
  | none => false
  | some order => order.orderStatus == "Delivered & Confirmed"

/-- The populated `userId` of a fetched order: the owner record. -/
structure OrderOwner where
  _id : Option String
  deriving DecidableEq, Repr

/-- The JSON object of a fetched order (`data` in `fetchOrder`): the order
record together with its `userId`. -/
structure FetchedOrder extends Order where
  userId : JsValue OrderOwner
  deriving DecidableEq, Repr

/-- What `await fetch(url)` followed by `response.json()` can give in
`fetchOrder`: the request rejects, a response that is not `ok` arrives with its
status and a body of which `message` is read, or an `ok` response arrives with
a body read as the order. -/
inductive OrderFetchResult where
  | rejected (error : JsError)
  | failure (status : Nat) (json : Except JsError (JsValue CheckoutPage.MessageBody))
  | success (json : Except JsError (JsValue FetchedOrder))

/-- The state of `OrderDetailPage` that `fetchOrder` works on
(OrderDetailPage.jsx, lines 53-56). -/
structure PageState where
  order : Option FetchedOrder
  loading : Bool
  error : Option String
  message : String
  deriving DecidableEq, Repr

/-- The initial state of the page: no order, loading. -/
def initialPageState : PageState :=
  { order := none, loading := true, error := none, message := "" }

/-- The result of `fetchOrder`: the page state, the path navigated to, if any,
and the URLs requested. -/
structure FetchOutcome where
  state : PageState
  navigatedTo : Option String
  requests : List String
  deriving DecidableEq, Repr

/-- The `catch` and `finally` branches of `fetchOrder` (OrderDetailPage.jsx,
lines 104-109). -/
def fetchCaught (s : PageState) (url : String) (err : JsError) : FetchOutcome :=
  { state := { s with error := some ("Failed to load order details: " ++ err.message ++ "."),
                      loading := false },
    navigatedTo := none, requests := [url] }

/-- The branch of `fetchOrder` for an order of another user (OrderDetailPage.jsx,
lines 97-102). -/
def permissionDenied (s : PageState) (url : String) : FetchOutcome :=
  { state := { s with error := some "You do not have permission to view this order.",
                      loading := false },
    navigatedTo := some "/my-orders", requests := [url] }

/-- The function `fetchOrder` (OrderDetailPage.jsx, lines 76-110) as one atomic
step, for the route parameter `id`.  The backend is the parameter
`fetchOrderById`, applied to the URL requested. -/
def fetchOrder (fetchOrderById : String → OrderFetchResult) (auth : AuthContext.AuthState)
    (id : String) (s : PageState) : FetchOutcome :=
  if !AuthContext.isAuthenticated auth || !auth.user.truthy ||
      !truthyString (ProtectedRoute.userId auth.user) then
    { state := { s with error := some "You must be logged in to view order details.",
                        loading := false },
      navigatedTo := some "/login", requests := [] }
  else
    let s1 : PageState := { s with loading := true, error := none, message := "" }
    let url := API_BASE_URL ++ "/api/orders/" ++ id
    match fetchOrderById url with
    | .rejected err => fetchCaught s1 url err
    | .failure status json =>
        match json with
        | .error err => fetchCaught s1 url err
        | .ok .undefined => fetchCaught s1 url (nullPropertyError "message")
        | .ok .null => fetchCaught s1 url (nullPropertyError "message")
        | .ok (.object errorData) =>
            fetchCaught s1 url
              { message := orElse errorData.message
                  ("HTTP error! Status: " ++ toString status) }
        | .ok _ => fetchCaught s1 url { message := "HTTP error! Status: " ++ toString status }
    | .success json =>
        match json with
        | .error err => fetchCaught s1 url err
        | .ok (.object data) =>
            match data.userId with
            | .undefined => fetchCaught s1 url (nullPropertyError "_id")
            | .null => fetchCaught s1 url (nullPropertyError "_id")
            | .object owner =>
                if owner._id != ProtectedRoute.userId auth.user then permissionDenied s1 url
                else
                  { state := { s1 with order := some data, loading := false },
                    navigatedTo := none, requests := [url] }
            | _ => permissionDenied s1 url
        | .ok .undefined => fetchCaught s1 url (nullPropertyError "userId")
        | .ok .null => fetchCaught s1 url (nullPropertyError "userId")
        | .ok _ => fetchCaught s1 url (nullPropertyError "_id")

end OrderDetailPage

/-- The test `Array.isArray(value)`. -/
def JsValue.isArray {α : Type} : JsValue α → Bool
  | .array _ => true
  | _ => false

namespace ProductDetailPage

/-- The constant `API_BASE_URL` of ProductDetailPage.jsx (line 12). -/
def API_BASE_URL : String := "https://slugma-backend.vercel.app"

/-- One element of `product.reviews`, of which `userId` is read. -/
structure Review where
  userId : String
  deriving DecidableEq, Repr

/-- The loaded `product` record: the product properties and the reviews. -/
structure LoadedProduct extends ProductFields where
  reviews : List Review
  deriving DecidableEq, Repr

/-- One element of `order.products` in the order history. -/
structure HistoryItem where
  productId : String
  deriving DecidableEq, Repr

/-- One order of the order history (`userOrders`). -/
structure HistoryOrder where
  orderStatus : String
  products : List HistoryItem
  deriving DecidableEq, Repr

/-- The state of `ProductDetailPage` (ProductDetailPage.jsx, lines 37-51),
without the list of related products. -/
structure PageState where
  product : Option LoadedProduct
  loading : Bool
  error : Option String
  message : String
  quantity : Int
  selectedSize : String
  selectedColor : String
  userRating : Int
  userComment : String
  hasUserReviewed : Bool
  canUserReview : Bool
  deriving DecidableEq, Repr

/-- The result of `handleAddToCart`: the page state, the cart, and the
arguments of the calls of `addToCart`. -/
structure AddOutcome where
  state : PageState
  cartItems : List CartItem
  addToCartCalls : List Product
  deriving DecidableEq, Repr

/-- The object `productToAdd` (ProductDetailPage.jsx, lines 160-165). -/
def productToAdd (product : LoadedProduct) (quantity : Int)
    (selectedSize selectedColor : String) : Product :=
  { toProductFields :=
      { product.toProductFields with
        selectedSize := some selectedSize, selectedColor := some selectedColor },
    quantity := some quantity }

/-- The message set when the chosen quantity exceeds the stock
(ProductDetailPage.jsx, line 147). -/
def cannotAddMessage (quantity stock : Int) : String :=
  "❌ Cannot add " ++ toString quantity ++ " to cart. Only " ++ toString stock ++
    " items available."

/-- The handler `handleAddToCart` (ProductDetailPage.jsx, lines 139-170), up to
the clearing of the message after three seconds. -/
def handleAddToCart (s : PageState) (cartItems : List CartItem) : AddOutcome :=
  match s.product with
  | none => { state := s, cartItems := cartItems, addToCartCalls := [] }
  | some product =>
      if product.stock == 0 then
        { state := { s with message := "❌ This product is currently out of stock." },
          cartItems := cartItems, addToCartCalls := [] }
      else if s.quantity > product.stock then
        { state := { s with message := cannotAddMessage s.quantity product.stock },
          cartItems := cartItems, addToCartCalls := [] }
      else if product.size.length > 0 && s.selectedSize == "" then
        { state := { s with message := "❌ Please select a size before adding to cart." },
          cartItems := cartItems, addToCartCalls := [] }
      else if product.colors.length > 0 && s.selectedColor == "" then
        { state := { s with message := "❌ Please select a color before adding to cart." },
          cartItems := cartItems, addToCartCalls := [] }
      else
        { state := { s with message := "✅ Product added to cart!" },
          cartItems :=
            CartContext.addToCart cartItems
              (productToAdd product s.quantity s.selectedSize s.selectedColor),
          addToCartCalls := [productToAdd product s.quantity s.selectedSize s.selectedColor] }

/-- What the request for the product gives: it rejects, or a response arrives
with its `ok` flag and a body that fails to parse or parses to a product record
or to `null`. -/
inductive ProductFetchResult where
  | rejected (error : JsError)
  | response (ok : Bool) (json : Except JsError (Option LoadedProduct))

/-- What the request for all products gives, as far as it decides whether
`fetchProductDetails` goes on: it rejects, or a response arrives with its `ok`
flag and a body that parses to an array or not. -/
inductive RelatedFetchResult where
  | rejected (error : JsError)
  | response (ok : Bool) (json : Except JsError Unit)

/-- What the request for the order history gives. -/
inductive HistoryFetchResult where
  | rejected (error : JsError)
  | response (ok : Bool) (json : Except JsError (JsValue HistoryOrder))

/-- The test `purchasedAndConfirmed` (ProductDetailPage.jsx, lines 94-97). -/
def purchasedAndConfirmed (userOrders : List HistoryOrder) (id : String) : Bool :=
  userOrders.any (fun order =>
    order.orderStatus == "Delivered & Confirmed" &&
      order.products.any (fun item => item.productId == id))

/-- The value passed to `setCanUserReview` for a signed-in user
(ProductDetailPage.jsx, lines 90-106): the history request, with the inner
`catch` giving false. -/
def reviewEligibility (fetchHistory : String → HistoryFetchResult) (userId : String)
    (id : String) : Bool :=
  match fetchHistory (API_BASE_URL ++ "/api/orders/user/" ++ userId ++ "?status=history") with
  | .response true (.ok (.array userOrders)) => purchasedAndConfirmed userOrders id
  | _ => false

/-- The `catch` and `finally` branches of `fetchProductDetails`
(ProductDetailPage.jsx, lines 112-117). -/
def fetchCaught (s : PageState) (err : JsError) : PageState :=
  { s with error := some ("Failed to load product: " ++ err.message), loading := false }

/-- The function `fetchProductDetails` (ProductDetailPage.jsx, lines 54-118) as
one atomic step, for the route parameter `id`.  The three backend requests are
parameters; the random choice of related products is left out. -/
def fetchProductDetails (fetchProduct : String → ProductFetchResult)
    (fetchAllProducts : RelatedFetchResult)
    (fetchHistory : String → HistoryFetchResult)
    (auth : AuthContext.AuthState) (id : String) (s : PageState) : PageState :=
  let s1 : PageState := { s with loading := true, error := none }
  match fetchProduct (API_BASE_URL ++ "/api/products/" ++ id) with
  | .rejected err => fetchCaught s1 err
  | .response false _ => fetchCaught s1 { message := "Failed to fetch product details." }
  | .response true (.error err) => fetchCaught s1 err
  | .response true (.ok none) =>
      fetchCaught { s1 with product := none } (nullPropertyError "size")
  | .response true (.ok (some productData)) =>
      let s2 : PageState := { s1 with product := some productData }
      let s3 : PageState :=
        match productData.size with
        | [only] => { s2 with selectedSize := only }
        | _ => s2
      let s4 : PageState :=
        match productData.colors with
        | [only] => { s3 with selectedColor := only }
        | _ => s3
      match fetchAllProducts with
      | .rejected err => fetchCaught s4 err
      | .response true (.error err) => fetchCaught s4 err
      | _ =>
          if AuthContext.isAuthenticated auth &&
              truthyString (ProtectedRoute.userId auth.user) then
            let userId := (ProtectedRoute.userId auth.user).getD ""
            { s4 with
              hasUserReviewed := productData.reviews.any (fun review => review.userId == userId),
              canUserReview := reviewEligibility fetchHistory userId id,
              loading := false }
          else
            { s4 with hasUserReviewed := false, canUserReview := false, loading := false }

/-- The body of the review request (ProductDetailPage.jsx, lines 202-207). -/
structure ReviewRequest where
  productId : String
  userId : Option String
  rating : Int
  comment : String
  deriving DecidableEq, Repr

/-- What the review request gives. -/
inductive ReviewFetchResult where
  | rejected (error : JsError)
  | response (ok : Bool) (json : Except JsError (JsValue CheckoutPage.MessageBody))

/-- The result of `handleSubmitReview`: the page state, the review requests
sent, and whether `fetchProductDetails` is started again. -/
structure ReviewOutcome where
  state : PageState
  requests : List ReviewRequest
  refetch : Bool
  deriving DecidableEq, Repr

/-- The `catch` branch of `handleSubmitReview` (ProductDetailPage.jsx,
lines 221-223). -/
def reviewCaught (s : PageState) (requests : List ReviewRequest) (err : JsError) :
    ReviewOutcome :=
  { state := { s with message := "❌ Error submitting review: " ++ err.message },
    requests := requests, refetch := false }

/-- The handler `handleSubmitReview` (ProductDetailPage.jsx, lines 172-227) as
one atomic step, for the route parameter `id`.  The backend is the parameter
`postReview`, applied to the body posted. -/
def handleSubmitReview (postReview : ReviewRequest → ReviewFetchResult)
    (auth : AuthContext.AuthState) (id : String) (s : PageState) : ReviewOutcome :=
  if !AuthContext.isAuthenticated auth ||
      !truthyString (ProtectedRoute.userId auth.user) then
    { state := { s with message := "❌ You must be logged in to submit a review." },
      requests := [], refetch := false }
  else if !s.canUserReview then
    { state := { s with message :=
        "❌ You can only review products you have purchased and confirmed receipt of." },
      requests := [], refetch := false }
  else if s.userRating == 0 then
    { state := { s with message := "❌ Please provide a star rating." },
      requests := [], refetch := false }
  else if s.hasUserReviewed then
    { state := { s with message :=
        "❌ You have already submitted a review for this product." },
      requests := [], refetch := false }
  else
    let request : ReviewRequest :=
      { productId := id, userId := ProtectedRoute.userId auth.user,
        rating := s.userRating, comment := s.userComment }
    match postReview request with
    | .rejected err => reviewCaught s [request] err
    | .response _ (.error err) => reviewCaught s [request] err
    | .response true (.ok _) =>
        { state := { s with message := "✅ Your review has been submitted successfully!",
                            userRating := 0, userComment := "", hasUserReviewed := true },
          requests := [request], refetch := true }
    | .response false (.ok .undefined) =>
        reviewCaught s [request] (nullPropertyError "message")
    | .response false (.ok .null) =>
        reviewCaught s [request] (nullPropertyError "message")
    | .response false (.ok (.object result)) =>
        reviewCaught s [request]
          { message := orElse result.message "Failed to submit review." }
    | .response false (.ok _) =>
        reviewCaught s [request] { message := "Failed to submit review." }

end ProductDetailPage

/-! ## Numbers and strings of the product list page -/

/-- A JavaScript number as `parseFloat` returns it: `NaN`, an infinity, or a
finite value (taken as an exact rational). -/
inductive JsNumber where
  | nan
  | negInfinity
  | posInfinity
  | finite (value : Rat)
  deriving DecidableEq, Repr

/-- The test `isNaN(x)`. -/
def JsNumber.isNaN : JsNumber → Bool
  | .nan => true
  | _ => false

/-- The comparison `x >= bound` of a finite number with a parsed bound. -/
def JsNumber.geBound (x : Rat) : JsNumber → Bool
  | .nan => false
  | .negInfinity => true
  | .posInfinity => false
  | .finite bound => decide (x ≥ bound)

/-- The comparison `x <= bound` of a finite number with a parsed bound. -/
def JsNumber.leBound (x : Rat) : JsNumber → Bool
  | .nan => false
  | .negInfinity => false
  | .posInfinity => true
  | .finite bound => decide (x ≤ bound)

/-- The string method `text.startsWith(search)`. -/
def startsWith (text search : String) : Bool :=
  search.toList.isPrefixOf text.toList

/-- The string method `text.includes(search)`: `search` occurs in `text` as a
contiguous run of characters. -/
def includes (text search : String) : Bool :=
  decide (search.toList <:+: text.toList)

namespace ProductPage

/-- A product of the list as the filters read it (ProductPage.jsx,
lines 121-176); `salePrice` is `none` when it is `null`. -/
structure CatalogProduct where
  _id : String
  name : String
  description : String
  category : String
  brand : String
  price : Rat
  salePrice : Option Rat
  colors : List String
  size : List String
  averageRating : Rat
  tags : List String
  deriving DecidableEq, Repr

/-- The filter states of `ProductPage` (ProductPage.jsx, lines 48-55). -/
structure FilterState where
  searchTerm : String
  selectedCategory : String
  selectedRating : Rat
  minPrice : String
  maxPrice : String
  selectedBrand : String
  selectedColors : List String
  selectedSizes : List String
  deriving DecidableEq, Repr

/-- The filter states after `clearAllFilters` (ProductPage.jsx, lines 239-248),
which are also the initial ones. -/
def clearAllFilters : FilterState :=
  { searchTerm := "", selectedCategory := "All", selectedRating := 0, minPrice := "",
    maxPrice := "", selectedBrand := "All", selectedColors := [], selectedSizes := [] }

/-- The value `effectivePrice` (ProductPage.jsx, lines 137 and 143). -/
def effectivePrice (product : CatalogProduct) : Rat :=
  match product.salePrice with
  | some salePrice => salePrice
  | none => product.price

/-- The predicate of the search filter (ProductPage.jsx, lines 166-172) for the
lower-cased search term. -/
def matchesSearch (toLowerCase : String → String) (lowerCaseSearchTerm : String)
    (product : CatalogProduct) : Bool :=
  startsWith (toLowerCase product.name) lowerCaseSearchTerm ||
  includes (toLowerCase product.description) lowerCaseSearchTerm ||
  includes (toLowerCase product.category) lowerCaseSearchTerm ||
  (product.brand != "" && includes (toLowerCase product.brand) lowerCaseSearchTerm) ||
  product.tags.any (fun tag => includes (toLowerCase tag) lowerCaseSearchTerm)

/-- The category step of `filteredProducts` (ProductPage.jsx, lines 124-126). -/
def filterByCategory (f : FilterState) (tempProducts : List CatalogProduct) :
    List CatalogProduct :=
  if f.selectedCategory != "" && f.selectedCategory != "All" then
    tempProducts.filter (fun product => product.category == f.selectedCategory)
  else tempProducts

/-- The brand step of `filteredProducts` (ProductPage.jsx, lines 128-130). -/
def filterByBrand (f : FilterState) (tempProducts : List CatalogProduct) :
    List CatalogProduct :=
  if f.selectedBrand != "" && f.selectedBrand != "All" then
    tempProducts.filter (fun product => product.brand == f.selectedBrand)
  else tempProducts

/-- The minimum price step of `filteredProducts` (ProductPage.jsx,
lines 135-140). -/
def filterByMinPrice (parsedMinPrice : JsNumber) (tempProducts : List CatalogProduct) :
    List CatalogProduct :=
  if !parsedMinPrice.isNaN then
    tempProducts.filter (fun product =>
      JsNumber.geBound (effectivePrice product) parsedMinPrice)
  else tempProducts

/-- The maximum price step of `filteredProducts` (ProductPage.jsx,
lines 141-146). -/
def filterByMaxPrice (parsedMaxPrice : JsNumber) (tempProducts : List CatalogProduct) :
    List CatalogProduct :=
  if !parsedMaxPrice.isNaN then
    tempProducts.filter (fun product =>
      JsNumber.leBound (effectivePrice product) parsedMaxPrice)
  else tempProducts

/-- The colour step of `filteredProducts` (ProductPage.jsx, lines 148-152). -/
def filterByColors (f : FilterState) (tempProducts : List CatalogProduct) :
    List CatalogProduct :=
  if f.selectedColors.length > 0 then
    tempProducts.filter (fun product =>
      product.colors.any (fun color => f.selectedColors.contains color))
  else tempProducts

/-- The size step of `filteredProducts` (ProductPage.jsx, lines 154-158). -/
def filterBySizes (f : FilterState) (tempProducts : List CatalogProduct) :
    List CatalogProduct :=
  if f.selectedSizes.length > 0 then
    tempProducts.filter (fun product =>
      product.size.any (fun s => f.selectedSizes.contains s))
  else tempProducts

/-- The rating step of `filteredProducts` (ProductPage.jsx, lines 160-162). -/
def filterByRating (f : FilterState) (tempProducts : List CatalogProduct) :
    List CatalogProduct :=
  if f.selectedRating > 0 then
    tempProducts.filter (fun product => decide (product.averageRating ≥ f.selectedRating))
  else tempProducts

/-- The search step of `filteredProducts` (ProductPage.jsx, lines 164-173). -/
def filterBySearch (toLowerCase : String → String) (f : FilterState)
    (tempProducts : List CatalogProduct) : List CatalogProduct :=
  if f.searchTerm != "" then
    tempProducts.filter (matchesSearch toLowerCase (toLowerCase f.searchTerm))
  else tempProducts

/-- The memoised value `filteredProducts` (ProductPage.jsx, lines 121-176): the
eight conditional steps applied in turn to `tempProducts`.  The platform
functions `parseFloat` and `String.prototype.toLowerCase` are parameters. -/
def filteredProducts (parseFloat : String → JsNumber) (toLowerCase : String → String)
    (products : List CatalogProduct) (f : FilterState) : List CatalogProduct :=
  let tempProducts := products
  let tempProducts := filterByCategory f tempProducts
  let tempProducts := filterByBrand f tempProducts
  let parsedMinPrice := parseFloat f.minPrice
  let parsedMaxPrice := parseFloat f.maxPrice
  let tempProducts := filterByMinPrice parsedMinPrice tempProducts
  let tempProducts := filterByMaxPrice parsedMaxPrice tempProducts
  let tempProducts := filterByColors f tempProducts
  let tempProducts := filterBySizes f tempProducts
  let tempProducts := filterByRating f tempProducts
  let tempProducts := filterBySearch toLowerCase f tempProducts
  tempProducts

/-- The specification of the filtering in the words of the claim: the product
satisfies every filter that is active.  A filter is active when its state
differs from the cleared one: a category or brand other than `All` (and not
empty), a minimum or maximum price that parses to a number, a non-empty colour
or size selection, a positive minimum rating, a non-empty search term. -/
def satisfiesActiveFilters (parseFloat : String → JsNumber) (toLowerCase : String → String)
    (f : FilterState) (product : CatalogProduct) : Prop :=
  (f.selectedCategory ≠ "" → f.selectedCategory ≠ "All" →
    product.category = f.selectedCategory) ∧
  (f.selectedBrand ≠ "" → f.selectedBrand ≠ "All" → product.brand = f.selectedBrand) ∧
  ((parseFloat f.minPrice).isNaN = false →
    JsNumber.geBound (effectivePrice product) (parseFloat f.minPrice) = true) ∧
  ((parseFloat f.maxPrice).isNaN = false →
    JsNumber.leBound (effectivePrice product) (parseFloat f.maxPrice) = true) ∧
  (f.selectedColors ≠ [] → ∃ color ∈ product.colors, color ∈ f.selectedColors) ∧
  (f.selectedSizes ≠ [] → ∃ s ∈ product.size, s ∈ f.selectedSizes) ∧
  (f.selectedRating > 0 → product.averageRating ≥ f.selectedRating) ∧
  (f.searchTerm ≠ "" →
    matchesSearch toLowerCase (toLowerCase f.searchTerm) product = true)

instance (parseFloat : String → JsNumber) (toLowerCase : String → String)
    (f : FilterState) (product : CatalogProduct) :
    Decidable (satisfiesActiveFilters parseFloat toLowerCase f product) := by
  unfold satisfiesActiveFilters; infer_instance

end ProductPage

namespace LoginPage

/-- Whether the age control of the signup form satisfies its constraints
(LoginPage.jsx, lines 234-243): `required`, `type="number"` and `min="16"`,
with the default step of 1 counted from the minimum.  The browser's reading of
the text of a number input as a number is the parameter `numberValue`; it
gives `none` for a text that is not a number. -/
def ageInputValid (numberValue : String → Option Rat) (age : String) : Bool :=
  age != "" &&
    match numberValue age with
    | some value => decide (value ≥ 16) && value.den == 1
    | none => false

/-- The constraint validation that the browser runs on the signup form before
it dispatches the submit event (LoginPage.jsx, lines 192-262; the form has no
`noValidate`): the `id` of the first control that fails, or `none` when every
control is valid.  The controls are, in order, the required user name, the
required passwords, the age, and the required mobile number with the pattern
of ten digits. -/
def signupFormInvalidField (numberValue : String → Option Rat) (page : PageState) :
    Option String :=
  if page.username == "" then some "signup-username"
  else if page.password == "" then some "signup-password"
  else if page.confirmPassword == "" then some "confirm-password"
  else if !ageInputValid numberValue page.age then some "age"
  else if page.mobileNumber == "" || !testDigits 10 page.mobileNumber then
    some "mobileNumber"
  else none

/-- The result of pressing the submit button of the signup form: the control
at which the browser stopped the submission, if any, and the provider state,
page state and `signup` calls afterwards. -/
structure SignupSubmission where
  invalidField : Option String
  outcome : SignupOutcome
  deriving DecidableEq, Repr

/-- The submission of the signup form (LoginPage.jsx, line 192,
`onSubmit={handleSignupSubmit}`): when a control fails its constraints the
browser reports it and no submit event is dispatched, so the handler does not
run; otherwise `handleSignupSubmit` runs. -/
def submitSignupForm (numberValue : String → Option Rat)
    (fetchSignup : String → String → String → String → AuthContext.FetchResult)
    (auth : AuthContext.AuthState) (page : PageState) : SignupSubmission :=
  match signupFormInvalidField numberValue page with
  | some field =>
      { invalidField := some field,
        outcome := { auth := auth, page := page, signupCalls := [] } }
  | none =>
      { invalidField := none, outcome := handleSignupSubmit fetchSignup auth page }

end LoginPage

/-- The cart has no two entries with the same `_id`. -/
def uniqueIds (cart : List CartItem) : Prop :=
  cart.Pairwise (fun a b => a._id ≠ b._id)

instance (cart : List CartItem) : Decidable (uniqueIds cart) := by
  unfold uniqueIds; infer_instance

/-! ## Example data -/

/-- A catalogue product without a quantity of its own. -/
def sampleProduct (id : String) (price : Rat) : Product :=
  { _id := id, name := "Lamp", price := price, image := "lamp.png", stock := 10,
    size := [], colors := [], selectedSize := none, selectedColor := none,
    quantity := none }

/-- A cart entry for `sampleProduct id price` with the given quantity. -/
def sampleItem (id : String) (price : Rat) (quantity : Int) : CartItem :=
  { toProductFields := (sampleProduct id price).toProductFields, quantity := quantity }

/-- A stand-in for `JSON.parse` on cart text, for the examples: it agrees with
`JSON.parse` on the text of the empty array and of `null`, and throws on every
other text, in particular on the malformed text `[1,`. -/
def sampleParseCart (text : String) : Except JsError (JsValue CartItem) :=
  if text = "[]" then .ok (.array [])
  else if text = "null" then .ok .null
  else .error { message := "Unexpected end of JSON input" }

/-- A stand-in for `JSON.parse` on user text, for the examples: it agrees with
`JSON.parse` on the text of `null` and throws on every other text. -/
def sampleParseUser (text : String) : Except JsError (JsValue User) :=
  if text = "null" then .ok .null
  else .error { message := "Unexpected end of JSON input" }

/-- A user record as the backend returns it. -/
def sampleUser : User :=
  { _id := some "u1", username := "asha", mobileNumber := "9876543210" }

/-- A signed-in provider state. -/
def sampleAuth : AuthContext.AuthState :=
  { user := .object sampleUser, authMessage := none }

/-- A filled-in shipping address with the given pincode. -/
def sampleAddress (pincode : String) : CheckoutPage.ShippingAddress :=
  { personName := "Asha", mobileNumber := "9876543210", address := "12 Lake Road",
    pincode := pincode, state := "Karnataka" }

/-- A signup form with the given age, matching passwords and a ten-digit
mobile number. -/
def sampleSignupForm (age : String) : LoginPage.PageState :=
  { isLoginView := false, username := "asha", password := "secret",
    confirmPassword := "secret", age := age, mobileNumber := "9876543210",
    message := some "", loading := false }

/-- A fetched order in the second delivery stage whose owner has the given id. -/
def sampleFetchedOrder (ownerId : String) : OrderDetailPage.FetchedOrder :=
  { _id := "o1", deliveryOption := "Option 2 - 3 days to delivery", orderStatus := "Pending",
    userId := .object { _id := some ownerId } }

/-- A loaded product `a` of price 5 with the given stock, without sizes or
colours and without reviews. -/
def sampleLoadedProduct (stock : Int) : ProductDetailPage.LoadedProduct :=
  { _id := "a", name := "Lamp", price := 5, image := "lamp.png", stock := stock,
    size := [], colors := [], selectedSize := none, selectedColor := none, reviews := [] }

/-- The product detail page showing `sampleLoadedProduct stock` with the given
quantity chosen. -/
def sampleDetailState (stock quantity : Int) : ProductDetailPage.PageState :=
  { product := some (sampleLoadedProduct stock), loading := false, error := none,
    message := "", quantity := quantity, selectedSize := "", selectedColor := "",
    userRating := 0, userComment := "", hasUserReviewed := false, canUserReview := false }

/-- A stand-in for `parseFloat`, for the examples: it agrees with `parseFloat`
on the empty text (`NaN`) and on the text `100`; other texts are not used. -/
def sampleParseFloat (text : String) : JsNumber :=
  if text = "100" then .finite 100 else .nan

/-- A stand-in for `toLowerCase`, for the examples: it agrees with it on ASCII
text. -/
def sampleToLowerCase (text : String) : String :=
  text.toLower

/-- A catalogue product of the given category, price 50, without sale price. -/
def sampleCatalogProduct (id category : String) : ProductPage.CatalogProduct :=
  { _id := id, name := "Classic", description := "A classic piece", category := category,
    brand := "Omega", price := 50, salePrice := none, colors := ["Black"], size := ["M"],
    averageRating := 4, tags := [] }

/-- A stand-in for the browser's reading of a number input, for the examples:
it agrees with it on the empty text (no number) and on plain runs of decimal
digits; other texts are not used. -/
def sampleNumberValue (text : String) : Option Rat :=
  if text.toList.all Char.isDigit then (parseInt text).map (fun n => (n : Rat)) else none

/-! ## Lemmas on `findIndex` and the cart updaters -/

theorem findIndex_of_forall_false {α : Type} {pred : α → Bool} {xs : List α}
    (h : ∀ x ∈ xs, pred x = false) : findIndex pred xs = -1 := by
  have hlen : xs.findIdx pred = xs.length := List.findIdx_eq_length.mpr h
  simp [findIndex, hlen]

theorem findIndex_of_first {α : Type} {pred : α → Bool} {xs : List α} {i : Nat}
    (hi : i < xs.length) (hp : pred xs[i] = true)
    (hfirst : ∀ j (hj : j < i), pred (xs[j]) = false) : findIndex pred xs = (i : Int) := by
  have hidx : xs.findIdx pred = i := (List.findIdx_eq hi).mpr ⟨hp, hfirst⟩
  simp [findIndex, hidx, hi]

theorem exists_first_index {α : Type} {pred : α → Bool} {xs : List α}
    (h : ∃ x ∈ xs, pred x = true) :
    ∃ i, ∃ hi : i < xs.length, pred xs[i] = true ∧
      ∀ j (hj : j < i), pred (xs[j]) = false := by
  have hlt : xs.findIdx pred < xs.length := List.findIdx_lt_length.mpr h
  exact ⟨xs.findIdx pred, hlt, List.findIdx_getElem, fun j hj => List.not_of_lt_findIdx hj⟩

namespace CartContext

theorem addToCart_absent {cart : List CartItem} {p : Product}
    (h : ∀ x ∈ cart, x._id ≠ p._id) :
    addToCart cart p = cart ++ [{ toProductFields := p.toProductFields, quantity := 1 }] := by
  have hf : findIndex (fun item : CartItem => item._id == p._id) cart = -1 :=
    findIndex_of_forall_false (fun x hx => by simpa using h x hx)
  simp [addToCart, hf]

theorem addToCart_first {cart : List CartItem} {p : Product} {i : Nat}
    (hi : i < cart.length) (hid : cart[i]._id = p._id)
    (hfirst : ∀ j (hj : j < i), cart[j]._id ≠ p._id) :
    addToCart cart p = cart.set i { cart[i] with quantity := cart[i].quantity + 1 } := by
  have hf : findIndex (fun item : CartItem => item._id == p._id) cart = (i : Int) :=
    findIndex_of_first hi (by simpa using hid) (fun j hj => by simpa using hfirst j hj)
  have hpos : (i : Int) > -1 := by omega
  simp [addToCart, hf, hpos, hi]

theorem removeFromCart_absent {cart : List CartItem} {productId : String}
    (h : ∀ x ∈ cart, x._id ≠ productId) : removeFromCart cart productId = cart := by
  have hf : findIndex (fun item : CartItem => item._id == productId) cart = -1 :=
    findIndex_of_forall_false (fun x hx => by simpa using h x hx)
  simp [removeFromCart, hf]

theorem removeFromCart_first {cart : List CartItem} {productId : String} {i : Nat}
    (hi : i < cart.length) (hid : cart[i]._id = productId)
    (hfirst : ∀ j (hj : j < i), cart[j]._id ≠ productId) :
    removeFromCart cart productId =
      if cart[i].quantity > 1 then
        cart.set i { cart[i] with quantity := cart[i].quantity - 1 }
      else cart.eraseIdx i := by
  have hf : findIndex (fun item : CartItem => item._id == productId) cart = (i : Int) :=
    findIndex_of_first hi (by simpa using hid) (fun j hj => by simpa using hfirst j hj)
  have hpos : (i : Int) > -1 := by omega
  simp [removeFromCart, hf, hpos, hi]

theorem ids_set_quantity (cart : List CartItem) (i : Nat) (hi : i < cart.length) (q : Int) :
    (cart.set i { cart[i] with quantity := q }).map (fun it => it._id)
      = cart.map (fun it => it._id) := by
  rw [List.map_set]
  apply List.ext_getElem?
  intro j
  by_cases hj : i = j
  · subst hj; simp [hi]
  · simp [List.getElem?_set_ne hj]

theorem uniqueIds_iff_nodup (cart : List CartItem) :
    uniqueIds cart ↔ (cart.map (fun it => it._id)).Nodup := by
  simp [uniqueIds, List.Nodup, List.pairwise_map]

end CartContext

namespace CartContext

/-! ## The uniqueness invariant -/

theorem uniqueIds_addToCart {cart : List CartItem} (h : uniqueIds cart) (p : Product) :
    uniqueIds (addToCart cart p) := by
  by_cases hex : ∃ x ∈ cart, (fun item : CartItem => item._id == p._id) x = true
  · obtain ⟨i, hi, hp, hfirst⟩ := exists_first_index hex
    have hset := addToCart_first hi (by simpa using hp)
      (fun j hj => by simpa using hfirst j hj)
    rw [uniqueIds_iff_nodup, hset, ids_set_quantity cart i hi]
    exact (uniqueIds_iff_nodup cart).mp h
  · have habs : ∀ x ∈ cart, x._id ≠ p._id := by
      intro x hx hxe
      exact hex ⟨x, hx, by simpa using hxe⟩
    rw [addToCart_absent habs, uniqueIds_iff_nodup]
    have hn := (uniqueIds_iff_nodup cart).mp h
    simp only [List.map_append, List.map_cons, List.map_nil]
    refine List.Nodup.append hn (List.nodup_singleton _) ?_
    intro a ha hb
    simp only [List.mem_map] at ha
    obtain ⟨x, hx, hxa⟩ := ha
    simp only [List.mem_singleton] at hb
    exact habs x hx (hxa.trans hb)

theorem uniqueIds_removeFromCart {cart : List CartItem} (h : uniqueIds cart)
    (productId : String) : uniqueIds (removeFromCart cart productId) := by
  by_cases hex : ∃ x ∈ cart, (fun item : CartItem => item._id == productId) x = true
  · obtain ⟨i, hi, hp, hfirst⟩ := exists_first_index hex
    have hrem := removeFromCart_first hi (by simpa using hp)
      (fun j hj => by simpa using hfirst j hj)
    rw [hrem]
    split
    · rw [uniqueIds_iff_nodup, ids_set_quantity cart i hi]
      exact (uniqueIds_iff_nodup cart).mp h
    · exact List.Pairwise.sublist (List.eraseIdx_sublist cart i) h
  · have habs : ∀ x ∈ cart, x._id ≠ productId := by
      intro x hx hxe
      exact hex ⟨x, hx, by simpa using hxe⟩
    rw [removeFromCart_absent habs]
    exact h

theorem uniqueIds_removeProductCompletely {cart : List CartItem} (h : uniqueIds cart)
    (productId : String) : uniqueIds (removeProductCompletely cart productId) :=
  List.Pairwise.sublist (List.filter_sublist cart) h

end CartContext

/-- Claim C1.  Starting from a cart in which no two entries share an `_id`,
each of `addToCart`, `removeFromCart`, `removeProductCompletely` and
`clearCart`, for any argument, yields a cart in which again no two entries
share an `_id`. -/
theorem cart_operations_preserve_uniqueIds (cart : List CartItem) (h : uniqueIds cart)
    (product : Product) (productId : String) :
    uniqueIds (CartContext.addToCart cart product) ∧
    uniqueIds (CartContext.removeFromCart cart productId) ∧
    uniqueIds (CartContext.removeProductCompletely cart productId) ∧
    uniqueIds (CartContext.clearCart cart) :=
  ⟨CartContext.uniqueIds_addToCart h product,
   CartContext.uniqueIds_removeFromCart h productId,
   CartContext.uniqueIds_removeProductCompletely h productId,
   List.Pairwise.nil⟩

/-- Witness of C1 on a two-entry cart, adding a product that is already present
and removing the other one. -/
theorem cart_operations_preserve_uniqueIds_witness :
    uniqueIds [sampleItem "a" 5 2, sampleItem "b" 3 1] ∧
    (uniqueIds (CartContext.addToCart [sampleItem "a" 5 2, sampleItem "b" 3 1]
        (sampleProduct "a" 5)) ∧
     uniqueIds (CartContext.removeFromCart [sampleItem "a" 5 2, sampleItem "b" 3 1] "b") ∧
     uniqueIds (CartContext.removeProductCompletely
        [sampleItem "a" 5 2, sampleItem "b" 3 1] "b") ∧
     uniqueIds (CartContext.clearCart [sampleItem "a" 5 2, sampleItem "b" 3 1])) :=
  ⟨by decide,
   cart_operations_preserve_uniqueIds [sampleItem "a" 5 2, sampleItem "b" 3 1]
     (by decide) (sampleProduct "a" 5) "b"⟩

/-- Claim C2.  `addToCart` is a merge-by-identifier increment.  If some entry
has the product's `_id`, then at the first such position `i` the result has the
same length as the cart, agrees with the cart at every other position, and its
entry at `i` has the same product fields and a quantity larger by exactly 1.
If no entry has the product's `_id`, the result is the cart followed by one new
entry with the product's fields and quantity 1. -/
theorem addToCart_merge_by_identifier (cart : List CartItem) (p : Product) :
    ((∃ x ∈ cart, x._id = p._id) →
      ∃ i, ∃ hi : i < cart.length,
        cart[i]._id = p._id ∧ (∀ j (hj : j < i), cart[j]._id ≠ p._id) ∧
        (CartContext.addToCart cart p).length = cart.length ∧
        (∀ j, j ≠ i → (CartContext.addToCart cart p)[j]? = cart[j]?) ∧
        ∃ e, (CartContext.addToCart cart p)[i]? = some e ∧
          e.toProductFields = cart[i].toProductFields ∧
          e.quantity = cart[i].quantity + 1) ∧
    ((∀ x ∈ cart, x._id ≠ p._id) →
      CartContext.addToCart cart p =
        cart ++ [{ toProductFields := p.toProductFields, quantity := 1 }]) := by
  refine ⟨?_, fun h => CartContext.addToCart_absent h⟩
  rintro ⟨x, hx, hxe⟩
  obtain ⟨i, hi, hp, hfirst⟩ :=
    @exists_first_index CartItem (fun item : CartItem => item._id == p._id) cart
      ⟨x, hx, by simpa using hxe⟩
  have hid : cart[i]._id = p._id := by simpa using hp
  have hfirst2 : ∀ j (hj : j < i), cart[j]._id ≠ p._id :=
    fun j hj => by simpa using hfirst j hj
  refine ⟨i, hi, hid, hfirst2, ?_⟩
  rw [CartContext.addToCart_first hi hid hfirst2]
  refine ⟨by simp, fun j hj => by simp [List.getElem?_set_ne (Ne.symm hj)], ?_⟩
  exact ⟨{ cart[i] with quantity := cart[i].quantity + 1 }, by simp [hi], rfl, rfl⟩

/-- Witness of C2: both branches on a two-entry cart. -/
theorem addToCart_merge_by_identifier_witness :
    (∃ x ∈ [sampleItem "a" 5 2, sampleItem "b" 3 1], x._id = (sampleProduct "b" 3)._id) ∧
    (∀ x ∈ [sampleItem "a" 5 2, sampleItem "b" 3 1], x._id ≠ (sampleProduct "c" 4)._id) ∧
    (CartContext.addToCart [sampleItem "a" 5 2, sampleItem "b" 3 1] (sampleProduct "b" 3)).length
      = 2 ∧
    CartContext.addToCart [sampleItem "a" 5 2, sampleItem "b" 3 1] (sampleProduct "c" 4) =
      [sampleItem "a" 5 2, sampleItem "b" 3 1] ++ [sampleItem "c" 4 1] := by
  have hmem : ∃ x ∈ [sampleItem "a" 5 2, sampleItem "b" 3 1],
      x._id = (sampleProduct "b" 3)._id := ⟨sampleItem "b" 3 1, by simp, rfl⟩
  have habs : ∀ x ∈ [sampleItem "a" 5 2, sampleItem "b" 3 1],
      x._id ≠ (sampleProduct "c" 4)._id := by
    intro x hx
    simp only [List.mem_cons, List.mem_singleton, List.not_mem_nil, or_false] at hx
    rcases hx with rfl | rfl <;> decide
  have hthm := addToCart_merge_by_identifier [sampleItem "a" 5 2, sampleItem "b" 3 1]
  obtain ⟨i, hi, -, -, hlen, -, -⟩ := (hthm (sampleProduct "b" 3)).1 hmem
  exact ⟨hmem, habs, hlen, (hthm (sampleProduct "c" 4)).2 habs⟩

/-- Claim C3.  For a cart with no entry for product `p`, calling `addToCart p`
twice yields the old entries, unchanged and in order, followed by a single
entry for `p` whose quantity is 2; it is the only entry with `p`'s `_id`. -/
theorem addToCart_twice_one_entry_quantity_two (cart : List CartItem) (p : Product)
    (h : ∀ x ∈ cart, x._id ≠ p._id) :
    CartContext.addToCart (CartContext.addToCart cart p) p =
        cart ++ [{ toProductFields := p.toProductFields, quantity := 2 }] ∧
    (CartContext.addToCart (CartContext.addToCart cart p) p).countP
        (fun item => item._id == p._id) = 1 ∧
    (∀ e ∈ CartContext.addToCart (CartContext.addToCart cart p) p,
        e._id = p._id → e.quantity = 2) ∧
    (CartContext.addToCart (CartContext.addToCart cart p) p).take cart.length = cart := by
  have hfalse : ∀ x ∈ cart, ¬ ((x._id == p._id) = true) := by
    intro x hx; simpa using h x hx
  have hstep : CartContext.addToCart (CartContext.addToCart cart p) p =
      cart ++ [{ toProductFields := p.toProductFields, quantity := 2 }] := by
    rw [CartContext.addToCart_absent h]
    have hi : cart.length <
        (cart ++ [({ toProductFields := p.toProductFields, quantity := 1 } : CartItem)]).length := by
      simp
    rw [CartContext.addToCart_first hi (by simp) (fun j hj => by
      have hj2 : j < cart.length := hj
      rw [List.getElem_append_left hj2]
      exact h _ (List.getElem_mem hj2))]
    simp
  rw [hstep]
  refine ⟨rfl, ?_, ?_, by simp⟩
  · rw [List.countP_append, List.countP_eq_zero.mpr hfalse]
    simp
  · intro e he heq
    rcases List.mem_append.mp he with hc | hc
    · exact absurd heq (h e hc)
    · rw [List.mem_singleton.mp hc]

/-- Witness of C3 on the empty cart and on a one-entry cart. -/
theorem addToCart_twice_one_entry_quantity_two_witness :
    (∀ x ∈ [sampleItem "a" 5 2], x._id ≠ (sampleProduct "b" 3)._id) ∧
    CartContext.addToCart (CartContext.addToCart [sampleItem "a" 5 2] (sampleProduct "b" 3))
        (sampleProduct "b" 3) = [sampleItem "a" 5 2, sampleItem "b" 3 2] ∧
    CartContext.addToCart (CartContext.addToCart [] (sampleProduct "b" 3))
        (sampleProduct "b" 3) = [sampleItem "b" 3 2] := by
  have habs : ∀ x ∈ [sampleItem "a" 5 2], x._id ≠ (sampleProduct "b" 3)._id := by
    intro x hx
    rw [List.mem_singleton.mp hx]
    decide
  exact ⟨habs,
    (addToCart_twice_one_entry_quantity_two [sampleItem "a" 5 2] (sampleProduct "b" 3) habs).1,
    (addToCart_twice_one_entry_quantity_two [] (sampleProduct "b" 3)
      (fun x hx => absurd hx (List.not_mem_nil x))).1⟩

/-- Claim C4.  `removeFromCart` is decrement-or-delete.  If no entry has the
given `_id` the cart is returned unchanged.  Otherwise let `i` be the first
position whose entry has that `_id`: if its quantity is greater than 1, the
result is the cart with only the quantity of entry `i` changed, to one less;
if its quantity is 1, the result is the cart with entry `i` taken out and the
entries before and after it kept in order. -/
theorem removeFromCart_decrement_or_delete (cart : List CartItem) (productId : String) :
    ((∀ x ∈ cart, x._id ≠ productId) →
      CartContext.removeFromCart cart productId = cart) ∧
    (∀ i (hi : i < cart.length), cart[i]._id = productId →
      (∀ j (hj : j < i), cart[j]._id ≠ productId) →
      (cart[i].quantity > 1 →
        (CartContext.removeFromCart cart productId).length = cart.length ∧
        (∀ j, j ≠ i → (CartContext.removeFromCart cart productId)[j]? = cart[j]?) ∧
        ∃ e, (CartContext.removeFromCart cart productId)[i]? = some e ∧
          e.toProductFields = cart[i].toProductFields ∧
          e.quantity = cart[i].quantity - 1) ∧
      (cart[i].quantity = 1 →
        CartContext.removeFromCart cart productId = cart.take i ++ cart.drop (i + 1))) := by
  refine ⟨fun h => CartContext.removeFromCart_absent h, ?_⟩
  intro i hi hid hfirst
  have hrem := CartContext.removeFromCart_first hi hid hfirst
  constructor
  · intro hq
    rw [hrem, if_pos hq]
    refine ⟨by simp, fun j hj => by simp [List.getElem?_set_ne (Ne.symm hj)], ?_⟩
    exact ⟨{ cart[i] with quantity := cart[i].quantity - 1 }, by simp [hi], rfl, rfl⟩
  · intro hq
    have hnot : ¬ cart[i].quantity > 1 := by omega
    rw [hrem, if_neg hnot, List.eraseIdx_eq_take_drop_succ]

/-- Witness of C4: the three cases on a two-entry cart. -/
theorem removeFromCart_decrement_or_delete_witness :
    (∀ x ∈ [sampleItem "a" 5 2, sampleItem "b" 3 1], x._id ≠ "c") ∧
    CartContext.removeFromCart [sampleItem "a" 5 2, sampleItem "b" 3 1] "c" =
      [sampleItem "a" 5 2, sampleItem "b" 3 1] ∧
    (CartContext.removeFromCart [sampleItem "a" 5 2, sampleItem "b" 3 1] "a").length = 2 ∧
    CartContext.removeFromCart [sampleItem "a" 5 2, sampleItem "b" 3 1] "b" =
      [sampleItem "a" 5 2] := by
  have habs : ∀ x ∈ [sampleItem "a" 5 2, sampleItem "b" 3 1], x._id ≠ "c" := by
    intro x hx
    simp only [List.mem_cons, List.mem_singleton, List.not_mem_nil, or_false] at hx
    rcases hx with rfl | rfl <;> decide
  have hthm := removeFromCart_decrement_or_delete [sampleItem "a" 5 2, sampleItem "b" 3 1]
  have hdec := ((hthm "a").2 0 (by decide) rfl (fun j hj => absurd hj (Nat.not_lt_zero j))).1
    (by decide)
  have hdel := ((hthm "b").2 1 (by decide) rfl (fun j hj => by
    have hj0 : j = 0 := by omega
    subst hj0
    simp [sampleItem, sampleProduct])).2 rfl
  exact ⟨habs, (hthm "c").1 habs, hdec.1, hdel⟩

/-- Claim C5.  `removeProductCompletely` is an unconditional delete: the result
has no entry with the given `_id`; it is a sub-list of the cart (original
relative order) in which every entry with another `_id` occurs exactly as often
as in the cart; and when the product is absent the cart is unchanged. -/
theorem removeProductCompletely_unconditional_delete (cart : List CartItem)
    (productId : String) :
    (∀ x ∈ CartContext.removeProductCompletely cart productId, x._id ≠ productId) ∧
    List.Sublist (CartContext.removeProductCompletely cart productId) cart ∧
    (∀ x : CartItem, x._id ≠ productId →
      (CartContext.removeProductCompletely cart productId).count x = cart.count x) ∧
    ((∀ x ∈ cart, x._id ≠ productId) →
      CartContext.removeProductCompletely cart productId = cart) := by
  refine ⟨?_, List.filter_sublist cart, ?_, ?_⟩
  · intro x hx
    have := (List.mem_filter.mp hx).2
    simpa using this
  · intro x hx
    unfold CartContext.removeProductCompletely
    rw [List.count_filter]
    simpa using hx
  · intro h
    unfold CartContext.removeProductCompletely
    rw [List.filter_eq_self]
    intro x hx
    simpa using h x hx

/-- Witness of C5: deleting a quantity-2 entry, and an absent product. -/
theorem removeProductCompletely_unconditional_delete_witness :
    CartContext.removeProductCompletely [sampleItem "a" 5 2, sampleItem "b" 3 1] "a" =
      [sampleItem "b" 3 1] ∧
    (∀ x ∈ [sampleItem "a" 5 2, sampleItem "b" 3 1], x._id ≠ "c") ∧
    CartContext.removeProductCompletely [sampleItem "a" 5 2, sampleItem "b" 3 1] "c" =
      [sampleItem "a" 5 2, sampleItem "b" 3 1] := by
  have habs : ∀ x ∈ [sampleItem "a" 5 2, sampleItem "b" 3 1], x._id ≠ "c" := by
    intro x hx
    simp only [List.mem_cons, List.mem_singleton, List.not_mem_nil, or_false] at hx
    rcases hx with rfl | rfl <;> decide
  exact ⟨by decide, habs,
    (removeProductCompletely_unconditional_delete
      [sampleItem "a" 5 2, sampleItem "b" 3 1] "c").2.2.2 habs⟩

/-! ## Selection total on the cart page -/

theorem foldl_add_eq_sum (f : CartItem → Rat) (items : List CartItem) (init : Rat) :
    items.foldl (fun total item => total + f item) init = init + (items.map f).sum := by
  induction items generalizing init with
  | nil => simp
  | cons x xs ih => simp [ih, add_assoc]

theorem sum_filter_eq_sum_ite (f : CartItem → Rat) (keep : CartItem → Bool)
    (items : List CartItem) :
    ((items.filter keep).map f).sum
      = (items.map (fun item => if keep item = true then f item else 0)).sum := by
  induction items with
  | nil => simp
  | cons x xs ih =>
    by_cases hx : keep x = true
    · simp [List.filter_cons, hx, ih]
    · simp [List.filter_cons, hx, ih]

/-- Claim C6.  On the cart page `totalPriceOfSelected` is the sum of
`price * quantity` over exactly the entries whose `_id` is marked selected:
every entry contributes `price * quantity` if selected and nothing otherwise.
With the empty selection map, and whenever no entry is selected, it is 0. -/
theorem totalPriceOfSelected_eq_sum_of_selected (cartItems : List CartItem)
    (selectedItems : CartPage.SelectedItems) :
    CartPage.totalPriceOfSelected cartItems selectedItems =
      ((cartItems.filter (fun item => CartPage.isSelected selectedItems item._id)).map
        (fun item => item.price * (item.quantity : Rat))).sum ∧
    CartPage.totalPriceOfSelected cartItems selectedItems =
      (cartItems.map (fun item =>
        if CartPage.isSelected selectedItems item._id = true
        then item.price * (item.quantity : Rat) else 0)).sum ∧
    CartPage.totalPriceOfSelected cartItems [] = 0 ∧
    ((∀ item ∈ cartItems, CartPage.isSelected selectedItems item._id = false) →
      CartPage.totalPriceOfSelected cartItems selectedItems = 0) := by
  have hsum : ∀ sel : CartPage.SelectedItems,
      CartPage.totalPriceOfSelected cartItems sel =
        ((cartItems.filter (fun item => CartPage.isSelected sel item._id)).map
          (fun item => item.price * (item.quantity : Rat))).sum := by
    intro sel
    unfold CartPage.totalPriceOfSelected CartPage.itemsToCheckout
    rw [foldl_add_eq_sum (fun item => item.price * (item.quantity : Rat))]
    simp
  have hnone : ∀ sel : CartPage.SelectedItems,
      (∀ item ∈ cartItems, CartPage.isSelected sel item._id = false) →
      CartPage.totalPriceOfSelected cartItems sel = 0 := by
    intro sel hsel
    rw [hsum sel]
    have hnil : cartItems.filter (fun item => CartPage.isSelected sel item._id) = [] :=
      List.filter_eq_nil_iff.mpr (fun item hitem => by simp [hsel item hitem])
    simp [hnil]
  refine ⟨hsum selectedItems, ?_, ?_, hnone selectedItems⟩
  · rw [hsum selectedItems]
    exact sum_filter_eq_sum_ite (fun item => item.price * (item.quantity : Rat))
      (fun item => CartPage.isSelected selectedItems item._id) cartItems
  · exact hnone [] (fun item _ => rfl)

/-- Witness of C6: with entry `a` (5 x 2) selected and entry `b` (3 x 1) not,
the total is 10; with `a` deselected as well it is 0. -/
theorem totalPriceOfSelected_eq_sum_of_selected_witness :
    CartPage.totalPriceOfSelected [sampleItem "a" 5 2, sampleItem "b" 3 1]
      [("a", true), ("b", false)] = 10 ∧
    (∀ item ∈ [sampleItem "a" 5 2, sampleItem "b" 3 1],
      CartPage.isSelected [("a", false)] item._id = false) ∧
    CartPage.totalPriceOfSelected [sampleItem "a" 5 2, sampleItem "b" 3 1]
      [("a", false)] = 0 := by
  have hnone : ∀ item ∈ [sampleItem "a" 5 2, sampleItem "b" 3 1],
      CartPage.isSelected [("a", false)] item._id = false := by
    intro item hitem
    simp only [List.mem_cons, List.mem_singleton, List.not_mem_nil, or_false] at hitem
    rcases hitem with rfl | rfl <;> decide
  refine ⟨?_, hnone, ?_⟩
  · rw [(totalPriceOfSelected_eq_sum_of_selected [sampleItem "a" 5 2, sampleItem "b" 3 1]
      [("a", true), ("b", false)]).2.1]
    simp [sampleItem, sampleProduct, CartPage.isSelected, List.lookup]
    norm_num
  · exact (totalPriceOfSelected_eq_sum_of_selected [sampleItem "a" 5 2, sampleItem "b" 3 1]
      [("a", false)]).2.2.2 hnone

/-! ## Cancelling an order -/

/-- Claim C7.  For a loaded order, `canCancelOrder` is true only if the order's
`deliveryOption` is one of the first two stages of the five-stage progression
`deliveryOptions` and its `orderStatus` is none of `Cancelled`, `Delivered`,
`Delivered & Confirmed`. -/
theorem canCancelOrder_only_early_and_open (order : Order)
    (h : OrderDetailPage.canCancelOrder (some order) = true) :
    OrderDetailPage.deliveryOptions.length = 5 ∧
    order.deliveryOption ∈ OrderDetailPage.deliveryOptions.take 2 ∧
    order.orderStatus ≠ "Cancelled" ∧
    order.orderStatus ≠ "Delivered" ∧
    order.orderStatus ≠ "Delivered & Confirmed" := by
  simp only [OrderDetailPage.canCancelOrder, Bool.and_eq_true, bne_iff_ne, ne_eq,
    List.contains_eq_any_beq, List.any_eq_true, beq_iff_eq] at h
  obtain ⟨⟨⟨⟨⟨x, hx, hxe⟩, hc⟩, hd⟩, hdc⟩, -⟩ := h
  refine ⟨rfl, ?_, hc, hd, hdc⟩
  subst hxe
  simpa [OrderDetailPage.deliveryOptions] using hx

/-- Witness of C7: a pending order in the second stage can be cancelled. -/
theorem canCancelOrder_only_early_and_open_witness :
    OrderDetailPage.canCancelOrder
      (some { _id := "o1", deliveryOption := "Option 2 - 3 days to delivery",
              orderStatus := "Pending" }) = true ∧
    (OrderDetailPage.deliveryOptions.length = 5 ∧
     "Option 2 - 3 days to delivery" ∈ OrderDetailPage.deliveryOptions.take 2 ∧
     "Pending" ≠ "Cancelled" ∧ "Pending" ≠ "Delivered" ∧
     "Pending" ≠ "Delivered & Confirmed") :=
  ⟨by decide,
   canCancelOrder_only_early_and_open
     { _id := "o1", deliveryOption := "Option 2 - 3 days to delivery",
       orderStatus := "Pending" } (by decide)⟩

/-! ## Rehydration of stored state -/

/-- Claim C8.  Whatever `JSON.parse` is, if the text stored under `cartItems`
makes it throw, the initial cart is the empty array, and if the text stored
under `loggedInUser` makes it throw, the initial user is `null`; when nothing is
stored under the key the initial values are the empty array and `null` too. -/
theorem rehydrate_falls_back_on_parse_failure
    (parseCart : String → Except JsError (JsValue CartItem))
    (parseUser : String → Except JsError (JsValue User))
    (localStorage : Storage) :
    (∀ text error, localStorage.getItem "cartItems" = some text →
      parseCart text = .error error →
      CartContext.initialCartItems parseCart localStorage = .array []) ∧
    (∀ text error, localStorage.getItem "loggedInUser" = some text →
      parseUser text = .error error →
      AuthContext.initialUser parseUser localStorage = .null) ∧
    (localStorage.getItem "cartItems" = none →
      CartContext.initialCartItems parseCart localStorage = .array []) ∧
    (localStorage.getItem "loggedInUser" = none →
      AuthContext.initialUser parseUser localStorage = .null) := by
  refine ⟨?_, ?_, ?_, ?_⟩
  · intro text error hget hparse
    simp only [CartContext.initialCartItems, hget, hparse]
    split <;> rfl
  · intro text error hget hparse
    simp only [AuthContext.initialUser, hget, hparse]
    split <;> rfl
  · intro hget
    simp only [CartContext.initialCartItems, hget]
  · intro hget
    simp only [AuthContext.initialUser, hget]

/-- Witness of C8: the malformed text `[1,` under both keys, and an empty
storage. -/
theorem rehydrate_falls_back_on_parse_failure_witness :
    Storage.getItem [("cartItems", "[1,"), ("loggedInUser", "[1,")] "cartItems"
      = some "[1," ∧
    sampleParseCart "[1," = .error { message := "Unexpected end of JSON input" } ∧
    CartContext.initialCartItems sampleParseCart
      [("cartItems", "[1,"), ("loggedInUser", "[1,")] = .array [] ∧
    Storage.getItem [("cartItems", "[1,"), ("loggedInUser", "[1,")] "loggedInUser"
      = some "[1," ∧
    sampleParseUser "[1," = .error { message := "Unexpected end of JSON input" } ∧
    AuthContext.initialUser sampleParseUser
      [("cartItems", "[1,"), ("loggedInUser", "[1,")] = .null ∧
    CartContext.initialCartItems sampleParseCart [] = .array [] ∧
    AuthContext.initialUser sampleParseUser [] = .null :=
  ⟨by decide, by simp [sampleParseCart],
   (rehydrate_falls_back_on_parse_failure sampleParseCart sampleParseUser
      [("cartItems", "[1,"), ("loggedInUser", "[1,")]).1 "[1,"
      { message := "Unexpected end of JSON input" } (by decide) (by simp [sampleParseCart]),
   by decide, by simp [sampleParseUser],
   (rehydrate_falls_back_on_parse_failure sampleParseCart sampleParseUser
      [("cartItems", "[1,"), ("loggedInUser", "[1,")]).2.1 "[1,"
      { message := "Unexpected end of JSON input" } (by decide) (by simp [sampleParseUser]),
   (rehydrate_falls_back_on_parse_failure sampleParseCart sampleParseUser []).2.2.1
      (by decide),
   (rehydrate_falls_back_on_parse_failure sampleParseCart sampleParseUser []).2.2.2
      (by decide)⟩

/-! ## Login -/

/-- Claim C9.  For every state and every failing outcome of the login request
(the request rejects with a network error, or a response arrives whose `ok`
flag is false), `login` leaves the session, that is the stored user, as it was
and returns `success = false` together with a message string.  The one-shot
auth message, which is kept apart from the session, is reset to `null` by every
login attempt, so the whole provider state afterwards is the old user with no
auth message. -/
theorem login_failure_keeps_session (fetchLogin : String → String → AuthContext.FetchResult)
    (s : AuthContext.AuthState) (username password : String)
    (hfail : (∃ error, fetchLogin username password = .rejected error) ∨
      (∃ json, fetchLogin username password = .response false json)) :
    (AuthContext.login fetchLogin s username password).1.user = s.user ∧
    (AuthContext.login fetchLogin s username password).2.success = false ∧
    (∃ message : String,
      (AuthContext.login fetchLogin s username password).2.message = some message) ∧
    (AuthContext.login fetchLogin s username password).1 =
      { user := s.user, authMessage := none } := by
  rcases hfail with ⟨error, h⟩ | ⟨json, h⟩
  · simp [AuthContext.login, h, AuthContext.loginCaught]
  · rcases json with error | value
    · simp [AuthContext.login, h, AuthContext.loginCaught]
    · cases value <;> simp [AuthContext.login, h, AuthContext.loginCaught]

/-- Witness of C9: a rejected credential check (`ok` false, body with a
message) while a user is signed in. -/
theorem login_failure_keeps_session_witness :
    (AuthContext.login
      (fun _ _ => .response false
        (.ok (.object { message := some "Invalid credentials", user := .undefined })))
      { user := .object sampleUser, authMessage := none } "asha" "wrong").1.user
        = .object sampleUser ∧
    (AuthContext.login
      (fun _ _ => .response false
        (.ok (.object { message := some "Invalid credentials", user := .undefined })))
      { user := .object sampleUser, authMessage := none } "asha" "wrong").2.success = false ∧
    ∃ message : String,
      (AuthContext.login
        (fun _ _ => .response false
          (.ok (.object { message := some "Invalid credentials", user := .undefined })))
        { user := .object sampleUser, authMessage := none } "asha" "wrong").2.message
          = some message :=
  have h := login_failure_keeps_session
    (fun _ _ => .response false
      (.ok (.object { message := some "Invalid credentials", user := .undefined })))
    { user := .object sampleUser, authMessage := none } "asha" "wrong"
    (Or.inr ⟨_, rfl⟩)
  ⟨h.1, h.2.1, h.2.2.1⟩

/-- Claim C10.  Starting from a session whose user is `null`, for which
`ProtectedRoute` renders nothing, if the backend answers the login request with
success and a user record `u` that has a (non-empty) `_id`, then after `login`
the stored user is `u`, `isAuthenticated` is true, `login` returns
`success = true`, and `ProtectedRoute` renders its children. -/
theorem login_success_unblocks_protected_route
    (fetchLogin : String → String → AuthContext.FetchResult)
    (s : AuthContext.AuthState) (username password : String)
    (u : User) (message : Option String)
    (hnull : s.user = .null)
    (hresp : fetchLogin username password =
      .response true (.ok (.object { message := message, user := .object u })))
    (hid : ∃ id, u._id = some id ∧ id ≠ "") :
    ProtectedRoute.rendersChildren s = false ∧
    (AuthContext.login fetchLogin s username password).1.user = .object u ∧
    AuthContext.isAuthenticated (AuthContext.login fetchLogin s username password).1 = true ∧
    (AuthContext.login fetchLogin s username password).2.success = true ∧
    ProtectedRoute.rendersChildren (AuthContext.login fetchLogin s username password).1
      = true := by
  obtain ⟨id, hsome, hne⟩ := hid
  refine ⟨?_, ?_, ?_, ?_, ?_⟩
  · simp [ProtectedRoute.rendersChildren, AuthContext.isAuthenticated, hnull, JsValue.truthy]
  · simp [AuthContext.login, hresp]
  · simp [AuthContext.login, hresp, AuthContext.isAuthenticated, JsValue.truthy]
  · simp [AuthContext.login, hresp]
  · simp [AuthContext.login, hresp, ProtectedRoute.rendersChildren,
      AuthContext.isAuthenticated, JsValue.truthy, ProtectedRoute.userId, hsome,
      truthyString, hne]

/-- Witness of C10: signing in as `sampleUser` from the signed-out state. -/
theorem login_success_unblocks_protected_route_witness :
    ProtectedRoute.rendersChildren { user := .null, authMessage := none } = false ∧
    ProtectedRoute.rendersChildren
      (AuthContext.login
        (fun _ _ => .response true
          (.ok (.object { message := some "Login successful", user := .object sampleUser })))
        { user := .null, authMessage := none } "asha" "secret").1 = true :=
  have h := login_success_unblocks_protected_route
    (fun _ _ => .response true
      (.ok (.object { message := some "Login successful", user := .object sampleUser })))
    { user := .null, authMessage := none } "asha" "secret" sampleUser
    (some "Login successful") rfl rfl ⟨"u1", rfl, by decide⟩
  ⟨h.1, h.2.2.2.2⟩

/-! ## Failed login on the login page -/

/-- Counterexample to claim C11 as stated: a non-success login response whose
body carries the empty string as `message` does not come back verbatim; `login`
returns, and the login page displays, the fallback `Login failed`. -/
theorem login_empty_message_replaced_by_fallback :
    (AuthContext.login
      (fun _ _ => .response false (.ok (.object { message := some "", user := .undefined })))
      { user := .null, authMessage := none } "asha" "wrong").2
        = { success := false, message := some "Login failed" } ∧
    (AuthContext.login
      (fun _ _ => .response false (.ok (.object { message := some "", user := .undefined })))
      { user := .null, authMessage := none } "asha" "wrong").2
        ≠ { success := false, message := some "" } ∧
    (LoginPage.handleLoginSubmit
      (fun _ _ => .response false (.ok (.object { message := some "", user := .undefined })))
      { user := .null, authMessage := none }
      { isLoginView := true, username := "asha", password := "wrong", confirmPassword := "",
        age := "", mobileNumber := "", message := some "", loading := false }).page.message
        = some "Login failed" := by
  refine ⟨by decide, by decide, by decide⟩

/-- Claim C11, amended.  For every non-success login response whose JSON body
carries a non-empty `message` field `m`, `login` returns
`success = false` with message `m`, `handleLoginSubmit` displays exactly `m`
and does not navigate, and the session user is left as it was, so an empty
session stays empty.  When the field is the empty string the message returned
and displayed is `Login failed`. -/
theorem login_failure_surfaces_nonempty_message
    (fetchLogin : String → String → AuthContext.FetchResult)
    (auth : AuthContext.AuthState) (page : LoginPage.PageState)
    (m : String) (bodyUser : JsValue User)
    (hresp : fetchLogin page.username page.password =
      .response false (.ok (.object { message := some m, user := bodyUser }))) :
    (m ≠ "" →
      (AuthContext.login fetchLogin auth page.username page.password).2
        = { success := false, message := some m } ∧
      (LoginPage.handleLoginSubmit fetchLogin auth page).page.message = some m) ∧
    (m = "" →
      (AuthContext.login fetchLogin auth page.username page.password).2
        = { success := false, message := some "Login failed" } ∧
      (LoginPage.handleLoginSubmit fetchLogin auth page).page.message
        = some "Login failed") ∧
    (LoginPage.handleLoginSubmit fetchLogin auth page).navigatedTo = none ∧
    (LoginPage.handleLoginSubmit fetchLogin auth page).auth.user = auth.user ∧
    (auth.user = .null →
      (LoginPage.handleLoginSubmit fetchLogin auth page).auth.user = .null) := by
  have hlogin : AuthContext.login fetchLogin auth page.username page.password =
      ({ auth with authMessage := none },
       { success := false, message := some (orElse (some m) "Login failed") }) := by
    simp [AuthContext.login, hresp, AuthContext.loginCaught]
  have hsubmit : LoginPage.handleLoginSubmit fetchLogin auth page =
      { auth := { auth with authMessage := none },
        page := { page with message := some (orElse (some m) "Login failed"),
                            loading := false },
        navigatedTo := none } := by
    simp [LoginPage.handleLoginSubmit, hlogin]
  rw [hlogin, hsubmit]
  refine ⟨fun hm => ?_, fun hm => ?_, rfl, rfl, fun hnull => hnull⟩
  · simp [orElse, hm]
  · simp [orElse, hm]

/-- Witness of the amended C11: the backend answers `Invalid credentials`. -/
theorem login_failure_surfaces_nonempty_message_witness :
    (LoginPage.handleLoginSubmit
      (fun _ _ => .response false
        (.ok (.object { message := some "Invalid credentials", user := .undefined })))
      { user := .null, authMessage := none }
      { isLoginView := true, username := "asha", password := "wrong", confirmPassword := "",
        age := "", mobileNumber := "", message := some "", loading := false }).page.message
      = some "Invalid credentials" ∧
    (LoginPage.handleLoginSubmit
      (fun _ _ => .response false
        (.ok (.object { message := some "Invalid credentials", user := .undefined })))
      { user := .null, authMessage := none }
      { isLoginView := true, username := "asha", password := "wrong", confirmPassword := "",
        age := "", mobileNumber := "", message := some "", loading := false }).auth.user
      = .null :=
  have h := login_failure_surfaces_nonempty_message
    (fun _ _ => .response false
      (.ok (.object { message := some "Invalid credentials", user := .undefined })))
    { user := .null, authMessage := none }
    { isLoginView := true, username := "asha", password := "wrong", confirmPassword := "",
      age := "", mobileNumber := "", message := some "", loading := false }
    "Invalid credentials" .undefined rfl
  ⟨(h.1 (by decide)).2, h.2.2.2.2 rfl⟩

/-! ## Logout and the liveness checks -/

/-- Claim C12.  After `logout(message)` the user is `null` and
`isAuthenticated` is false.  If a (non-empty) reason is supplied the auth
message becomes exactly that reason; if no reason is supplied the auth message
is left as it was. -/
theorem logout_clears_user_and_keeps_reason (s : AuthContext.AuthState)
    (message : Option String) :
    (AuthContext.logout s message).user = .null ∧
    AuthContext.isAuthenticated (AuthContext.logout s message) = false ∧
    (∀ reason, message = some reason → reason ≠ "" →
      (AuthContext.logout s message).authMessage = some reason) ∧
    (message = none → (AuthContext.logout s message).authMessage = s.authMessage) := by
  refine ⟨?_, ?_, ?_, ?_⟩
  · unfold AuthContext.logout
    split <;> rfl
  · unfold AuthContext.logout AuthContext.isAuthenticated
    split <;> rfl
  · intro reason hmsg hne
    simp [AuthContext.logout, hmsg, truthyString, hne]
  · intro hmsg
    simp [AuthContext.logout, hmsg, truthyString]

/-- Witness of C12: logging out with a reason, and without one while an older
message is still stored. -/
theorem logout_clears_user_and_keeps_reason_witness :
    (AuthContext.logout { user := .object sampleUser, authMessage := none }
      (some "Session expired")).authMessage = some "Session expired" ∧
    (AuthContext.logout { user := .object sampleUser, authMessage := some "old" }
      none).authMessage = some "old" ∧
    (AuthContext.logout { user := .object sampleUser, authMessage := some "old" }
      none).user = .null :=
  ⟨(logout_clears_user_and_keeps_reason
      { user := .object sampleUser, authMessage := none } (some "Session expired")).2.2.1
      "Session expired" rfl (by decide),
   (logout_clears_user_and_keeps_reason
      { user := .object sampleUser, authMessage := some "old" } none).2.2.2 rfl,
   (logout_clears_user_and_keeps_reason
      { user := .object sampleUser, authMessage := some "old" } none).1⟩

/-- Claim C13.  For a user with an `_id`, for which the checks are scheduled,
every liveness check (the immediate one and an interval-triggered one) whose
result is that the account does not exist leads to the state with user `null`
and the auth message `You are logged out, try again to login.`; a check that
confirms the account leaves the state unchanged.  When no user is present no
check is scheduled. -/
theorem liveness_check_reaction (fetchUser : String → AuthContext.UserFetchResult)
    (user : JsValue User) (s : AuthContext.AuthState) :
    (AuthContext.checksScheduled user = true →
      (AuthContext.checkUserExists fetchUser (ProtectedRoute.userId user)).1 = false →
      AuthContext.initialCheck fetchUser user s =
        { user := .null, authMessage := some "You are logged out, try again to login." } ∧
      AuthContext.intervalCheck fetchUser user s =
        { user := .null, authMessage := some "You are logged out, try again to login." }) ∧
    (AuthContext.checksScheduled user = true →
      (AuthContext.checkUserExists fetchUser (ProtectedRoute.userId user)).1 = true →
      AuthContext.initialCheck fetchUser user s = s ∧
      AuthContext.intervalCheck fetchUser user s = s) ∧
    (user.truthy = false → AuthContext.checksScheduled user = false) := by
  refine ⟨fun _ hres => ?_, fun _ hres => ?_, fun hfalsy => ?_⟩
  · simp [AuthContext.initialCheck, AuthContext.intervalCheck, hres, AuthContext.logout,
      AuthContext.loggedOutMessage, truthyString]
  · simp [AuthContext.initialCheck, AuthContext.intervalCheck, hres]
  · simp [AuthContext.checksScheduled, hfalsy]

/-- Witness of C13: the backend answers 404 for the signed-in user, and 200. -/
theorem liveness_check_reaction_witness :
    AuthContext.checksScheduled (.object sampleUser) = true ∧
    AuthContext.intervalCheck (fun _ => .response false) (.object sampleUser)
      { user := .object sampleUser, authMessage := none } =
        { user := .null, authMessage := some "You are logged out, try again to login." } ∧
    AuthContext.initialCheck (fun _ => .response true) (.object sampleUser)
      { user := .object sampleUser, authMessage := none } =
        { user := .object sampleUser, authMessage := none } ∧
    AuthContext.checksScheduled .null = false :=
  ⟨by decide,
   ((liveness_check_reaction (fun _ => .response false) (.object sampleUser)
      { user := .object sampleUser, authMessage := none }).1 (by decide) (by decide)).2,
   ((liveness_check_reaction (fun _ => .response true) (.object sampleUser)
      { user := .object sampleUser, authMessage := none }).2.1 (by decide) (by decide)).1,
   (liveness_check_reaction (fun _ => .response true) .null
      { user := .null, authMessage := none }).2.2 rfl⟩

/-- Claim C20.  `checkUserExists` returns false without any request when the
user id is absent or empty.  Otherwise it requests the user URL for that id
once and returns true exactly when the response has a success status; it
returns false for a non-success response and when the request itself fails. -/
theorem checkUserExists_true_iff_response_ok
    (fetchUser : String → AuthContext.UserFetchResult) (userId : Option String) :
    ((userId = none ∨ userId = some "") →
      AuthContext.checkUserExists fetchUser userId = (false, [])) ∧
    (∀ id, userId = some id → id ≠ "" →
      (AuthContext.checkUserExists fetchUser userId).2 =
        ["http://localhost:3001/api/users/" ++ id] ∧
      ((AuthContext.checkUserExists fetchUser userId).1 = true ↔
        fetchUser ("http://localhost:3001/api/users/" ++ id) = .response true) ∧
      (fetchUser ("http://localhost:3001/api/users/" ++ id) = .response false →
        (AuthContext.checkUserExists fetchUser userId).1 = false) ∧
      (∀ error, fetchUser ("http://localhost:3001/api/users/" ++ id) = .rejected error →
        (AuthContext.checkUserExists fetchUser userId).1 = false)) := by
  constructor
  · rintro (h | h) <;> simp [AuthContext.checkUserExists, h]
  · intro id hid hne
    have hurl : AuthContext.API_BASE_URL ++ "/api/users/" ++ id =
        "http://localhost:3001/api/users/" ++ id := by
      simp [AuthContext.API_BASE_URL, String.append_assoc]
    subst hid
    simp only [AuthContext.checkUserExists, beq_iff_eq, hne, if_false, hurl]
    cases hf : fetchUser ("http://localhost:3001/api/users/" ++ id) with
    | rejected error => simp
    | response ok => cases ok <;> simp

/-- Witness of C20: an empty id, a found user and a missing user. -/
theorem checkUserExists_true_iff_response_ok_witness :
    AuthContext.checkUserExists (fun _ => .response true) (some "") = (false, []) ∧
    (AuthContext.checkUserExists
      (fun url => if url = "http://localhost:3001/api/users/u1" then .response true
                  else .response false) (some "u1")).1 = true ∧
    (AuthContext.checkUserExists
      (fun url => if url = "http://localhost:3001/api/users/u1" then .response true
                  else .response false) (some "u2")).1 = false :=
  ⟨(checkUserExists_true_iff_response_ok (fun _ => .response true) (some "")).1
      (Or.inr rfl),
   ((checkUserExists_true_iff_response_ok
      (fun url => if url = "http://localhost:3001/api/users/u1" then .response true
                  else .response false) (some "u1")).2 "u1" rfl (by decide)).2.1.mpr
      (by decide),
   ((checkUserExists_true_iff_response_ok
      (fun url => if url = "http://localhost:3001/api/users/u1" then .response true
                  else .response false) (some "u2")).2 "u2" rfl (by decide)).2.2.1
      (by decide)⟩

/-! ## The cart after checkout, and the cart totals -/

theorem clearOrderedItems_eq_filter (cart items : List CartItem) :
    CheckoutPage.clearOrderedItems cart items =
      cart.filter (fun entry => !(items.map (fun item => item._id)).contains entry._id) := by
  unfold CheckoutPage.clearOrderedItems
  induction items generalizing cart with
  | nil => simp
  | cons item rest ih =>
    rw [List.foldl_cons, ih]
    unfold CartContext.removeProductCompletely
    rw [List.filter_filter]
    congr 1
    funext entry
    by_cases h : entry._id = item._id
    · simp [h]
    · have h2 : ¬ item._id = entry._id := fun h3 => h h3.symm
      simp [h, h2]

theorem clearOrderedItems_drops_processed (cart items : List CartItem) :
    CheckoutPage.clearOrderedItems cart items =
      cart.filter (fun entry => decide (∀ item ∈ items, entry._id ≠ item._id)) ∧
    (∀ entry ∈ CheckoutPage.clearOrderedItems cart items,
      ∀ item ∈ items, entry._id ≠ item._id) ∧
    List.Sublist (CheckoutPage.clearOrderedItems cart items) cart ∧
    (∀ entry : CartItem, (∀ item ∈ items, entry._id ≠ item._id) →
      (CheckoutPage.clearOrderedItems cart items).count entry = cart.count entry) := by
  have hfilter : CheckoutPage.clearOrderedItems cart items =
      cart.filter (fun entry => decide (∀ item ∈ items, entry._id ≠ item._id)) := by
    rw [clearOrderedItems_eq_filter]
    congr 1
    funext entry
    by_cases h : ∀ item ∈ items, entry._id ≠ item._id
    · have hnot : ¬ ∃ item ∈ items, item._id = entry._id :=
        fun ⟨item, hitem, heq⟩ => h item hitem heq.symm
      simpa [hnot] using h
    · have hex : ∃ item ∈ items, item._id = entry._id := by
        by_contra hcon
        exact h (fun item hitem heq => hcon ⟨item, hitem, heq.symm⟩)
      simp [h, hex]
  refine ⟨hfilter, ?_, ?_, ?_⟩
  · intro entry hentry
    rw [hfilter] at hentry
    simpa using (List.mem_filter.mp hentry).2
  · rw [hfilter]
    exact List.filter_sublist cart
  · intro entry hentry
    rw [hfilter, List.count_filter]
    simpa using hentry

theorem foldl_add_quantity_eq_sum (items : List CartItem) (init : Int) :
    items.foldl (fun total item => total + item.quantity) init
      = init + (items.map (fun item => item.quantity)).sum := by
  induction items generalizing init with
  | nil => simp
  | cons x xs ih => simp [ih, add_assoc]

/-- Claim C17.  `getCartTotalQuantity` is the sum of the `quantity` fields of
all entries; it is 0 for the empty cart and hence after `clearCart`.  The
function only reads `cartItems` and returns a number, so the cart it is
computed from is the cart afterwards. -/
theorem getCartTotalQuantity_eq_sum (cartItems : List CartItem) :
    CartContext.getCartTotalQuantity cartItems
      = (cartItems.map (fun item => item.quantity)).sum ∧
    CartContext.getCartTotalQuantity [] = 0 ∧
    CartContext.getCartTotalQuantity (CartContext.clearCart cartItems) = 0 := by
  refine ⟨?_, rfl, rfl⟩
  unfold CartContext.getCartTotalQuantity
  rw [foldl_add_quantity_eq_sum]
  simp

/-- Claim C18, evaluated on the code.  Activating the trash control of an
entry with quantity 2 leaves an entry for that product in the cart, with
quantity 1: the quantity passed as second argument is not read by
`removeFromCart`, which removes one unit. -/
theorem trash_click_removes_one_unit :
    CartPage.trashClick [sampleItem "a" 5 2, sampleItem "b" 3 1] (sampleItem "a" 5 2)
      = [sampleItem "a" 5 1, sampleItem "b" 3 1] ∧
    (∃ entry ∈ CartPage.trashClick [sampleItem "a" 5 2, sampleItem "b" 3 1]
        (sampleItem "a" 5 2), entry._id = "a") := by
  have h : CartPage.trashClick [sampleItem "a" 5 2, sampleItem "b" 3 1] (sampleItem "a" 5 2)
      = [sampleItem "a" 5 1, sampleItem "b" 3 1] := by decide
  exact ⟨h, sampleItem "a" 5 1, by rw [h]; simp, rfl⟩

/-! ## Validation before the order request -/

theorem rendersChildren_user_object {auth : AuthContext.AuthState}
    (h : ProtectedRoute.rendersChildren auth = true) : ∃ u : User, auth.user = .object u := by
  unfold ProtectedRoute.rendersChildren at h
  cases hu : auth.user with
  | object u => exact ⟨u, rfl⟩
  | undefined => simp [hu, ProtectedRoute.userId, truthyString] at h
  | null => simp [hu, ProtectedRoute.userId, truthyString] at h
  | bool b => simp [hu, ProtectedRoute.userId, truthyString] at h
  | number n => simp [hu, ProtectedRoute.userId, truthyString] at h
  | string str => simp [hu, ProtectedRoute.userId, truthyString] at h
  | array items => simp [hu, ProtectedRoute.userId, truthyString] at h

theorem handleSubmit_requests_of_valid (postOrder : CheckoutPage.OrderData →
      CheckoutPage.OrderFetchResult) (u : User)
    (cartItems : List CartItem) (selectedCartItems : Option (List CartItem))
    (shippingAddress : CheckoutPage.ShippingAddress) (paymentMethod : String)
    (hitems : CheckoutPage.itemsToProcess selectedCartItems cartItems ≠ [])
    (hname : shippingAddress.personName ≠ "") (hmobile : shippingAddress.mobileNumber ≠ "")
    (haddress : shippingAddress.address ≠ "") (hpincode : shippingAddress.pincode ≠ "")
    (hstate : shippingAddress.state ≠ "")
    (hdigits : testDigits 6 shippingAddress.pincode = true) :
    (CheckoutPage.handleSubmit postOrder (.object u) cartItems selectedCartItems
      shippingAddress paymentMethod).requests =
      [{ userId := u._id,
         products := CheckoutPage.orderProducts
           (CheckoutPage.itemsToProcess selectedCartItems cartItems),
         shippingAddress := shippingAddress, paymentMethod := paymentMethod,
         totalPrice := CheckoutPage.totalPriceOfSelected
           (CheckoutPage.itemsToProcess selectedCartItems cartItems),
         orderStatus := "Pending" }] := by
  have hlen : ((CheckoutPage.itemsToProcess selectedCartItems cartItems).length == 0)
      = false := by
    simpa using hitems
  have hfields : (shippingAddress.personName == "" || shippingAddress.mobileNumber == "" ||
      shippingAddress.address == "" || shippingAddress.pincode == "" ||
      shippingAddress.state == "") = false := by
    simp [hname, hmobile, haddress, hpincode, hstate]
  unfold CheckoutPage.handleSubmit
  simp only [hlen, hfields, hdigits, Bool.not_true, Bool.false_eq_true, if_false, readUserId]
  split <;> rfl

theorem testDigits_iff (n : Nat) (text : String) :
    testDigits n text = true ↔
      text.length = n ∧ ∀ c ∈ text.toList, c.isDigit = true := by
  show (text.toList.length == n && text.toList.all Char.isDigit) = true ↔
    text.toList.length = n ∧ ∀ c ∈ text.toList, c.isDigit = true
  simp only [Bool.and_eq_true, beq_iff_eq, List.all_eq_true]

theorem handleSubmit_empty (postOrder : CheckoutPage.OrderData → CheckoutPage.OrderFetchResult)
    (user : JsValue User) (cartItems : List CartItem)
    (selectedCartItems : Option (List CartItem))
    (shippingAddress : CheckoutPage.ShippingAddress) (paymentMethod : String)
    (hitems : CheckoutPage.itemsToProcess selectedCartItems cartItems = []) :
    (CheckoutPage.handleSubmit postOrder user cartItems selectedCartItems
      shippingAddress paymentMethod).requests = [] ∧
    (CheckoutPage.handleSubmit postOrder user cartItems selectedCartItems
      shippingAddress paymentMethod).message =
        "❌ Your cart is empty. Please add items before checking out." := by
  have hlen : ((CheckoutPage.itemsToProcess selectedCartItems cartItems).length == 0)
      = true := by
    simp [hitems]
  unfold CheckoutPage.handleSubmit
  simp only [hlen, if_true]
  exact ⟨trivial, trivial⟩

theorem handleSubmit_missing_field
    (postOrder : CheckoutPage.OrderData → CheckoutPage.OrderFetchResult)
    (user : JsValue User) (cartItems : List CartItem)
    (selectedCartItems : Option (List CartItem))
    (shippingAddress : CheckoutPage.ShippingAddress) (paymentMethod : String)
    (hitems : CheckoutPage.itemsToProcess selectedCartItems cartItems ≠ [])
    (hmissing : ¬ (shippingAddress.personName ≠ "" ∧ shippingAddress.mobileNumber ≠ "" ∧
      shippingAddress.address ≠ "" ∧ shippingAddress.pincode ≠ "" ∧
      shippingAddress.state ≠ "")) :
    (CheckoutPage.handleSubmit postOrder user cartItems selectedCartItems
      shippingAddress paymentMethod).requests = [] ∧
    (CheckoutPage.handleSubmit postOrder user cartItems selectedCartItems
      shippingAddress paymentMethod).message =
        "❌ Please fill in all shipping address details." := by
  have hlen : ((CheckoutPage.itemsToProcess selectedCartItems cartItems).length == 0)
      = false := by
    simpa using hitems
  have hfields : (shippingAddress.personName == "" || shippingAddress.mobileNumber == "" ||
      shippingAddress.address == "" || shippingAddress.pincode == "" ||
      shippingAddress.state == "") = true := by
    by_contra hcon
    apply hmissing
    simp only [Bool.or_eq_true, beq_iff_eq, not_or] at hcon
    obtain ⟨⟨⟨⟨h1, h2⟩, h3⟩, h4⟩, h5⟩ := hcon
    exact ⟨h1, h2, h3, h4, h5⟩
  unfold CheckoutPage.handleSubmit
  simp only [hlen, hfields, Bool.false_eq_true, if_false, if_true]
  exact ⟨trivial, trivial⟩

theorem handleSubmit_bad_pincode
    (postOrder : CheckoutPage.OrderData → CheckoutPage.OrderFetchResult)
    (user : JsValue User) (cartItems : List CartItem)
    (selectedCartItems : Option (List CartItem))
    (shippingAddress : CheckoutPage.ShippingAddress) (paymentMethod : String)
    (hitems : CheckoutPage.itemsToProcess selectedCartItems cartItems ≠ [])
    (hfilled : shippingAddress.personName ≠ "" ∧ shippingAddress.mobileNumber ≠ "" ∧
      shippingAddress.address ≠ "" ∧ shippingAddress.pincode ≠ "" ∧
      shippingAddress.state ≠ "")
    (hdigits : testDigits 6 shippingAddress.pincode = false) :
    (CheckoutPage.handleSubmit postOrder user cartItems selectedCartItems
      shippingAddress paymentMethod).requests = [] ∧
    (CheckoutPage.handleSubmit postOrder user cartItems selectedCartItems
      shippingAddress paymentMethod).message = "❌ Pincode must be a 6-digit number." := by
  have hlen : ((CheckoutPage.itemsToProcess selectedCartItems cartItems).length == 0)
      = false := by
    simpa using hitems
  have hfields : (shippingAddress.personName == "" || shippingAddress.mobileNumber == "" ||
      shippingAddress.address == "" || shippingAddress.pincode == "" ||
      shippingAddress.state == "") = false := by
    simp [hfilled.1, hfilled.2.1, hfilled.2.2.1, hfilled.2.2.2.1, hfilled.2.2.2.2]
  unfold CheckoutPage.handleSubmit
  simp only [hlen, hfields, hdigits, Bool.not_false, Bool.false_eq_true, if_false, if_true]
  exact ⟨trivial, trivial⟩

/-- Claim C14.  On the checkout page, which is rendered only while
`ProtectedRoute` lets its children through, `handleSubmit` sends the order
request if and only if the list of items to process is non-empty, all five
shipping fields are non-empty, and the pincode consists of exactly six decimal
digits.  Otherwise nothing is sent and an error message is set: the one for the
empty cart first, then the one for missing fields, then the one for the
pincode format. -/
theorem checkout_request_iff_form_valid
    (postOrder : CheckoutPage.OrderData → CheckoutPage.OrderFetchResult)
    (auth : AuthContext.AuthState) (hpage : ProtectedRoute.rendersChildren auth = true)
    (cartItems : List CartItem) (selectedCartItems : Option (List CartItem))
    (shippingAddress : CheckoutPage.ShippingAddress) (paymentMethod : String) :
    ((CheckoutPage.handleSubmit postOrder auth.user cartItems selectedCartItems
        shippingAddress paymentMethod).requests ≠ [] ↔
      CheckoutPage.itemsToProcess selectedCartItems cartItems ≠ [] ∧
      (shippingAddress.personName ≠ "" ∧ shippingAddress.mobileNumber ≠ "" ∧
        shippingAddress.address ≠ "" ∧ shippingAddress.pincode ≠ "" ∧
        shippingAddress.state ≠ "") ∧
      (shippingAddress.pincode.length = 6 ∧
        ∀ c ∈ shippingAddress.pincode.toList, c.isDigit = true)) ∧
    (CheckoutPage.itemsToProcess selectedCartItems cartItems = [] →
      (CheckoutPage.handleSubmit postOrder auth.user cartItems selectedCartItems
        shippingAddress paymentMethod).requests = [] ∧
      (CheckoutPage.handleSubmit postOrder auth.user cartItems selectedCartItems
        shippingAddress paymentMethod).message =
          "❌ Your cart is empty. Please add items before checking out.") ∧
    (CheckoutPage.itemsToProcess selectedCartItems cartItems ≠ [] →
      ¬ (shippingAddress.personName ≠ "" ∧ shippingAddress.mobileNumber ≠ "" ∧
        shippingAddress.address ≠ "" ∧ shippingAddress.pincode ≠ "" ∧
        shippingAddress.state ≠ "") →
      (CheckoutPage.handleSubmit postOrder auth.user cartItems selectedCartItems
        shippingAddress paymentMethod).requests = [] ∧
      (CheckoutPage.handleSubmit postOrder auth.user cartItems selectedCartItems
        shippingAddress paymentMethod).message =
          "❌ Please fill in all shipping address details.") ∧
    (CheckoutPage.itemsToProcess selectedCartItems cartItems ≠ [] →
      (shippingAddress.personName ≠ "" ∧ shippingAddress.mobileNumber ≠ "" ∧
        shippingAddress.address ≠ "" ∧ shippingAddress.pincode ≠ "" ∧
        shippingAddress.state ≠ "") →
      ¬ (shippingAddress.pincode.length = 6 ∧
        ∀ c ∈ shippingAddress.pincode.toList, c.isDigit = true) →
      (CheckoutPage.handleSubmit postOrder auth.user cartItems selectedCartItems
        shippingAddress paymentMethod).requests = [] ∧
      (CheckoutPage.handleSubmit postOrder auth.user cartItems selectedCartItems
        shippingAddress paymentMethod).message = "❌ Pincode must be a 6-digit number.") := by
  obtain ⟨u, hu⟩ := rendersChildren_user_object hpage
  have hbad : ¬ (shippingAddress.pincode.length = 6 ∧
      ∀ c ∈ shippingAddress.pincode.toList, c.isDigit = true) →
      testDigits 6 shippingAddress.pincode = false := by
    intro hnot
    cases htest : testDigits 6 shippingAddress.pincode with
    | false => rfl
    | true => exact absurd ((testDigits_iff 6 _).mp htest) hnot
  refine ⟨⟨fun hreq => ?_, fun hvalid => ?_⟩,
    fun hitems => handleSubmit_empty postOrder _ _ _ _ _ hitems,
    fun hitems hmissing => handleSubmit_missing_field postOrder _ _ _ _ _ hitems hmissing,
    fun hitems hfilled hnot =>
      handleSubmit_bad_pincode postOrder _ _ _ _ _ hitems hfilled (hbad hnot)⟩
  · by_cases hitems : CheckoutPage.itemsToProcess selectedCartItems cartItems = []
    · exact absurd (handleSubmit_empty postOrder _ _ _ _ _ hitems).1 hreq
    · by_cases hfilled : shippingAddress.personName ≠ "" ∧
          shippingAddress.mobileNumber ≠ "" ∧ shippingAddress.address ≠ "" ∧
          shippingAddress.pincode ≠ "" ∧ shippingAddress.state ≠ ""
      · by_cases hdigits : shippingAddress.pincode.length = 6 ∧
            ∀ c ∈ shippingAddress.pincode.toList, c.isDigit = true
        · exact ⟨hitems, hfilled, hdigits⟩
        · exact absurd
            (handleSubmit_bad_pincode postOrder _ _ _ _ _ hitems hfilled (hbad hdigits)).1 hreq
      · exact absurd (handleSubmit_missing_field postOrder _ _ _ _ _ hitems hfilled).1 hreq
  · obtain ⟨hitems, hfilled, hdigits⟩ := hvalid
    rw [hu, handleSubmit_requests_of_valid postOrder u cartItems selectedCartItems
      shippingAddress paymentMethod hitems hfilled.1 hfilled.2.1 hfilled.2.2.1
      hfilled.2.2.2.1 hfilled.2.2.2.2 ((testDigits_iff 6 _).mpr hdigits)]
    simp

/-- Witness of C14: a valid form sends the request; a five-digit pincode does
not and sets the pincode message. -/
theorem checkout_request_iff_form_valid_witness :
    ProtectedRoute.rendersChildren sampleAuth = true ∧
    (CheckoutPage.handleSubmit (fun _ => .response true (.ok .null)) sampleAuth.user
      [sampleItem "a" 5 2] none (sampleAddress "560001") "Cash on Delivery").requests ≠ [] ∧
    (CheckoutPage.handleSubmit (fun _ => .response true (.ok .null)) sampleAuth.user
      [sampleItem "a" 5 2] none (sampleAddress "56001") "Cash on Delivery").requests = [] ∧
    (CheckoutPage.handleSubmit (fun _ => .response true (.ok .null)) sampleAuth.user
      [sampleItem "a" 5 2] none (sampleAddress "56001") "Cash on Delivery").message
      = "❌ Pincode must be a 6-digit number." := by
  have hpage : ProtectedRoute.rendersChildren sampleAuth = true := by decide
  have hitems : CheckoutPage.itemsToProcess none [sampleItem "a" 5 2] ≠ [] := by
    simp [CheckoutPage.itemsToProcess]
  have hfilled : ∀ pincode, pincode ≠ "" →
      ((sampleAddress pincode).personName ≠ "" ∧ (sampleAddress pincode).mobileNumber ≠ "" ∧
       (sampleAddress pincode).address ≠ "" ∧ (sampleAddress pincode).pincode ≠ "" ∧
       (sampleAddress pincode).state ≠ "") :=
    fun pincode hne => ⟨by simp [sampleAddress], by simp [sampleAddress],
      by simp [sampleAddress], hne, by simp [sampleAddress]⟩
  have hgood := (checkout_request_iff_form_valid (fun _ => .response true (.ok .null))
    sampleAuth hpage [sampleItem "a" 5 2] none (sampleAddress "560001")
    "Cash on Delivery").1.mpr ⟨hitems, hfilled "560001" (by decide), by decide, by decide⟩
  have hbad := (checkout_request_iff_form_valid (fun _ => .response true (.ok .null))
    sampleAuth hpage [sampleItem "a" 5 2] none (sampleAddress "56001")
    "Cash on Delivery").2.2.2 hitems (hfilled "56001" (by decide))
    (fun h => absurd h.1 (by decide))
  exact ⟨hpage, hgood, hbad.1, hbad.2⟩

/-! ## Validation before the signup request -/

theorem handleSignupSubmit_calls_iff
    (fetchSignup : String → String → String → String → AuthContext.FetchResult)
    (auth : AuthContext.AuthState) (page : LoginPage.PageState) :
    (LoginPage.handleSignupSubmit fetchSignup auth page).signupCalls ≠ [] ↔
      page.password = page.confirmPassword ∧ parseIntLessThan page.age 16 = false ∧
      testDigits 10 page.mobileNumber = true := by
  unfold LoginPage.handleSignupSubmit
  by_cases hpw : page.password = page.confirmPassword
  · cases hage : parseIntLessThan page.age 16 with
    | true => simp [hpw]
    | false =>
      cases hmob : testDigits 10 page.mobileNumber with
      | false => simp [hpw]
      | true =>
        simp only [hpw, bne_self_eq_false, Bool.false_eq_true, if_false, Bool.not_true]
        split <;> simp
  · simp [hpw]

/-- The handler taken on its own: with matching passwords, a ten-digit mobile
number and an empty age text, `handleSignupSubmit` calls `signup`, because
`parseInt` of the empty text is `NaN` and `NaN < 16` is false.  It is the
constraint on the age control that keeps such a text from the handler; with the
age `15` the handler itself blocks. -/
theorem handleSignupSubmit_passes_empty_age :
    parseInt "" = none ∧
    (LoginPage.handleSignupSubmit
      (fun _ _ _ _ => .response true
        (.ok (.object { message := some "User registered successfully!",
                        user := .undefined })))
      { user := .null, authMessage := none } (sampleSignupForm "")).signupCalls
      = [{ username := "asha", password := "secret", age := "",
           mobileNumber := "9876543210" }] ∧
    (LoginPage.handleSignupSubmit
      (fun _ _ _ _ => .response true
        (.ok (.object { message := some "User registered successfully!",
                        user := .undefined })))
      { user := .null, authMessage := none } (sampleSignupForm "15")).signupCalls = [] := by
  refine ⟨by decide, by decide, by decide⟩

/-! ## The order payload -/

/-- Claim C19.  When the form is valid, the order payload that is sent has as
`totalPrice` the sum of `price * quantity` over exactly the items being
processed, and its product list has one element per processed item, in the
same order, with the same `productId`, `quantity` and `price`.  When checkout
was entered from the cart page with a non-empty selection, the items processed
are that selection and `totalPrice` is the value the cart page showed as
`totalPriceOfSelected`; when no selection is passed the whole cart is
processed. -/
theorem order_total_matches_selection
    (postOrder : CheckoutPage.OrderData → CheckoutPage.OrderFetchResult)
    (auth : AuthContext.AuthState) (hpage : ProtectedRoute.rendersChildren auth = true)
    (checkoutCart : List CartItem) (selectedCartItems : Option (List CartItem))
    (shippingAddress : CheckoutPage.ShippingAddress) (paymentMethod : String)
    (hitems : CheckoutPage.itemsToProcess selectedCartItems checkoutCart ≠ [])
    (hfilled : shippingAddress.personName ≠ "" ∧ shippingAddress.mobileNumber ≠ "" ∧
      shippingAddress.address ≠ "" ∧ shippingAddress.pincode ≠ "" ∧
      shippingAddress.state ≠ "")
    (hdigits : shippingAddress.pincode.length = 6 ∧
      ∀ c ∈ shippingAddress.pincode.toList, c.isDigit = true) :
    ∃ orderData : CheckoutPage.OrderData,
      (CheckoutPage.handleSubmit postOrder auth.user checkoutCart selectedCartItems
        shippingAddress paymentMethod).requests = [orderData] ∧
      orderData.totalPrice =
        ((CheckoutPage.itemsToProcess selectedCartItems checkoutCart).map
          (fun item => item.price * (item.quantity : Rat))).sum ∧
      orderData.products.length =
        (CheckoutPage.itemsToProcess selectedCartItems checkoutCart).length ∧
      orderData.products.map (fun p => (p.productId, p.quantity, p.price)) =
        (CheckoutPage.itemsToProcess selectedCartItems checkoutCart).map
          (fun item => (item._id, item.quantity, item.price)) ∧
      (∀ (cartItems : List CartItem) (selectedItems : CartPage.SelectedItems),
        selectedCartItems = CartPage.handleProceedToCheckout cartItems selectedItems →
        CartPage.itemsToCheckout cartItems selectedItems ≠ [] →
        CheckoutPage.itemsToProcess selectedCartItems checkoutCart =
          CartPage.itemsToCheckout cartItems selectedItems ∧
        orderData.totalPrice = CartPage.totalPriceOfSelected cartItems selectedItems) ∧
      (selectedCartItems = none →
        CheckoutPage.itemsToProcess selectedCartItems checkoutCart = checkoutCart) := by
  obtain ⟨u, hu⟩ := rendersChildren_user_object hpage
  refine ⟨{ userId := u._id,
            products := CheckoutPage.orderProducts
              (CheckoutPage.itemsToProcess selectedCartItems checkoutCart),
            shippingAddress := shippingAddress, paymentMethod := paymentMethod,
            totalPrice := CheckoutPage.totalPriceOfSelected
              (CheckoutPage.itemsToProcess selectedCartItems checkoutCart),
            orderStatus := "Pending" }, ?_, ?_, ?_, ?_, ?_, ?_⟩
  · rw [hu]
    exact handleSubmit_requests_of_valid postOrder u checkoutCart selectedCartItems
      shippingAddress paymentMethod hitems hfilled.1 hfilled.2.1 hfilled.2.2.1
      hfilled.2.2.2.1 hfilled.2.2.2.2 ((testDigits_iff 6 _).mpr hdigits)
  · show CheckoutPage.totalPriceOfSelected _ = _
    unfold CheckoutPage.totalPriceOfSelected
    rw [foldl_add_eq_sum (fun item => item.price * (item.quantity : Rat))]
    simp
  · simp [CheckoutPage.orderProducts]
  · simp [CheckoutPage.orderProducts, List.map_map, Function.comp_def]
  · intro cartItems selectedItems hsel hnonempty
    have hlen : ((CartPage.itemsToCheckout cartItems selectedItems).length == 0) = false := by
      simpa using hnonempty
    have hsome : selectedCartItems =
        some (CartPage.itemsToCheckout cartItems selectedItems) := by
      rw [hsel]
      unfold CartPage.handleProceedToCheckout
      simp only [hlen, Bool.false_eq_true, if_false]
    have hproc : CheckoutPage.itemsToProcess selectedCartItems checkoutCart =
        CartPage.itemsToCheckout cartItems selectedItems := by
      rw [hsome]
      rfl
    refine ⟨hproc, ?_⟩
    show CheckoutPage.totalPriceOfSelected _ = _
    rw [hproc]
    rfl
  · intro hnone
    rw [hnone]
    rfl

/-- Witness of C19: entry `a` (5 x 2) selected on the cart page, entry `b` not;
the payload total is the 10 shown on the cart page. -/
theorem order_total_matches_selection_witness :
    ∃ orderData : CheckoutPage.OrderData,
      (CheckoutPage.handleSubmit (fun _ => .response true (.ok .null)) sampleAuth.user
        [sampleItem "a" 5 2, sampleItem "b" 3 1]
        (CartPage.handleProceedToCheckout [sampleItem "a" 5 2, sampleItem "b" 3 1]
          [("a", true), ("b", false)])
        (sampleAddress "560001") "Cash on Delivery").requests = [orderData] ∧
      orderData.totalPrice =
        CartPage.totalPriceOfSelected [sampleItem "a" 5 2, sampleItem "b" 3 1]
          [("a", true), ("b", false)] ∧
      orderData.products.map (fun p => (p.productId, p.quantity, p.price)) = [("a", 2, 5)] := by
  have hsel : CartPage.handleProceedToCheckout [sampleItem "a" 5 2, sampleItem "b" 3 1]
      [("a", true), ("b", false)] = some [sampleItem "a" 5 2] := by decide
  have hcheckout : CartPage.itemsToCheckout [sampleItem "a" 5 2, sampleItem "b" 3 1]
      [("a", true), ("b", false)] = [sampleItem "a" 5 2] := by decide
  obtain ⟨orderData, hreq, -, -, hprod, hcart, -⟩ :=
    order_total_matches_selection (fun _ => .response true (.ok .null)) sampleAuth
      (by decide) [sampleItem "a" 5 2, sampleItem "b" 3 1]
      (CartPage.handleProceedToCheckout [sampleItem "a" 5 2, sampleItem "b" 3 1]
        [("a", true), ("b", false)])
      (sampleAddress "560001") "Cash on Delivery"
      (by rw [hsel]; simp [CheckoutPage.itemsToProcess])
      ⟨by decide, by decide, by decide, by decide, by decide⟩
      ⟨by decide, by decide⟩
  refine ⟨orderData, hreq,
    (hcart [sampleItem "a" 5 2, sampleItem "b" 3 1] [("a", true), ("b", false)] rfl
      (by rw [hcheckout]; simp)).2, ?_⟩
  rw [hprod, hsel]
  simp [CheckoutPage.itemsToProcess, sampleItem, sampleProduct]

/-! ## The order detail page -/

theorem fetchOrder_signed_out (fetchOrderById : String → OrderDetailPage.OrderFetchResult)
    (auth : AuthContext.AuthState) (id : String) (s : OrderDetailPage.PageState)
    (hguard : ProtectedRoute.rendersChildren auth = false) :
    (OrderDetailPage.fetchOrder fetchOrderById auth id s).state.order = s.order := by
  have hcond : (!AuthContext.isAuthenticated auth || !auth.user.truthy ||
      !truthyString (ProtectedRoute.userId auth.user)) = true := by
    unfold ProtectedRoute.rendersChildren at hguard
    revert hguard
    cases AuthContext.isAuthenticated auth <;> cases auth.user.truthy <;>
      cases truthyString (ProtectedRoute.userId auth.user) <;> simp
  unfold OrderDetailPage.fetchOrder
  simp only [hcond, if_true]

/-- Claim C22.  For every answer of the backend and every session,
`fetchOrder` leaves the stored order as it was (`null` on the first load)
unless the fetched order's owner id `data.userId._id` equals the session user's
`_id`, in which case that order is stored.  For a signed-in user and a fetched
order owned by anyone else the stored order is left as it was and the error
`You do not have permission to view this order.` is set. -/
theorem fetchOrder_stores_only_own_order
    (fetchOrderById : String → OrderDetailPage.OrderFetchResult)
    (auth : AuthContext.AuthState) (id : String) (s : OrderDetailPage.PageState) :
    ((OrderDetailPage.fetchOrder fetchOrderById auth id s).state.order = s.order ∨
      ∃ data owner,
        fetchOrderById ("http://localhost:3001/api/orders/" ++ id)
          = .success (.ok (.object data)) ∧
        data.userId = .object owner ∧
        owner._id = ProtectedRoute.userId auth.user ∧
        ProtectedRoute.rendersChildren auth = true ∧
        (OrderDetailPage.fetchOrder fetchOrderById auth id s).state.order = some data) ∧
    (∀ data owner,
      ProtectedRoute.rendersChildren auth = true →
      fetchOrderById ("http://localhost:3001/api/orders/" ++ id)
        = .success (.ok (.object data)) →
      data.userId = .object owner →
      owner._id ≠ ProtectedRoute.userId auth.user →
      (OrderDetailPage.fetchOrder fetchOrderById auth id s).state.order = s.order ∧
      (s.order = none →
        (OrderDetailPage.fetchOrder fetchOrderById auth id s).state.order = none) ∧
      (OrderDetailPage.fetchOrder fetchOrderById auth id s).state.error
        = some "You do not have permission to view this order.") := by
  have hurl : OrderDetailPage.API_BASE_URL ++ "/api/orders/" ++ id =
      "http://localhost:3001/api/orders/" ++ id := by
    simp [OrderDetailPage.API_BASE_URL, String.append_assoc]
  have hcond : ProtectedRoute.rendersChildren auth = true →
      (!AuthContext.isAuthenticated auth || !auth.user.truthy ||
        !truthyString (ProtectedRoute.userId auth.user)) = false := by
    intro hguard
    unfold ProtectedRoute.rendersChildren at hguard
    revert hguard
    cases AuthContext.isAuthenticated auth <;> cases auth.user.truthy <;>
      cases truthyString (ProtectedRoute.userId auth.user) <;> simp
  constructor
  · cases hguard : ProtectedRoute.rendersChildren auth with
    | false => exact Or.inl (fetchOrder_signed_out fetchOrderById auth id s hguard)
    | true =>
      unfold OrderDetailPage.fetchOrder
      simp only [hcond hguard, Bool.false_eq_true, if_false, hurl]
      cases hf : fetchOrderById ("http://localhost:3001/api/orders/" ++ id) with
      | rejected err => exact Or.inl rfl
      | failure status json =>
        rcases json with err | value
        · exact Or.inl rfl
        · cases value <;> exact Or.inl rfl
      | success json =>
        rcases json with err | value
        · exact Or.inl rfl
        · cases value with
          | object data =>
            cases hown : data.userId with
            | object owner =>
              by_cases hne : (owner._id != ProtectedRoute.userId auth.user) = true
              · left
                simp only [hown, hne, if_true]
                rfl
              · right
                refine ⟨data, owner, rfl, hown, by simpa using hne, trivial, ?_⟩
                simp only [hown, hne, Bool.false_eq_true, if_false]
            | undefined => left; simp only [hown]; rfl
            | null => left; simp only [hown]; rfl
            | bool b => left; simp only [hown]; rfl
            | number n => left; simp only [hown]; rfl
            | string str => left; simp only [hown]; rfl
            | array items => left; simp only [hown]; rfl
          | undefined => exact Or.inl rfl
          | null => exact Or.inl rfl
          | bool b => exact Or.inl rfl
          | number n => exact Or.inl rfl
          | string str => exact Or.inl rfl
          | array items => exact Or.inl rfl
  · intro data owner hguard hf hown hne
    have hbne : (owner._id != ProtectedRoute.userId auth.user) = true := by
      simpa using hne
    have hout : OrderDetailPage.fetchOrder fetchOrderById auth id s =
        OrderDetailPage.permissionDenied
          { s with loading := true, error := none, message := "" }
          ("http://localhost:3001/api/orders/" ++ id) := by
      unfold OrderDetailPage.fetchOrder
      simp only [hcond hguard, Bool.false_eq_true, if_false, hurl, hf, hown, hbne, if_true]
    rw [hout]
    exact ⟨rfl, fun h => h, rfl⟩

/-- Witness of C22: the signed-in user `u1` opens an order of `u2`, and one of
their own. -/
theorem fetchOrder_stores_only_own_order_witness :
    (OrderDetailPage.fetchOrder (fun _ => .success (.ok (.object (sampleFetchedOrder "u2"))))
      sampleAuth "o1" OrderDetailPage.initialPageState).state.order = none ∧
    (OrderDetailPage.fetchOrder (fun _ => .success (.ok (.object (sampleFetchedOrder "u2"))))
      sampleAuth "o1" OrderDetailPage.initialPageState).state.error
        = some "You do not have permission to view this order." ∧
    (OrderDetailPage.fetchOrder (fun _ => .success (.ok (.object (sampleFetchedOrder "u1"))))
      sampleAuth "o1" OrderDetailPage.initialPageState).state.order
        = some (sampleFetchedOrder "u1") :=
  have h := (fetchOrder_stores_only_own_order
    (fun _ => .success (.ok (.object (sampleFetchedOrder "u2"))))
    sampleAuth "o1" OrderDetailPage.initialPageState).2
    (sampleFetchedOrder "u2") { _id := some "u2" } (by decide) rfl rfl (by decide)
  ⟨h.2.1 rfl, h.2.2, by decide⟩

/-- Claim C27.  For every order, and before an order is loaded, no two of
`canCancelOrder`, `showConfirmReceivedButton` and `showDownloadReceiptButton`
are true together.  A cancelled order offers none of them, and an order with
status `Delivered & Confirmed` offers only the receipt download. -/
theorem order_controls_mutually_exclusive (order : Option Order) :
    ¬ (OrderDetailPage.canCancelOrder order = true ∧
        OrderDetailPage.showConfirmReceivedButton order = true) ∧
    ¬ (OrderDetailPage.canCancelOrder order = true ∧
        OrderDetailPage.showDownloadReceiptButton order = true) ∧
    ¬ (OrderDetailPage.showConfirmReceivedButton order = true ∧
        OrderDetailPage.showDownloadReceiptButton order = true) ∧
    (∀ o, order = some o → o.orderStatus = "Cancelled" →
      OrderDetailPage.canCancelOrder order = false ∧
      OrderDetailPage.showConfirmReceivedButton order = false ∧
      OrderDetailPage.showDownloadReceiptButton order = false) ∧
    (∀ o, order = some o → o.orderStatus = "Delivered & Confirmed" →
      OrderDetailPage.canCancelOrder order = false ∧
      OrderDetailPage.showConfirmReceivedButton order = false ∧
      OrderDetailPage.showDownloadReceiptButton order = true) := by
  cases order with
  | none =>
    simp [OrderDetailPage.canCancelOrder, OrderDetailPage.showConfirmReceivedButton]
  | some o =>
    refine ⟨?_, ?_, ?_, ?_, ?_⟩
    · rintro ⟨hcancel, hconfirm⟩
      simp only [OrderDetailPage.canCancelOrder, OrderDetailPage.showConfirmReceivedButton,
        Bool.and_eq_true, beq_iff_eq, List.contains_eq_any_beq, List.any_eq_true] at hcancel hconfirm
      obtain ⟨⟨⟨⟨⟨x, hx, hxe⟩, -⟩, -⟩, -⟩, -⟩ := hcancel
      obtain ⟨⟨hopt, -⟩, -⟩ := hconfirm
      rw [hopt] at hxe
      subst hxe
      revert hx
      decide
    · rintro ⟨hcancel, hdownload⟩
      simp only [OrderDetailPage.canCancelOrder, OrderDetailPage.showDownloadReceiptButton,
        Bool.and_eq_true, beq_iff_eq, bne_iff_ne, ne_eq] at hcancel hdownload
      exact hcancel.1.2 hdownload
    · rintro ⟨hconfirm, hdownload⟩
      simp only [OrderDetailPage.showConfirmReceivedButton,
        OrderDetailPage.showDownloadReceiptButton,
        Bool.and_eq_true, beq_iff_eq, bne_iff_ne, ne_eq] at hconfirm hdownload
      exact hconfirm.1.2 hdownload
    · intro o2 ho hstatus
      cases ho
      simp [OrderDetailPage.canCancelOrder, OrderDetailPage.showConfirmReceivedButton,
        OrderDetailPage.showDownloadReceiptButton, hstatus]
    · intro o2 ho hstatus
      cases ho
      simp [OrderDetailPage.canCancelOrder, OrderDetailPage.showConfirmReceivedButton,
        OrderDetailPage.showDownloadReceiptButton, hstatus]

/-- Witness of C27: a cancelled order in the last stage, and a confirmed one. -/
theorem order_controls_mutually_exclusive_witness :
    (OrderDetailPage.canCancelOrder
        (some { _id := "o1", deliveryOption := "Option 5 - Arriving Today",
                orderStatus := "Cancelled" }) = false ∧
      OrderDetailPage.showConfirmReceivedButton
        (some { _id := "o1", deliveryOption := "Option 5 - Arriving Today",
                orderStatus := "Cancelled" }) = false ∧
      OrderDetailPage.showDownloadReceiptButton
        (some { _id := "o1", deliveryOption := "Option 5 - Arriving Today",
                orderStatus := "Cancelled" }) = false) ∧
    (OrderDetailPage.canCancelOrder
        (some { _id := "o2", deliveryOption := "Option 5 - Arriving Today",
                orderStatus := "Delivered & Confirmed" }) = false ∧
      OrderDetailPage.showConfirmReceivedButton
        (some { _id := "o2", deliveryOption := "Option 5 - Arriving Today",
                orderStatus := "Delivered & Confirmed" }) = false ∧
      OrderDetailPage.showDownloadReceiptButton
        (some { _id := "o2", deliveryOption := "Option 5 - Arriving Today",
                orderStatus := "Delivered & Confirmed" }) = true) :=
  ⟨(order_controls_mutually_exclusive
      (some { _id := "o1", deliveryOption := "Option 5 - Arriving Today",
              orderStatus := "Cancelled" })).2.2.2.1 _ rfl rfl,
   (order_controls_mutually_exclusive
      (some { _id := "o2", deliveryOption := "Option 5 - Arriving Today",
              orderStatus := "Delivered & Confirmed" })).2.2.2.2 _ rfl rfl⟩

theorem indexOf_deliveryOptions_of_getElem (k : Nat) (currentOption : String)
    (hk : OrderDetailPage.deliveryOptions[k]? = some currentOption) :
    OrderDetailPage.indexOf OrderDetailPage.deliveryOptions currentOption = (k : Int) := by
  have hlt : k < 5 := by
    by_contra hge
    have hnone : OrderDetailPage.deliveryOptions[k]? = none :=
      List.getElem?_eq_none (by simp [OrderDetailPage.deliveryOptions]; omega)
    rw [hnone] at hk
    exact absurd hk (by simp)
  interval_cases k <;>
    · simp only [OrderDetailPage.deliveryOptions, List.getElem?_cons_zero,
        List.getElem?_cons_succ, Option.some.injEq] at hk
      subst hk
      decide

theorem indexOf_deliveryOptions_of_not_mem (currentOption : String)
    (hnot : currentOption ∉ OrderDetailPage.deliveryOptions) :
    OrderDetailPage.indexOf OrderDetailPage.deliveryOptions currentOption = -1 := by
  unfold OrderDetailPage.indexOf
  apply findIndex_of_forall_false
  intro x hx
  have hne : x ≠ currentOption := fun h => hnot (h ▸ hx)
  simpa using hne

/-- Claim C23.  For every step index `i` in 0..4, `getDeliveryStepColor` is red
when the status is `Cancelled` and green when it is `Delivered & Confirmed`.
Otherwise, with `k` the position of `currentOption` in the five-stage list, it
is green for `i < k`, blue for `i = k` and grey for `i > k`, so the step is blue
exactly when it is the current one; and if `currentOption` is not one of the
five stages the step is grey. -/
theorem getDeliveryStepColor_progression (i : Nat) (hi : i < 5)
    (currentOption orderStatus : String) :
    (orderStatus = "Cancelled" →
      OrderDetailPage.getDeliveryStepColor i currentOption orderStatus
        = "bg-red-500 text-white") ∧
    (orderStatus = "Delivered & Confirmed" →
      OrderDetailPage.getDeliveryStepColor i currentOption orderStatus
        = "bg-green-500 text-white") ∧
    (orderStatus ≠ "Cancelled" → orderStatus ≠ "Delivered & Confirmed" →
      (∀ k, OrderDetailPage.deliveryOptions[k]? = some currentOption →
        (i < k → OrderDetailPage.getDeliveryStepColor i currentOption orderStatus
          = "bg-green-500 text-white") ∧
        (i = k → OrderDetailPage.getDeliveryStepColor i currentOption orderStatus
          = "bg-blue-500 text-white") ∧
        (k < i → OrderDetailPage.getDeliveryStepColor i currentOption orderStatus
          = "bg-gray-300 text-gray-600") ∧
        (OrderDetailPage.getDeliveryStepColor i currentOption orderStatus
          = "bg-blue-500 text-white" ↔ i = k)) ∧
      (currentOption ∉ OrderDetailPage.deliveryOptions →
        OrderDetailPage.getDeliveryStepColor i currentOption orderStatus
          = "bg-gray-300 text-gray-600")) := by
  refine ⟨fun hc => ?_, fun hd => ?_, fun hc hd => ⟨fun k hk => ?_, fun hnot => ?_⟩⟩
  · simp [OrderDetailPage.getDeliveryStepColor, hc]
  · subst hd
    simp [OrderDetailPage.getDeliveryStepColor]
  · have hidx := indexOf_deliveryOptions_of_getElem k currentOption hk
    have hcolor : OrderDetailPage.getDeliveryStepColor i currentOption orderStatus =
        if (i : Int) < (k : Int) then "bg-green-500 text-white"
        else if (i : Int) == (k : Int) then "bg-blue-500 text-white"
        else "bg-gray-300 text-gray-600" := by
      simp [OrderDetailPage.getDeliveryStepColor, hidx, hc, hd]
    rw [hcolor]
    rcases Nat.lt_trichotomy i k with hlt | heq | hgt
    · have h1 : (i : Int) < (k : Int) := by omega
      have h2 : i ≠ k := by omega
      simp [h1, h2]
      omega
    · subst heq
      simp
    · have h1 : ¬ (i : Int) < (k : Int) := by omega
      have h2 : i ≠ k := by omega
      have h3 : ¬ i < k := by omega
      simp [h1, h2, h3, hgt]
  · have hidx := indexOf_deliveryOptions_of_not_mem currentOption hnot
    have h1 : ¬ (i : Int) < -1 := by omega
    have h2 : ¬ (i : Int) = -1 := by omega
    simp [OrderDetailPage.getDeliveryStepColor, hidx, hc, hd, h1, h2]

/-- Witness of C23: a pending order in the third stage, seen at steps 1, 2
and 3, and an unknown stage. -/
theorem getDeliveryStepColor_progression_witness :
    OrderDetailPage.getDeliveryStepColor (1 : Nat) "Option 3 - 2 days to delivery" "Pending"
      = "bg-green-500 text-white" ∧
    OrderDetailPage.getDeliveryStepColor (2 : Nat) "Option 3 - 2 days to delivery" "Pending"
      = "bg-blue-500 text-white" ∧
    OrderDetailPage.getDeliveryStepColor (3 : Nat) "Option 3 - 2 days to delivery" "Pending"
      = "bg-gray-300 text-gray-600" ∧
    OrderDetailPage.getDeliveryStepColor (3 : Nat) "Out for delivery" "Pending"
      = "bg-gray-300 text-gray-600" ∧
    OrderDetailPage.getDeliveryStepColor (3 : Nat) "Option 3 - 2 days to delivery" "Cancelled"
      = "bg-red-500 text-white" :=
  ⟨((getDeliveryStepColor_progression 1 (by decide) "Option 3 - 2 days to delivery"
      "Pending").2.2 (by decide) (by decide)).1 2 rfl |>.1 (by decide),
   ((getDeliveryStepColor_progression 2 (by decide) "Option 3 - 2 days to delivery"
      "Pending").2.2 (by decide) (by decide)).1 2 rfl |>.2.1 rfl,
   ((getDeliveryStepColor_progression 3 (by decide) "Option 3 - 2 days to delivery"
      "Pending").2.2 (by decide) (by decide)).1 2 rfl |>.2.2.1 (by decide),
   ((getDeliveryStepColor_progression 3 (by decide) "Out for delivery"
      "Pending").2.2 (by decide) (by decide)).2 (by decide),
   (getDeliveryStepColor_progression 3 (by decide) "Option 3 - 2 days to delivery"
      "Cancelled").1 rfl⟩

/-! ## The product detail page -/

/-- Claim C24.  For every loaded product and form state, `handleAddToCart` calls
`addToCart` exactly when the stock is not 0, the chosen quantity does not exceed
the stock, a size is selected whenever the product lists a size, and a colour
is selected whenever the product lists a colour.  In every other case the cart
is left unchanged, `addToCart` is not called, and one of the four error
messages is set. -/
theorem handleAddToCart_guard (s : ProductDetailPage.PageState)
    (product : ProductDetailPage.LoadedProduct) (hproduct : s.product = some product)
    (cartItems : List CartItem) :
    ((ProductDetailPage.handleAddToCart s cartItems).addToCartCalls ≠ [] ↔
      product.stock ≠ 0 ∧ s.quantity ≤ product.stock ∧
      (product.size ≠ [] → s.selectedSize ≠ "") ∧
      (product.colors ≠ [] → s.selectedColor ≠ "")) ∧
    (¬ (product.stock ≠ 0 ∧ s.quantity ≤ product.stock ∧
        (product.size ≠ [] → s.selectedSize ≠ "") ∧
        (product.colors ≠ [] → s.selectedColor ≠ "")) →
      (ProductDetailPage.handleAddToCart s cartItems).cartItems = cartItems ∧
      (ProductDetailPage.handleAddToCart s cartItems).addToCartCalls = [] ∧
      (ProductDetailPage.handleAddToCart s cartItems).state.message ∈
        ["❌ This product is currently out of stock.",
         ProductDetailPage.cannotAddMessage s.quantity product.stock,
         "❌ Please select a size before adding to cart.",
         "❌ Please select a color before adding to cart."]) := by
  unfold ProductDetailPage.handleAddToCart
  simp only [hproduct]
  by_cases hstock : product.stock = 0
  · have hb : (product.stock == 0) = true := by simpa using hstock
    simp [hb, hstock]
  · have hb : (product.stock == 0) = false := by simpa using hstock
    simp only [hb, Bool.false_eq_true, if_false]
    by_cases hq : s.quantity > product.stock
    · have hq2 : ¬ s.quantity ≤ product.stock := by omega
      simp [hq, hq2]
    · have hq2 : s.quantity ≤ product.stock := by omega
      simp only [hq, if_false]
      by_cases hsize : (decide (product.size.length > 0) && s.selectedSize == "") = true
      · have hs : ¬ (product.size ≠ [] → s.selectedSize ≠ "") := by
          simp only [Bool.and_eq_true, decide_eq_true_eq, beq_iff_eq] at hsize
          intro h
          exact h (List.ne_nil_of_length_pos hsize.1) hsize.2
        simp [hsize, hs]
      · have hs : product.size ≠ [] → s.selectedSize ≠ "" := by
          intro hne heq
          apply hsize
          simp [heq, List.length_pos.mpr hne]
        simp only [hsize, Bool.false_eq_true, if_false]
        by_cases hcolor : (decide (product.colors.length > 0) && s.selectedColor == "") = true
        · have hc : ¬ (product.colors ≠ [] → s.selectedColor ≠ "") := by
            simp only [Bool.and_eq_true, decide_eq_true_eq, beq_iff_eq] at hcolor
            intro h
            exact h (List.ne_nil_of_length_pos hcolor.1) hcolor.2
          simp [hcolor, hc]
        · have hc : product.colors ≠ [] → s.selectedColor ≠ "" := by
            intro hne heq
            apply hcolor
            simp [heq, List.length_pos.mpr hne]
          simp only [hcolor, Bool.false_eq_true, if_false]
          have hall : product.stock ≠ 0 ∧ s.quantity ≤ product.stock ∧
              (product.size ≠ [] → s.selectedSize ≠ "") ∧
              (product.colors ≠ [] → s.selectedColor ≠ "") := ⟨hstock, hq2, hs, hc⟩
          exact ⟨⟨fun _ => hall, fun _ => by simp⟩, fun hnot => absurd hall hnot⟩

/-- Witness of C24: three units of a product with stock 10 are added; with
stock 2 the cart stays as it is and the stock message is set. -/
theorem handleAddToCart_guard_witness :
    (ProductDetailPage.handleAddToCart (sampleDetailState 10 3) []).addToCartCalls ≠ [] ∧
    (ProductDetailPage.handleAddToCart (sampleDetailState 2 3) [sampleItem "b" 3 1]).cartItems
      = [sampleItem "b" 3 1] ∧
    (ProductDetailPage.handleAddToCart (sampleDetailState 2 3) [sampleItem "b" 3 1]).state.message
      = "❌ Cannot add 3 to cart. Only 2 items available." :=
  ⟨(handleAddToCart_guard (sampleDetailState 10 3) (sampleLoadedProduct 10) rfl []).1.mpr
      ⟨by decide, by decide, fun h => absurd rfl h, fun h => absurd rfl h⟩,
   ((handleAddToCart_guard (sampleDetailState 2 3) (sampleLoadedProduct 2) rfl
      [sampleItem "b" 3 1]).2 (fun h => absurd h.2.1 (by decide))).1,
   by decide⟩

/-- Claim C25, evaluated on the code.  With quantity 3 chosen for a product of
stock 10 that is not in the cart, `handleAddToCart` passes its checks and the
cart entry created has quantity 1, not 3: `addToCart` overwrites the quantity
of its argument with 1.  For the same product already in the cart with
quantity 2, the entry's quantity becomes 3, not 5. -/
theorem handleAddToCart_ignores_chosen_quantity :
    (ProductDetailPage.handleAddToCart (sampleDetailState 10 3) []).addToCartCalls.map
      (fun p => p.quantity) = [some 3] ∧
    (ProductDetailPage.handleAddToCart (sampleDetailState 10 3) []).cartItems.map
      (fun item => (item._id, item.quantity)) = [("a", 1)] ∧
    (ProductDetailPage.handleAddToCart (sampleDetailState 10 3)
      [sampleItem "a" 5 2]).cartItems.map
      (fun item => (item._id, item.quantity)) = [("a", 3)] := by
  refine ⟨by decide, by decide, by decide⟩

theorem purchasedAndConfirmed_iff (userOrders : List ProductDetailPage.HistoryOrder)
    (id : String) :
    ProductDetailPage.purchasedAndConfirmed userOrders id = true ↔
      ∃ order ∈ userOrders, order.orderStatus = "Delivered & Confirmed" ∧
        ∃ item ∈ order.products, item.productId = id := by
  simp [ProductDetailPage.purchasedAndConfirmed, List.any_eq_true]

theorem reviewEligibility_iff (fetchHistory : String → ProductDetailPage.HistoryFetchResult)
    (userId id : String) :
    ProductDetailPage.reviewEligibility fetchHistory userId id = true ↔
      ∃ userOrders,
        fetchHistory ("https://slugma-backend.vercel.app/api/orders/user/" ++ userId ++
          "?status=history") = .response true (.ok (.array userOrders)) ∧
        ProductDetailPage.purchasedAndConfirmed userOrders id = true := by
  have hurl : ProductDetailPage.API_BASE_URL ++ "/api/orders/user/" ++ userId ++
      "?status=history" =
      "https://slugma-backend.vercel.app/api/orders/user/" ++ userId ++ "?status=history" := by
    simp [ProductDetailPage.API_BASE_URL, String.append_assoc]
  unfold ProductDetailPage.reviewEligibility
  rw [hurl]
  split
  · rename_i userOrders heq
    constructor
    · intro h
      exact ⟨userOrders, heq, h⟩
    · rintro ⟨orders, hfetch, hp⟩
      rw [heq] at hfetch
      cases hfetch
      exact hp
  · rename_i hnot
    constructor
    · intro h
      exact absurd h (by simp)
    · rintro ⟨orders, hfetch, -⟩
      exact absurd hfetch (hnot orders)

theorem fetchProductDetails_loaded
    (fetchProduct : String → ProductDetailPage.ProductFetchResult)
    (fetchAllProducts : ProductDetailPage.RelatedFetchResult)
    (fetchHistory : String → ProductDetailPage.HistoryFetchResult)
    (auth : AuthContext.AuthState) (id : String) (s : ProductDetailPage.PageState)
    (productData : ProductDetailPage.LoadedProduct)
    (hproduct : fetchProduct (ProductDetailPage.API_BASE_URL ++ "/api/products/" ++ id)
      = .response true (.ok (some productData)))
    (hrejected : ∀ err, fetchAllProducts ≠ .rejected err)
    (hparse : ∀ err, fetchAllProducts ≠ .response true (.error err)) :
    (ProductDetailPage.fetchProductDetails fetchProduct fetchAllProducts fetchHistory
      auth id s).canUserReview =
      (AuthContext.isAuthenticated auth && truthyString (ProtectedRoute.userId auth.user) &&
        ProductDetailPage.reviewEligibility fetchHistory
          ((ProtectedRoute.userId auth.user).getD "") id) := by
  have hbranch : ∀ b : Bool,
      (AuthContext.isAuthenticated auth && truthyString (ProtectedRoute.userId auth.user))
        = b →
      (if (AuthContext.isAuthenticated auth &&
            truthyString (ProtectedRoute.userId auth.user)) = true
        then ProductDetailPage.reviewEligibility fetchHistory
          ((ProtectedRoute.userId auth.user).getD "") id
        else false) =
      (AuthContext.isAuthenticated auth && truthyString (ProtectedRoute.userId auth.user) &&
        ProductDetailPage.reviewEligibility fetchHistory
          ((ProtectedRoute.userId auth.user).getD "") id) := by
    intro b hb
    cases b <;> simp [hb]
  unfold ProductDetailPage.fetchProductDetails
  simp only [hproduct]
  rcases hrel : fetchAllProducts with err | ⟨ok, json⟩
  · exact absurd hrel (hrejected err)
  · cases ok with
    | false =>
      rw [← hbranch _ rfl]
      split <;> rfl
    | true =>
      rcases json with err | value
      · exact absurd hrel (hparse err)
      · rw [← hbranch _ rfl]
        split <;> rfl

theorem handleSubmitReview_requests_iff
    (postReview : ProductDetailPage.ReviewRequest → ProductDetailPage.ReviewFetchResult)
    (auth : AuthContext.AuthState) (id : String) (s : ProductDetailPage.PageState) :
    (ProductDetailPage.handleSubmitReview postReview auth id s).requests ≠ [] ↔
      AuthContext.isAuthenticated auth = true ∧
      truthyString (ProtectedRoute.userId auth.user) = true ∧
      s.canUserReview = true ∧ s.userRating ≠ 0 ∧ s.hasUserReviewed = false := by
  unfold ProductDetailPage.handleSubmitReview
  cases hauth : AuthContext.isAuthenticated auth with
  | false => simp
  | true =>
    cases hid : truthyString (ProtectedRoute.userId auth.user) with
    | false => simp
    | true =>
      cases hcan : s.canUserReview with
      | false => simp
      | true =>
        by_cases hrating : s.userRating = 0
        · simp [hrating]
        · cases hrev : s.hasUserReviewed with
          | true => simp [hrating]
          | false =>
            simp only [Bool.not_true, Bool.or_self, Bool.false_eq_true, if_false, beq_iff_eq,
              hrating, ne_eq, not_false_eq_true, and_self, iff_true]
            split <;> simp [ProductDetailPage.reviewCaught]

/-- Claim C21.  On a product page whose product has loaded, `canUserReview` is
set true exactly when the user is authenticated (with an `_id`) and the order
history returned for that user has an order with status
`Delivered & Confirmed` that contains an item whose `productId` is the viewed
product id.  `handleSubmitReview` sends the review request exactly when the
user is authenticated, `canUserReview` is true, the chosen rating is not 0 and
the user has not already reviewed the product. -/
theorem review_only_for_confirmed_purchase
    (fetchProduct : String → ProductDetailPage.ProductFetchResult)
    (fetchAllProducts : ProductDetailPage.RelatedFetchResult)
    (fetchHistory : String → ProductDetailPage.HistoryFetchResult)
    (postReview : ProductDetailPage.ReviewRequest → ProductDetailPage.ReviewFetchResult)
    (auth : AuthContext.AuthState) (id : String) (s : ProductDetailPage.PageState) :
    (∀ productData,
      fetchProduct ("https://slugma-backend.vercel.app/api/products/" ++ id)
        = .response true (.ok (some productData)) →
      (∀ err, fetchAllProducts ≠ .rejected err) →
      (∀ err, fetchAllProducts ≠ .response true (.error err)) →
      ((ProductDetailPage.fetchProductDetails fetchProduct fetchAllProducts fetchHistory
          auth id s).canUserReview = true ↔
        AuthContext.isAuthenticated auth = true ∧
        ∃ userId, ProtectedRoute.userId auth.user = some userId ∧ userId ≠ "" ∧
          ∃ userOrders,
            fetchHistory ("https://slugma-backend.vercel.app/api/orders/user/" ++ userId ++
              "?status=history") = .response true (.ok (.array userOrders)) ∧
            ∃ order ∈ userOrders, order.orderStatus = "Delivered & Confirmed" ∧
              ∃ item ∈ order.products, item.productId = id)) ∧
    ((ProductDetailPage.handleSubmitReview postReview auth id s).requests ≠ [] ↔
      AuthContext.isAuthenticated auth = true ∧
      truthyString (ProtectedRoute.userId auth.user) = true ∧
      s.canUserReview = true ∧ s.userRating ≠ 0 ∧ s.hasUserReviewed = false) := by
  refine ⟨fun productData hproduct hrejected hparse => ?_,
    handleSubmitReview_requests_iff postReview auth id s⟩
  have hurl : ProductDetailPage.API_BASE_URL ++ "/api/products/" ++ id =
      "https://slugma-backend.vercel.app/api/products/" ++ id := by
    simp [ProductDetailPage.API_BASE_URL, String.append_assoc]
  rw [fetchProductDetails_loaded fetchProduct fetchAllProducts fetchHistory auth id s
    productData (hurl ▸ hproduct) hrejected hparse]
  simp only [Bool.and_eq_true, reviewEligibility_iff, purchasedAndConfirmed_iff]
  constructor
  · rintro ⟨⟨hauth, hid⟩, userOrders, hfetch, hp⟩
    cases huid : ProtectedRoute.userId auth.user with
    | none => simp [huid, truthyString] at hid
    | some userId =>
      have hne : userId ≠ "" := by simpa [huid, truthyString] using hid
      refine ⟨hauth, userId, rfl, hne, userOrders, ?_, hp⟩
      simpa [huid] using hfetch
  · rintro ⟨hauth, userId, huid, hne, userOrders, hfetch, hp⟩
    refine ⟨⟨hauth, by simp [huid, truthyString, hne]⟩, userOrders, ?_, hp⟩
    simpa [huid] using hfetch

/-- Witness of C21: user `u1` has a confirmed order containing product `a`, so
loading the page of `a` makes the user eligible, and a five-star review is
sent. -/
theorem review_only_for_confirmed_purchase_witness :
    (ProductDetailPage.fetchProductDetails
      (fun _ => .response true (.ok (some (sampleLoadedProduct 10))))
      (.response false (.ok ()))
      (fun _ => .response true (.ok (.array
        [{ orderStatus := "Delivered & Confirmed", products := [{ productId := "a" }] }])))
      sampleAuth "a" (sampleDetailState 10 1)).canUserReview = true ∧
    (ProductDetailPage.handleSubmitReview (fun _ => .response true (.ok .null)) sampleAuth "a"
      { sampleDetailState 10 1 with canUserReview := true, userRating := 5 }).requests ≠ [] :=
  have h := review_only_for_confirmed_purchase
    (fun _ => .response true (.ok (some (sampleLoadedProduct 10))))
    (.response false (.ok ()))
    (fun _ => .response true (.ok (.array
      [{ orderStatus := "Delivered & Confirmed", products := [{ productId := "a" }] }])))
    (fun _ => .response true (.ok .null)) sampleAuth "a"
  ⟨((h (sampleDetailState 10 1)).1 (sampleLoadedProduct 10) rfl
      (fun _ hne => by cases hne) (fun _ hne => by cases hne)).mpr
      ⟨by decide, "u1", rfl, by decide,
        [{ orderStatus := "Delivered & Confirmed", products := [{ productId := "a" }] }],
        rfl,
        { orderStatus := "Delivered & Confirmed", products := [{ productId := "a" }] },
        List.mem_singleton.mpr rfl, rfl, { productId := "a" }, List.mem_singleton.mpr rfl, rfl⟩,
   (h { sampleDetailState 10 1 with canUserReview := true, userRating := 5 }).2.mpr
      ⟨by decide, by decide, rfl, by decide, rfl⟩⟩

/-! ## The shape of the rehydrated cart -/

/-- Counterexample to claim C26 as stated: with the text `null` stored under
the cart key, which is valid JSON, the initial `cartItems` is `null` and not an
array. -/
theorem initialCartItems_null_not_array :
    sampleParseCart "null" = .ok .null ∧
    CartContext.initialCartItems sampleParseCart [("cartItems", "null")] = .null ∧
    (CartContext.initialCartItems sampleParseCart [("cartItems", "null")]).isArray = false := by
  refine ⟨by simp [sampleParseCart], by decide, by decide⟩

/-- Claim C26, amended.  Whatever `JSON.parse` is, the initial `cartItems` is an
array exactly when nothing or the empty string is stored under the cart key,
or parsing the stored text throws, or the stored text parses to an array.  For
every other stored text the initial value is the parsed value itself, which is
not an array. -/
theorem initialCartItems_array_iff
    (jsonParse : String → Except JsError (JsValue CartItem)) (localStorage : Storage) :
    ((CartContext.initialCartItems jsonParse localStorage).isArray = true ↔
      localStorage.getItem "cartItems" = none ∨
      localStorage.getItem "cartItems" = some "" ∨
      ∃ text, localStorage.getItem "cartItems" = some text ∧
        ((∃ err, jsonParse text = .error err) ∨ ∃ items, jsonParse text = .ok (.array items))) ∧
    (∀ text value, localStorage.getItem "cartItems" = some text → text ≠ "" →
      jsonParse text = .ok value →
      CartContext.initialCartItems jsonParse localStorage = value) := by
  constructor
  · unfold CartContext.initialCartItems
    cases hget : localStorage.getItem "cartItems" with
    | none => simp [JsValue.isArray]
    | some text =>
      by_cases hempty : text = ""
      · simp [hempty, JsValue.isArray]
      · cases hparse : jsonParse text with
        | error err => simp [hempty, JsValue.isArray, hparse]
        | ok value => cases value <;> simp [hempty, JsValue.isArray, hparse]
  · intro text value hget hne hparse
    simp [CartContext.initialCartItems, hget, hne, hparse]

/-- Witness of the amended C26: the text of the empty array gives the empty
array, and the text `null` gives `null`. -/
theorem initialCartItems_array_iff_witness :
    (CartContext.initialCartItems sampleParseCart [("cartItems", "[]")]).isArray = true ∧
    CartContext.initialCartItems sampleParseCart [("cartItems", "null")] = .null :=
  ⟨(initialCartItems_array_iff sampleParseCart [("cartItems", "[]")]).1.mpr
      (Or.inr (Or.inr ⟨"[]", by decide, Or.inr ⟨[], by simp [sampleParseCart]⟩⟩)),
   (initialCartItems_array_iff sampleParseCart [("cartItems", "null")]).2 "null" .null
      (by decide) (by decide) (by simp [sampleParseCart])⟩

/-! ## Filtering of the product list -/

theorem ite_filter_eq_filter {α : Type} (c : Prop) [Decidable c] (p : α → Bool)
    (l : List α) :
    (if c then l.filter p else l) = l.filter (fun x => decide (c → p x = true)) := by
  by_cases hc : c
  · simp [hc]
  · simp [hc]

theorem filteredProducts_eq_filter (parseFloat : String → JsNumber)
    (toLowerCase : String → String) (products : List ProductPage.CatalogProduct)
    (f : ProductPage.FilterState) :
    ProductPage.filteredProducts parseFloat toLowerCase products f =
      products.filter (fun product =>
        decide (ProductPage.satisfiesActiveFilters parseFloat toLowerCase f product)) := by
  simp only [ProductPage.filteredProducts, ProductPage.filterByCategory,
    ProductPage.filterByBrand, ProductPage.filterByMinPrice, ProductPage.filterByMaxPrice,
    ProductPage.filterByColors, ProductPage.filterBySizes, ProductPage.filterByRating,
    ProductPage.filterBySearch, ite_filter_eq_filter]
  simp only [List.filter_filter]
  apply List.filter_congr
  intro product _
  unfold ProductPage.satisfiesActiveFilters
  rw [Bool.eq_iff_iff]
  simp only [Bool.and_eq_true, decide_eq_true_eq]
  have e1 : ((f.selectedCategory != "") = true ∧ (f.selectedCategory != "All") = true →
      (product.category == f.selectedCategory) = true) ↔
      (f.selectedCategory ≠ "" → f.selectedCategory ≠ "All" →
        product.category = f.selectedCategory) := by simp
  have e2 : ((f.selectedBrand != "") = true ∧ (f.selectedBrand != "All") = true →
      (product.brand == f.selectedBrand) = true) ↔
      (f.selectedBrand ≠ "" → f.selectedBrand ≠ "All" →
        product.brand = f.selectedBrand) := by simp
  have e3 : ∀ n : JsNumber, ((!n.isNaN) = true) ↔ (n.isNaN = false) := by
    intro n
    cases n.isNaN <;> simp
  have e5 : (f.selectedColors.length > 0 →
      (product.colors.any fun color => f.selectedColors.contains color) = true) ↔
      (f.selectedColors ≠ [] → ∃ color ∈ product.colors, color ∈ f.selectedColors) := by
    simp [List.length_pos]
  have e6 : (f.selectedSizes.length > 0 →
      (product.size.any fun s => f.selectedSizes.contains s) = true) ↔
      (f.selectedSizes ≠ [] → ∃ s ∈ product.size, s ∈ f.selectedSizes) := by
    simp [List.length_pos]
  have e8 : ((f.searchTerm != "") = true →
      ProductPage.matchesSearch toLowerCase (toLowerCase f.searchTerm) product = true) ↔
      (f.searchTerm ≠ "" →
        ProductPage.matchesSearch toLowerCase (toLowerCase f.searchTerm) product = true) := by
    simp
  rw [e1, e2, e3, e3, e5, e6, e8]
  constructor
  · rintro ⟨h8, h7, h6, h5, h4, h3, h2, h1⟩
    exact ⟨h1, h2, h3, h4, h5, h6, h7, h8⟩
  · rintro ⟨h1, h2, h3, h4, h5, h6, h7, h8⟩
    exact ⟨h8, h7, h6, h5, h4, h3, h2, h1⟩

/-- Claim C28.  For every product list and filter state, `filteredProducts` is
the sub-list of `products`, in the original order, of exactly those products
that satisfy every active filter (category, brand, minimum and maximum price,
a selected colour, a selected size, minimum average rating, search term).  With
the filters as `clearAllFilters` sets them, and `parseFloat` of the empty text
being `NaN`, `filteredProducts` is the full product list. -/
theorem filteredProducts_conjunction_of_active_filters (parseFloat : String → JsNumber)
    (toLowerCase : String → String) (products : List ProductPage.CatalogProduct)
    (f : ProductPage.FilterState) :
    ProductPage.filteredProducts parseFloat toLowerCase products f =
      products.filter (fun product =>
        decide (ProductPage.satisfiesActiveFilters parseFloat toLowerCase f product)) ∧
    (∀ product, product ∈ ProductPage.filteredProducts parseFloat toLowerCase products f ↔
      product ∈ products ∧
        ProductPage.satisfiesActiveFilters parseFloat toLowerCase f product) ∧
    List.Sublist (ProductPage.filteredProducts parseFloat toLowerCase products f) products ∧
    (parseFloat "" = .nan →
      ProductPage.filteredProducts parseFloat toLowerCase products
        ProductPage.clearAllFilters = products) := by
  refine ⟨filteredProducts_eq_filter parseFloat toLowerCase products f, ?_, ?_, ?_⟩
  · intro product
    rw [filteredProducts_eq_filter, List.mem_filter]
    simp
  · rw [filteredProducts_eq_filter]
    exact List.filter_sublist products
  · intro hnan
    rw [filteredProducts_eq_filter, List.filter_eq_self]
    intro product _
    simp [ProductPage.satisfiesActiveFilters, ProductPage.clearAllFilters, hnan,
      JsNumber.isNaN]

/-- Witness of C28: with the category `Watch` selected, a watch and a bag give
the watch; with the filters cleared they give both. -/
theorem filteredProducts_conjunction_of_active_filters_witness :
    ProductPage.filteredProducts sampleParseFloat sampleToLowerCase
      [sampleCatalogProduct "w" "Watch", sampleCatalogProduct "b" "Bag"]
      { ProductPage.clearAllFilters with selectedCategory := "Watch" }
      = [sampleCatalogProduct "w" "Watch"] ∧
    sampleParseFloat "" = .nan ∧
    ProductPage.filteredProducts sampleParseFloat sampleToLowerCase
      [sampleCatalogProduct "w" "Watch", sampleCatalogProduct "b" "Bag"]
      ProductPage.clearAllFilters
      = [sampleCatalogProduct "w" "Watch", sampleCatalogProduct "b" "Bag"] :=
  ⟨by decide, rfl,
   (filteredProducts_conjunction_of_active_filters sampleParseFloat sampleToLowerCase
      [sampleCatalogProduct "w" "Watch", sampleCatalogProduct "b" "Bag"]
      ProductPage.clearAllFilters).2.2.2 rfl⟩

/-! ## The cart after a successful order -/

theorem handleSubmit_cart_of_success (postOrder : CheckoutPage.OrderData →
      CheckoutPage.OrderFetchResult) (u : User)
    (cartItems : List CartItem) (selectedCartItems : Option (List CartItem))
    (shippingAddress : CheckoutPage.ShippingAddress) (paymentMethod : String)
    (hitems : CheckoutPage.itemsToProcess selectedCartItems cartItems ≠ [])
    (hname : shippingAddress.personName ≠ "") (hmobile : shippingAddress.mobileNumber ≠ "")
    (haddress : shippingAddress.address ≠ "") (hpincode : shippingAddress.pincode ≠ "")
    (hstate : shippingAddress.state ≠ "")
    (hdigits : testDigits 6 shippingAddress.pincode = true)
    (hsuccess : ∀ orderData, ∃ body, postOrder orderData = .response true (.ok body)) :
    CheckoutPage.handleSubmit postOrder (.object u) cartItems selectedCartItems
      shippingAddress paymentMethod =
      { requests :=
          [{ userId := u._id,
             products := CheckoutPage.orderProducts
               (CheckoutPage.itemsToProcess selectedCartItems cartItems),
             shippingAddress := shippingAddress, paymentMethod := paymentMethod,
             totalPrice := CheckoutPage.totalPriceOfSelected
               (CheckoutPage.itemsToProcess selectedCartItems cartItems),
             orderStatus := "Pending" }],
        message := "✅ Order placed successfully!",
        cartItems := CheckoutPage.clearOrderedItems cartItems
          (CheckoutPage.itemsToProcess selectedCartItems cartItems),
        navigatedTo := some "/my-orders" } := by
  have hlen : ((CheckoutPage.itemsToProcess selectedCartItems cartItems).length == 0)
      = false := by
    simpa using hitems
  have hfields : (shippingAddress.personName == "" || shippingAddress.mobileNumber == "" ||
      shippingAddress.address == "" || shippingAddress.pincode == "" ||
      shippingAddress.state == "") = false := by
    simp [hname, hmobile, haddress, hpincode, hstate]
  obtain ⟨body, hbody⟩ := hsuccess
    { userId := u._id,
      products := CheckoutPage.orderProducts
        (CheckoutPage.itemsToProcess selectedCartItems cartItems),
      shippingAddress := shippingAddress, paymentMethod := paymentMethod,
      totalPrice := CheckoutPage.totalPriceOfSelected
        (CheckoutPage.itemsToProcess selectedCartItems cartItems),
      orderStatus := "Pending" }
  unfold CheckoutPage.handleSubmit
  simp only [hlen, hfields, hdigits, Bool.not_true, Bool.false_eq_true, if_false, readUserId,
    hbody]

/-- Claim C16.  For every cart and every valid checkout form of a signed-in
user whose order request the backend answers with success, the cart returned
by `handleSubmit` consists of exactly the original entries whose `_id` is not
among the processed items, in their original order and unchanged; no entry of
a processed product remains, whatever its quantity. -/
theorem post_checkout_cart_drops_processed_items
    (postOrder : CheckoutPage.OrderData → CheckoutPage.OrderFetchResult)
    (auth : AuthContext.AuthState) (hpage : ProtectedRoute.rendersChildren auth = true)
    (cartItems : List CartItem) (selectedCartItems : Option (List CartItem))
    (shippingAddress : CheckoutPage.ShippingAddress) (paymentMethod : String)
    (hitems : CheckoutPage.itemsToProcess selectedCartItems cartItems ≠ [])
    (hfilled : shippingAddress.personName ≠ "" ∧ shippingAddress.mobileNumber ≠ "" ∧
      shippingAddress.address ≠ "" ∧ shippingAddress.pincode ≠ "" ∧
      shippingAddress.state ≠ "")
    (hdigits : shippingAddress.pincode.length = 6 ∧
      ∀ c ∈ shippingAddress.pincode.toList, c.isDigit = true)
    (hsuccess : ∀ orderData, ∃ body, postOrder orderData = .response true (.ok body)) :
    (CheckoutPage.handleSubmit postOrder auth.user cartItems selectedCartItems
        shippingAddress paymentMethod).cartItems =
      cartItems.filter (fun entry =>
        decide (∀ item ∈ CheckoutPage.itemsToProcess selectedCartItems cartItems,
          entry._id ≠ item._id)) ∧
    (∀ entry ∈ (CheckoutPage.handleSubmit postOrder auth.user cartItems selectedCartItems
        shippingAddress paymentMethod).cartItems,
      ∀ item ∈ CheckoutPage.itemsToProcess selectedCartItems cartItems,
        entry._id ≠ item._id) ∧
    List.Sublist (CheckoutPage.handleSubmit postOrder auth.user cartItems selectedCartItems
        shippingAddress paymentMethod).cartItems cartItems ∧
    (∀ entry : CartItem,
      (∀ item ∈ CheckoutPage.itemsToProcess selectedCartItems cartItems,
        entry._id ≠ item._id) →
      (CheckoutPage.handleSubmit postOrder auth.user cartItems selectedCartItems
        shippingAddress paymentMethod).cartItems.count entry = cartItems.count entry) ∧
    (CheckoutPage.handleSubmit postOrder auth.user cartItems selectedCartItems
        shippingAddress paymentMethod).message = "✅ Order placed successfully!" := by
  obtain ⟨u, hu⟩ := rendersChildren_user_object hpage
  have hout := handleSubmit_cart_of_success postOrder u cartItems selectedCartItems
    shippingAddress paymentMethod hitems hfilled.1 hfilled.2.1 hfilled.2.2.1
    hfilled.2.2.2.1 hfilled.2.2.2.2 ((testDigits_iff 6 _).mpr hdigits) hsuccess
  have hdrop := clearOrderedItems_drops_processed cartItems
    (CheckoutPage.itemsToProcess selectedCartItems cartItems)
  rw [hu, hout]
  exact ⟨hdrop.1, hdrop.2.1, hdrop.2.2.1, hdrop.2.2.2, rfl⟩

/-- Witness of C16: ordering the selected entry `a` (quantity 2) out of a cart
with `a` and `b` leaves `b`. -/
theorem post_checkout_cart_drops_processed_items_witness :
    (CheckoutPage.handleSubmit (fun _ => .response true (.ok .null)) sampleAuth.user
      [sampleItem "a" 5 2, sampleItem "b" 3 1] (some [sampleItem "a" 5 2])
      (sampleAddress "560001") "Cash on Delivery").cartItems = [sampleItem "b" 3 1] ∧
    (∀ entry ∈ (CheckoutPage.handleSubmit (fun _ => .response true (.ok .null))
        sampleAuth.user [sampleItem "a" 5 2, sampleItem "b" 3 1] (some [sampleItem "a" 5 2])
        (sampleAddress "560001") "Cash on Delivery").cartItems,
      ∀ item ∈ CheckoutPage.itemsToProcess (some [sampleItem "a" 5 2])
          [sampleItem "a" 5 2, sampleItem "b" 3 1],
        entry._id ≠ item._id) := by
  have h := post_checkout_cart_drops_processed_items (fun _ => .response true (.ok .null))
    sampleAuth (by decide) [sampleItem "a" 5 2, sampleItem "b" 3 1]
    (some [sampleItem "a" 5 2]) (sampleAddress "560001") "Cash on Delivery"
    (by simp [CheckoutPage.itemsToProcess])
    ⟨by decide, by decide, by decide, by decide, by decide⟩
    ⟨by decide, by decide⟩ (fun _ => ⟨.null, rfl⟩)
  refine ⟨?_, h.2.1⟩
  rw [h.1]
  decide

/-! ## Validation of the signup form before the signup request -/

theorem ageInputValid_number (numberValue : String → Option Rat) (age : String)
    (h : LoginPage.ageInputValid numberValue age = true) :
    age ≠ "" ∧ ∃ value, numberValue age = some value ∧ value ≥ 16 ∧ value.den = 1 := by
  unfold LoginPage.ageInputValid at h
  cases hv : numberValue age with
  | none => simp [hv] at h
  | some v =>
    simp [hv] at h
    exact ⟨h.1, v, rfl, h.2.1, h.2.2⟩

theorem signupFormInvalidField_none_iff (numberValue : String → Option Rat)
    (page : LoginPage.PageState) :
    LoginPage.signupFormInvalidField numberValue page = none ↔
      page.username ≠ "" ∧ page.password ≠ "" ∧ page.confirmPassword ≠ "" ∧
      LoginPage.ageInputValid numberValue page.age = true ∧
      page.mobileNumber ≠ "" ∧ testDigits 10 page.mobileNumber = true := by
  unfold LoginPage.signupFormInvalidField
  by_cases h1 : page.username = ""
  · simp [h1]
  by_cases h2 : page.password = ""
  · simp [h1, h2]
  by_cases h3 : page.confirmPassword = ""
  · simp [h1, h2, h3]
  cases h4 : LoginPage.ageInputValid numberValue page.age with
  | false => simp [h1, h2, h3]
  | true =>
    by_cases h5 : page.mobileNumber = ""
    · simp [h1, h2, h3, h5]
    cases h6 : testDigits 10 page.mobileNumber with
    | false => simp [h1, h2, h3, h5]
    | true => simp [h1, h2, h3, h5]

theorem submitSignupForm_of_invalid (numberValue : String → Option Rat)
    (fetchSignup : String → String → String → String → AuthContext.FetchResult)
    (auth : AuthContext.AuthState) (page : LoginPage.PageState)
    (h : LoginPage.signupFormInvalidField numberValue page ≠ none) :
    (LoginPage.submitSignupForm numberValue fetchSignup auth page).invalidField =
      LoginPage.signupFormInvalidField numberValue page ∧
    (LoginPage.submitSignupForm numberValue fetchSignup auth page).outcome =
      { auth := auth, page := page, signupCalls := [] } := by
  unfold LoginPage.submitSignupForm
  cases hf : LoginPage.signupFormInvalidField numberValue page with
  | none => exact absurd hf h
  | some field => exact ⟨rfl, rfl⟩

theorem submitSignupForm_of_valid (numberValue : String → Option Rat)
    (fetchSignup : String → String → String → String → AuthContext.FetchResult)
    (auth : AuthContext.AuthState) (page : LoginPage.PageState)
    (h : LoginPage.signupFormInvalidField numberValue page = none) :
    (LoginPage.submitSignupForm numberValue fetchSignup auth page).invalidField = none ∧
    (LoginPage.submitSignupForm numberValue fetchSignup auth page).outcome =
      LoginPage.handleSignupSubmit fetchSignup auth page := by
  unfold LoginPage.submitSignupForm
  rw [h]
  exact ⟨rfl, rfl⟩

theorem submitSignupForm_invalidField (numberValue : String → Option Rat)
    (fetchSignup : String → String → String → String → AuthContext.FetchResult)
    (auth : AuthContext.AuthState) (page : LoginPage.PageState) :
    (LoginPage.submitSignupForm numberValue fetchSignup auth page).invalidField =
      LoginPage.signupFormInvalidField numberValue page := by
  unfold LoginPage.submitSignupForm
  cases hf : LoginPage.signupFormInvalidField numberValue page <;> rfl

theorem handleSignupSubmit_password_mismatch
    (fetchSignup : String → String → String → String → AuthContext.FetchResult)
    (auth : AuthContext.AuthState) (page : LoginPage.PageState)
    (h : page.password ≠ page.confirmPassword) :
    LoginPage.handleSignupSubmit fetchSignup auth page =
      { auth := auth,
        page := { page with message := some "Passwords do not match!", loading := false },
        signupCalls := [] } := by
  unfold LoginPage.handleSignupSubmit
  simp [h]

theorem handleSignupSubmit_under_age
    (fetchSignup : String → String → String → String → AuthContext.FetchResult)
    (auth : AuthContext.AuthState) (page : LoginPage.PageState)
    (hpw : page.password = page.confirmPassword)
    (h : parseIntLessThan page.age 16 = true) :
    LoginPage.handleSignupSubmit fetchSignup auth page =
      { auth := auth,
        page := { page with
          message := some "You must be at least 16 years old to sign up.",
          loading := false },
        signupCalls := [] } := by
  unfold LoginPage.handleSignupSubmit
  simp [hpw, h]

theorem handleSignupSubmit_bad_mobile
    (fetchSignup : String → String → String → String → AuthContext.FetchResult)
    (auth : AuthContext.AuthState) (page : LoginPage.PageState)
    (hpw : page.password = page.confirmPassword)
    (hage : parseIntLessThan page.age 16 = false)
    (h : testDigits 10 page.mobileNumber = false) :
    LoginPage.handleSignupSubmit fetchSignup auth page =
      { auth := auth,
        page := { page with message := some "Mobile number must be 10 digits.",
                            loading := false },
        signupCalls := [] } := by
  unfold LoginPage.handleSignupSubmit
  simp [hpw, hage, h]

theorem handleSignupSubmit_calls_of_valid
    (fetchSignup : String → String → String → String → AuthContext.FetchResult)
    (auth : AuthContext.AuthState) (page : LoginPage.PageState)
    (hpw : page.password = page.confirmPassword)
    (hage : parseIntLessThan page.age 16 = false)
    (h : testDigits 10 page.mobileNumber = true) :
    (LoginPage.handleSignupSubmit fetchSignup auth page).signupCalls =
      [{ username := page.username, password := page.password, age := page.age,
         mobileNumber := page.mobileNumber }] := by
  unfold LoginPage.handleSignupSubmit
  simp only [hpw, hage, h, bne_self_eq_false, Bool.false_eq_true, if_false, Bool.not_true]
  split <;> rfl

/-- Claim C15.  For every content of the signup form, pressing its submit
button leads to a call of `signup` only when `password` equals
`confirmPassword`, the text of the age control is a number that is at least 16,
and `mobileNumber` consists of exactly ten decimal digits.  In every other case
no `signup` call is made and the failure is shown: a text of the age control
that is not a number of at least 16, and a mobile number that is not ten
digits, stop the submission at a control of the form (at the age control,
respectively the mobile number control, when the controls before it are
valid), and passwords that differ are either stopped at a control or answered
by `handleSignupSubmit` with the message `Passwords do not match!`.  Whenever
the submit event reaches `handleSignupSubmit`, it makes no call and shows its
own message when the passwords differ, when `parseInt(age) < 16`, or when the
mobile number fails the test of ten digits, and it calls `signup` once with
the four fields otherwise. -/
theorem signup_only_for_valid_form (numberValue : String → Option Rat)
    (fetchSignup : String → String → String → String → AuthContext.FetchResult)
    (auth : AuthContext.AuthState) (page : LoginPage.PageState) :
    ((LoginPage.submitSignupForm numberValue fetchSignup auth page).outcome.signupCalls ≠ [] →
      page.password = page.confirmPassword ∧
      (∃ value, numberValue page.age = some value ∧ value ≥ 16) ∧
      (page.mobileNumber.length = 10 ∧ ∀ c ∈ page.mobileNumber.toList, c.isDigit = true)) ∧
    (page.password ≠ page.confirmPassword →
      (LoginPage.submitSignupForm numberValue fetchSignup auth page).outcome.signupCalls = [] ∧
      ((LoginPage.submitSignupForm numberValue fetchSignup auth page).invalidField ≠ none ∨
        (LoginPage.submitSignupForm numberValue fetchSignup auth page).outcome.page.message =
          some "Passwords do not match!")) ∧
    ((¬ ∃ value, numberValue page.age = some value ∧ value ≥ 16) →
      (LoginPage.submitSignupForm numberValue fetchSignup auth page).outcome.signupCalls = [] ∧
      (LoginPage.submitSignupForm numberValue fetchSignup auth page).outcome.page = page ∧
      (LoginPage.submitSignupForm numberValue fetchSignup auth page).invalidField ≠ none ∧
      (page.username ≠ "" → page.password ≠ "" → page.confirmPassword ≠ "" →
        (LoginPage.submitSignupForm numberValue fetchSignup auth page).invalidField =
          some "age")) ∧
    ((¬ (page.mobileNumber.length = 10 ∧ ∀ c ∈ page.mobileNumber.toList, c.isDigit = true)) →
      (LoginPage.submitSignupForm numberValue fetchSignup auth page).outcome.signupCalls = [] ∧
      (LoginPage.submitSignupForm numberValue fetchSignup auth page).outcome.page = page ∧
      (LoginPage.submitSignupForm numberValue fetchSignup auth page).invalidField ≠ none ∧
      (page.username ≠ "" → page.password ≠ "" → page.confirmPassword ≠ "" →
        LoginPage.ageInputValid numberValue page.age = true →
        (LoginPage.submitSignupForm numberValue fetchSignup auth page).invalidField =
          some "mobileNumber")) ∧
    ((LoginPage.submitSignupForm numberValue fetchSignup auth page).invalidField = none →
      (LoginPage.submitSignupForm numberValue fetchSignup auth page).outcome =
        LoginPage.handleSignupSubmit fetchSignup auth page) ∧
    (page.password ≠ page.confirmPassword →
      (LoginPage.handleSignupSubmit fetchSignup auth page).signupCalls = [] ∧
      (LoginPage.handleSignupSubmit fetchSignup auth page).page.message =
        some "Passwords do not match!") ∧
    (page.password = page.confirmPassword → parseIntLessThan page.age 16 = true →
      (LoginPage.handleSignupSubmit fetchSignup auth page).signupCalls = [] ∧
      (LoginPage.handleSignupSubmit fetchSignup auth page).page.message =
        some "You must be at least 16 years old to sign up.") ∧
    (page.password = page.confirmPassword → parseIntLessThan page.age 16 = false →
      testDigits 10 page.mobileNumber = false →
      (LoginPage.handleSignupSubmit fetchSignup auth page).signupCalls = [] ∧
      (LoginPage.handleSignupSubmit fetchSignup auth page).page.message =
        some "Mobile number must be 10 digits.") ∧
    (page.password = page.confirmPassword → parseIntLessThan page.age 16 = false →
      testDigits 10 page.mobileNumber = true →
      (LoginPage.handleSignupSubmit fetchSignup auth page).signupCalls =
        [{ username := page.username, password := page.password, age := page.age,
           mobileNumber := page.mobileNumber }]) := by
  have hfield := submitSignupForm_invalidField numberValue fetchSignup auth page
  refine ⟨?_, ?_, ?_, ?_, ?_, ?_, ?_, ?_, ?_⟩
  · intro hcalls
    by_cases hvalid : LoginPage.signupFormInvalidField numberValue page = none
    · have hout := (submitSignupForm_of_valid numberValue fetchSignup auth page hvalid).2
      rw [hout] at hcalls
      have hhandler := (handleSignupSubmit_calls_iff fetchSignup auth page).mp hcalls
      have hcontrols := (signupFormInvalidField_none_iff numberValue page).mp hvalid
      obtain ⟨_, value, hvalue, hmin, _⟩ := ageInputValid_number numberValue page.age
        hcontrols.2.2.2.1
      exact ⟨hhandler.1, ⟨value, hvalue, hmin⟩, (testDigits_iff 10 _).mp hhandler.2.2⟩
    · have hout := (submitSignupForm_of_invalid numberValue fetchSignup auth page hvalid).2
      rw [hout] at hcalls
      exact absurd rfl hcalls
  · intro hpw
    by_cases hvalid : LoginPage.signupFormInvalidField numberValue page = none
    · have hout := (submitSignupForm_of_valid numberValue fetchSignup auth page hvalid).2
      rw [hout, handleSignupSubmit_password_mismatch fetchSignup auth page hpw]
      exact ⟨rfl, Or.inr rfl⟩
    · have hout := (submitSignupForm_of_invalid numberValue fetchSignup auth page hvalid).2
      rw [hout, hfield]
      exact ⟨rfl, Or.inl hvalid⟩
  · intro hage
    have hcontrol : LoginPage.ageInputValid numberValue page.age = false := by
      cases hc : LoginPage.ageInputValid numberValue page.age with
      | false => rfl
      | true =>
        obtain ⟨_, value, hvalue, hmin, _⟩ := ageInputValid_number numberValue page.age hc
        exact absurd ⟨value, hvalue, hmin⟩ hage
    have hvalid : LoginPage.signupFormInvalidField numberValue page ≠ none := by
      intro hnone
      have hcontrols := (signupFormInvalidField_none_iff numberValue page).mp hnone
      rw [hcontrol] at hcontrols
      exact absurd hcontrols.2.2.2.1 (by decide)
    have hout := (submitSignupForm_of_invalid numberValue fetchSignup auth page hvalid).2
    rw [hout, hfield]
    refine ⟨rfl, rfl, hvalid, ?_⟩
    intro h1 h2 h3
    unfold LoginPage.signupFormInvalidField
    simp [h1, h2, h3, hcontrol]
  · intro hmobile
    have hcontrol : testDigits 10 page.mobileNumber = false := by
      cases hc : testDigits 10 page.mobileNumber with
      | false => rfl
      | true => exact absurd ((testDigits_iff 10 _).mp hc) hmobile
    have hvalid : LoginPage.signupFormInvalidField numberValue page ≠ none := by
      intro hnone
      have hcontrols := (signupFormInvalidField_none_iff numberValue page).mp hnone
      rw [hcontrol] at hcontrols
      exact absurd hcontrols.2.2.2.2.2 (by decide)
    have hout := (submitSignupForm_of_invalid numberValue fetchSignup auth page hvalid).2
    rw [hout, hfield]
    refine ⟨rfl, rfl, hvalid, ?_⟩
    intro h1 h2 h3 h4
    unfold LoginPage.signupFormInvalidField
    simp [h1, h2, h3, h4, hcontrol]
  · intro hnone
    rw [hfield] at hnone
    exact (submitSignupForm_of_valid numberValue fetchSignup auth page hnone).2
  · intro hpw
    rw [handleSignupSubmit_password_mismatch fetchSignup auth page hpw]
    exact ⟨rfl, rfl⟩
  · intro hpw hage
    rw [handleSignupSubmit_under_age fetchSignup auth page hpw hage]
    exact ⟨rfl, rfl⟩
  · intro hpw hage hmobile
    rw [handleSignupSubmit_bad_mobile fetchSignup auth page hpw hage hmobile]
    exact ⟨rfl, rfl⟩
  · intro hpw hage hmobile
    exact handleSignupSubmit_calls_of_valid fetchSignup auth page hpw hage hmobile

theorem sampleNumberValue_digits :
    sampleNumberValue "17" = some 17 ∧ sampleNumberValue "15" = some 15 ∧
    sampleNumberValue "" = none := by
  have h17 : parseInt "17" = some 17 := by decide
  have h15 : parseInt "15" = some 15 := by decide
  have h0 : parseInt "" = none := by decide
  have d17 : "17".toList.all Char.isDigit = true := by decide
  have d15 : "15".toList.all Char.isDigit = true := by decide
  have d0 : "".toList.all Char.isDigit = true := by decide
  refine ⟨?_, ?_, ?_⟩
  · unfold sampleNumberValue
    rw [if_pos d17, h17]
    simp
  · unfold sampleNumberValue
    rw [if_pos d15, h15]
    simp
  · unfold sampleNumberValue
    rw [if_pos d0, h0]
    rfl

/-- Witness of C15: the form with age `17` is submitted and `signup` is called
once; with age `15` and with an empty age the submission stops at the age
control and `signup` is not called. -/
theorem signup_only_for_valid_form_witness :
    (LoginPage.submitSignupForm sampleNumberValue
      (fun _ _ _ _ => .response true
        (.ok (.object { message := some "User registered successfully!",
                        user := .undefined })))
      { user := .null, authMessage := none } (sampleSignupForm "17")).outcome.signupCalls
      = [{ username := "asha", password := "secret", age := "17",
           mobileNumber := "9876543210" }] ∧
    (∃ value, sampleNumberValue "17" = some value ∧ value ≥ 16) ∧
    (LoginPage.submitSignupForm sampleNumberValue
      (fun _ _ _ _ => .response true
        (.ok (.object { message := some "User registered successfully!",
                        user := .undefined })))
      { user := .null, authMessage := none } (sampleSignupForm "15")).outcome.signupCalls
      = [] ∧
    (LoginPage.submitSignupForm sampleNumberValue
      (fun _ _ _ _ => .response true
        (.ok (.object { message := some "User registered successfully!",
                        user := .undefined })))
      { user := .null, authMessage := none } (sampleSignupForm "15")).invalidField
      = some "age" ∧
    (LoginPage.submitSignupForm sampleNumberValue
      (fun _ _ _ _ => .response true
        (.ok (.object { message := some "User registered successfully!",
                        user := .undefined })))
      { user := .null, authMessage := none } (sampleSignupForm "")).outcome.signupCalls
      = [] ∧
    (LoginPage.submitSignupForm sampleNumberValue
      (fun _ _ _ _ => .response true
        (.ok (.object { message := some "User registered successfully!",
                        user := .undefined })))
      { user := .null, authMessage := none } (sampleSignupForm "")).invalidField
      = some "age" := by
  have hage17 : LoginPage.ageInputValid sampleNumberValue "17" = true := by
    unfold LoginPage.ageInputValid
    rw [sampleNumberValue_digits.1]
    simp
    norm_num
  have hvalid17 : LoginPage.signupFormInvalidField sampleNumberValue (sampleSignupForm "17")
      = none := by
    rw [signupFormInvalidField_none_iff]
    exact ⟨by decide, by decide, by decide, hage17, by decide, by decide⟩
  have hreached : (LoginPage.submitSignupForm sampleNumberValue
      (fun _ _ _ _ => .response true
        (.ok (.object { message := some "User registered successfully!",
                        user := .undefined })))
      { user := .null, authMessage := none } (sampleSignupForm "17")).invalidField = none :=
    (submitSignupForm_of_valid _ _ _ _ hvalid17).1
  have h17 := signup_only_for_valid_form sampleNumberValue
    (fun _ _ _ _ => .response true
      (.ok (.object { message := some "User registered successfully!",
                      user := .undefined })))
    { user := .null, authMessage := none } (sampleSignupForm "17")
  have h15 := (signup_only_for_valid_form sampleNumberValue
    (fun _ _ _ _ => .response true
      (.ok (.object { message := some "User registered successfully!",
                      user := .undefined })))
    { user := .null, authMessage := none } (sampleSignupForm "15")).2.2.1
    (by
      rintro ⟨value, hvalue, hmin⟩
      have h := sampleNumberValue_digits.2.1
      change sampleNumberValue "15" = some value at hvalue
      rw [h] at hvalue
      cases hvalue
      norm_num at hmin)
  have h0 := (signup_only_for_valid_form sampleNumberValue
    (fun _ _ _ _ => .response true
      (.ok (.object { message := some "User registered successfully!",
                      user := .undefined })))
    { user := .null, authMessage := none } (sampleSignupForm "")).2.2.1
    (by
      rintro ⟨value, hvalue, _⟩
      have h := sampleNumberValue_digits.2.2
      change sampleNumberValue "" = some value at hvalue
      rw [h] at hvalue
      cases hvalue)
  have hcalls : (LoginPage.submitSignupForm sampleNumberValue
      (fun _ _ _ _ => .response true
        (.ok (.object { message := some "User registered successfully!",
                        user := .undefined })))
      { user := .null, authMessage := none } (sampleSignupForm "17")).outcome.signupCalls
      = [{ username := "asha", password := "secret", age := "17",
           mobileNumber := "9876543210" }] := by
    rw [h17.2.2.2.2.1 hreached]
    exact h17.2.2.2.2.2.2.2.2 (by decide) (by decide) (by decide)
  have hnumber := (h17.1 (by rw [hcalls]; exact List.cons_ne_nil _ _)).2.1
  exact ⟨hcalls, hnumber, h15.1, h15.2.2.2 (by decide) (by decide) (by decide),
    h0.1, h0.2.2.2 (by decide) (by decide) (by decide)⟩
